import Mathlib

/-!
# hpp-fcl: collision dispatch, shape-pair contact construction

A shallow embedding of `src/collision_func_matrix.cpp`.

* A value of `FCL_REAL` is a rational number, as every finite `double` is one. The
  routines compare and negate such values, which the machine does without rounding.
  Sums, differences and products of vectors are rounded by the machine: they are the
  operators of the vector type, taken as parameters like the other code that is only
  called.
* A `CollisionGeometry*` is modelled by the identity of the object it points to.
* Code that the translation unit only calls (the request's satisfaction predicate,
  the distance solver, the operators of the vector type, vector normalisation, the
  traversal engine) is collected in `Externals` and taken as a parameter; every theorem
  holds for every choice of it.
* A call yields an `Outcome`: the value returned (absent when an `assert` stopped the
  call), the result object as the call left it, and the trace of the external work
  the call performed, in program order.
-/

namespace HppFcl

/-! ## Data model -/

/-- Scalar type of the library. -/
abbrev FCL_REAL := ℚ

/-- Three-component vector. -/
structure Vec3f where
  x : FCL_REAL
  y : FCL_REAL
  z : FCL_REAL
deriving DecidableEq

namespace Vec3f

/-- Component-wise sum of two vectors, without rounding. -/
def add (a b : Vec3f) : Vec3f := ⟨a.x + b.x, a.y + b.y, a.z + b.z⟩

/-- Component-wise difference of two vectors, without rounding. -/
def sub (a b : Vec3f) : Vec3f := ⟨a.x - b.x, a.y - b.y, a.z - b.z⟩

/-- Product of a vector by a scalar, without rounding. -/
def scale (k : FCL_REAL) (a : Vec3f) : Vec3f := ⟨k * a.x, k * a.y, k * a.z⟩

/-- Zero vector. -/
def zero : Vec3f := ⟨0, 0, 0⟩

/-- Scalar product of two vectors, without rounding. -/
def dot (a b : Vec3f) : FCL_REAL := a.x * b.x + a.y * b.y + a.z * b.z

end Vec3f

/-- Identity of a collision geometry (the value of a `const CollisionGeometry*`). -/
abbrev CollisionGeometry := Nat

/-- Rigid placement: a rotation quaternion `(w, x, y, z)` and a translation. The routines
only pass placements on. -/
structure Transform3f where
  qw : FCL_REAL
  qx : FCL_REAL
  qy : FCL_REAL
  qz : FCL_REAL
  T : Vec3f
deriving DecidableEq

/-- Registry codes, in the order in which the enumeration is exported by
`python/collision-geometries.cc`; `NODE_COUNT` is their number. -/
inductive NODE_TYPE
  | BV_UNKNOWN | BV_AABB | BV_OBB | BV_RSS | BV_kIOS | BV_OBBRSS
  | BV_KDOP16 | BV_KDOP18 | BV_KDOP24
  | GEOM_BOX | GEOM_SPHERE | GEOM_CAPSULE | GEOM_CONE | GEOM_CYLINDER | GEOM_CONVEX
  | GEOM_PLANE | GEOM_HALFSPACE | GEOM_TRIANGLE | GEOM_OCTREE
deriving DecidableEq, Fintype

/-- Number of registry codes. -/
def NODE_COUNT : Nat := 19

/-- Shape classes used as template arguments `T_SH`, `T_SH1`, `T_SH2`. -/
inductive ShapeType
  | Box | Sphere | Capsule | Cone | Cylinder | Convex | Plane | Halfspace
deriving DecidableEq, Fintype

/-- Bounding-volume classes used as template argument `T_BVH`
(`KDOP16` stands for `KDOP<16>`, and so on). -/
inductive BVType
  | AABB | OBB | RSS | kIOS | OBBRSS | KDOP16 | KDOP18 | KDOP24
deriving DecidableEq, Fintype

/-- Registry code of a shape class (`GEOM_BOX` for `Box`, ...). -/
def ShapeType.nodeType : ShapeType → NODE_TYPE
  | .Box => .GEOM_BOX
  | .Sphere => .GEOM_SPHERE
  | .Capsule => .GEOM_CAPSULE
  | .Cone => .GEOM_CONE
  | .Cylinder => .GEOM_CYLINDER
  | .Convex => .GEOM_CONVEX
  | .Plane => .GEOM_PLANE
  | .Halfspace => .GEOM_HALFSPACE

/-- Registry code of a `BVHModel<T_BVH>` (`BV_AABB` for `AABB`, ...). -/
def BVType.nodeType : BVType → NODE_TYPE
  | .AABB => .BV_AABB
  | .OBB => .BV_OBB
  | .RSS => .BV_RSS
  | .kIOS => .BV_kIOS
  | .OBBRSS => .BV_OBBRSS
  | .KDOP16 => .BV_KDOP16
  | .KDOP18 => .BV_KDOP18
  | .KDOP24 => .BV_KDOP24

/-- Request: the fields exported by `python/collision.cc`. -/
structure CollisionRequest where
  num_max_contacts : Nat
  enable_contact : Bool
  enable_distance_lower_bound : Bool
  enable_cached_gjk_guess : Bool
  cached_gjk_guess : Vec3f
  security_margin : FCL_REAL
  break_distance : FCL_REAL
deriving DecidableEq

/-- Contact: the fields exported by `python/collision.cc`. -/
structure Contact where
  o1 : CollisionGeometry
  o2 : CollisionGeometry
  b1 : Int
  b2 : Int
  normal : Vec3f
  pos : Vec3f
  penetration_depth : FCL_REAL
deriving DecidableEq

/-- Modelled from the spec: the four-argument constructor `Contact(o1, o2, b1, b2)`, whose
declaration is not part of the sources. It records the two geometries and the two sub-part
indices; the three remaining fields are assigned by the caller before the contact is used. -/
def Contact.init (o1 o2 : CollisionGeometry) (b1 b2 : Int) : Contact :=
  { o1 := o1, o2 := o2, b1 := b1, b2 := b2,
    normal := Vec3f.zero, pos := Vec3f.zero, penetration_depth := 0 }

/-- Result: the ordered sequence of contacts and the distance lower bound. -/
structure CollisionResult where
  contacts : List Contact
  distance_lower_bound : FCL_REAL
deriving DecidableEq

/-- The member `numContacts()`: number of contacts held. -/
def CollisionResult.numContacts (result : CollisionResult) : Nat := result.contacts.length

/-- The member `isCollision()`: whether a contact is held. -/
def CollisionResult.isCollision (result : CollisionResult) : Bool := 0 < result.contacts.length

/-- The member `addContact(c)`: `c` is appended at the end of the sequence. -/
def CollisionResult.addContact (result : CollisionResult) (c : Contact) : CollisionResult :=
  { result with contacts := result.contacts ++ [c] }

/-- Request handed to the distance solver; `DistanceRequest(request.enable_contact)` sets
`enable_nearest_points`. -/
structure DistanceRequest where
  enable_nearest_points : Bool
deriving DecidableEq

/-- What the distance solver writes into its `DistanceResult`. -/
structure DistanceResult where
  nearest_points0 : Vec3f
  nearest_points1 : Vec3f
  normal : Vec3f
  b1 : Int
  b2 : Int
deriving DecidableEq

/-- Traversal node classes instantiated by the routines. -/
inductive NodeClass
  | MeshShapeCollisionTraversalNode (T_BVH : BVType) (T_SH : ShapeType)
  | MeshShapeCollisionTraversalNodeOBB (T_SH : ShapeType)
  | MeshShapeCollisionTraversalNodeRSS (T_SH : ShapeType)
  | MeshShapeCollisionTraversalNodekIOS (T_SH : ShapeType)
  | MeshShapeCollisionTraversalNodeOBBRSS (T_SH : ShapeType)
  | MeshCollisionTraversalNode (T_BVH : BVType)
  | MeshCollisionTraversalNodeOBB
  | MeshCollisionTraversalNodeOBBRSS
  | MeshCollisionTraversalNodekIOS
  | ShapeOcTreeCollisionTraversalNode (T_SH : ShapeType)
  | OcTreeShapeCollisionTraversalNode (T_SH : ShapeType)
  | OcTreeCollisionTraversalNode
  | OcTreeMeshCollisionTraversalNode (T_BVH : BVType)
  | MeshOcTreeCollisionTraversalNode (T_BVH : BVType)
deriving DecidableEq

/-- Object a traversal node was set up with: the caller's geometry itself, or the temporary
copy `new BVHModel<T_BVH>(*obj)` of it. -/
inductive ModelRef
  | original (o : CollisionGeometry)
  | copy (o : CollisionGeometry)
deriving DecidableEq

/-- Traversal node after the set-up call: its class, the two objects and their placements. -/
structure TraversalNode where
  cls : NodeClass
  model1 : ModelRef
  tf1 : Transform3f
  model2 : ModelRef
  tf2 : Transform3f
deriving DecidableEq

/-- External work a routine performs, recorded in program order. -/
inductive Event
  | distance (T_SH1 T_SH2 : ShapeType) (o1 : CollisionGeometry) (tf1 : Transform3f)
      (o2 : CollisionGeometry) (tf2 : Transform3f) (req : DistanceRequest)
  | assertion (holds : Bool)
  | clone (o : CollisionGeometry)
  | traversal (node : TraversalNode)
  | release (o : CollisionGeometry)
deriving DecidableEq

/-- What a call leaves behind: the value returned (`none` when a failed `assert` stopped the
call), the result object, and the external work performed. -/
structure Outcome where
  ret : Option Nat
  result : CollisionResult
  trace : List Event
deriving DecidableEq

/-- Code the routines call but which is defined elsewhere. -/
structure Externals where
  /-- `CollisionRequest::isSatisfied(result)`. -/
  isSatisfied : CollisionRequest → CollisionResult → Bool
  /-- `ShapeShapeDistance<T_SH1, T_SH2, NarrowPhaseSolver>`: the distance returned and the
  `DistanceResult` filled in. -/
  ShapeShapeDistance : ShapeType → ShapeType → CollisionGeometry → Transform3f →
    CollisionGeometry → Transform3f → DistanceRequest → FCL_REAL × DistanceResult
  /-- The operator `a + b` of `Vec3f`, computed in machine arithmetic. -/
  plus : Vec3f → Vec3f → Vec3f
  /-- The operator `a - b` of `Vec3f`, computed in machine arithmetic. -/
  minus : Vec3f → Vec3f → Vec3f
  /-- The operator `k * a` of a scalar and a `Vec3f`, computed in machine arithmetic. -/
  times : FCL_REAL → Vec3f → Vec3f
  /-- `Vec3f::normalized()`. -/
  normalized : Vec3f → Vec3f
  /-- `collide(&node, request, result)` on a node that was set up: the result object as the
  traversal leaves it. -/
  collide : TraversalNode → CollisionRequest → CollisionResult → CollisionResult

/-! ## The routines of `collision_func_matrix.cpp` -/

/-- `ShapeShapeCollide<T_SH1, T_SH2, NarrowPhaseSolver>` (lines 142-180). `NDEBUG` tells
whether the translation unit is compiled with `assert` disabled. -/
def ShapeShapeCollide (ext : Externals) (NDEBUG : Bool) (T_SH1 T_SH2 : ShapeType)
    (o1 : CollisionGeometry) (tf1 : Transform3f) (o2 : CollisionGeometry) (tf2 : Transform3f)
    (request : CollisionRequest) (result : CollisionResult) : Outcome :=
  if ext.isSatisfied request result then
    { ret := some result.numContacts, result := result, trace := [] }
  else
    let distanceRequest : DistanceRequest := { enable_nearest_points := request.enable_contact }
    let solved := ext.ShapeShapeDistance T_SH1 T_SH2 o1 tf1 o2 tf2 distanceRequest
    let distance := solved.1
    let distanceResult := solved.2
    let called := [Event.distance T_SH1 T_SH2 o1 tf1 o2 tf2 distanceRequest]
    if distance ≤ 0 then
      if result.numContacts < request.num_max_contacts then
        let contact := Contact.init o1 o2 distanceResult.b1 distanceResult.b2
        let p1 := distanceResult.nearest_points0
        if NDEBUG then
          { ret := some 1,
            result := result.addContact
              { contact with pos := p1, normal := distanceResult.normal,
                             penetration_depth := -distance },
            trace := called }
        else if p1 = distanceResult.nearest_points1 then
          { ret := some 1,
            result := result.addContact
              { contact with pos := p1, normal := distanceResult.normal,
                             penetration_depth := -distance },
            trace := called ++ [Event.assertion true] }
        else
          { ret := none, result := result, trace := called ++ [Event.assertion false] }
      else
        { ret := some 1, result := result, trace := called }
    else if distance ≤ request.security_margin then
      if result.numContacts < request.num_max_contacts then
        let contact := Contact.init o1 o2 distanceResult.b1 distanceResult.b2
        let p1 := distanceResult.nearest_points0
        let p2 := distanceResult.nearest_points1
        { ret := some 1,
          result := result.addContact
            { contact with pos := ext.times (1/2) (ext.plus p1 p2),
                           normal := ext.normalized (ext.minus p2 p1),
                           penetration_depth := -distance },
          trace := called }
      else
        { ret := some 1, result := result, trace := called }
    else
      { ret := some 0, result := { result with distance_lower_bound := distance },
        trace := called }

/-- Outcome of the entry test `if(request.isSatisfied(result)) return result.numContacts();`
when it fires. -/
def satisfiedReturn (result : CollisionResult) : Outcome :=
  { ret := some result.numContacts, result := result, trace := [] }

/-- Primary template `BVHShapeCollider<T_BVH, T_SH, NarrowPhaseSolver>::collide`
(lines 182-203): the traversal runs on a temporary copy of the mesh. -/
def BVHShapeCollider.collidePrimary (ext : Externals) (T_BVH : BVType) (T_SH : ShapeType)
    (o1 : CollisionGeometry) (tf1 : Transform3f) (o2 : CollisionGeometry) (tf2 : Transform3f)
    (request : CollisionRequest) (result : CollisionResult) : Outcome :=
  if ext.isSatisfied request result then satisfiedReturn result
  else
    let obj1_tmp := ModelRef.copy o1
    let tf1_tmp := tf1
    let node : TraversalNode :=
      { cls := .MeshShapeCollisionTraversalNode T_BVH T_SH,
        model1 := obj1_tmp, tf1 := tf1_tmp, model2 := .original o2, tf2 := tf2 }
    let result1 := ext.collide node request result
    { ret := some result1.numContacts, result := result1,
      trace := [Event.clone o1, Event.traversal node, Event.release o1] }

/-- `details::orientedBVHShapeCollide` (lines 208-222); `nodeClass` is the template argument
`OrientMeshShapeCollisionTraveralNode`. The traversal runs on the caller's mesh. -/
def details.orientedBVHShapeCollide (ext : Externals) (nodeClass : NodeClass)
    (o1 : CollisionGeometry) (tf1 : Transform3f) (o2 : CollisionGeometry) (tf2 : Transform3f)
    (request : CollisionRequest) (result : CollisionResult) : Outcome :=
  if ext.isSatisfied request result then satisfiedReturn result
  else
    let node : TraversalNode :=
      { cls := nodeClass, model1 := .original o1, tf1 := tf1,
        model2 := .original o2, tf2 := tf2 }
    let result1 := ext.collide node request result
    { ret := some result1.numContacts, result := result1, trace := [Event.traversal node] }

/-- `BVHShapeCollider<T_BVH, T_SH, NarrowPhaseSolver>::collide`: the specialisations for
`OBB`, `RSS`, `kIOS` and `OBBRSS` (lines 227-272), the primary template otherwise. -/
def BVHShapeCollider.collide (ext : Externals) (T_BVH : BVType) (T_SH : ShapeType)
    (o1 : CollisionGeometry) (tf1 : Transform3f) (o2 : CollisionGeometry) (tf2 : Transform3f)
    (request : CollisionRequest) (result : CollisionResult) : Outcome :=
  match T_BVH with
  | .OBB =>
    details.orientedBVHShapeCollide ext (.MeshShapeCollisionTraversalNodeOBB T_SH)
      o1 tf1 o2 tf2 request result
  | .RSS =>
    details.orientedBVHShapeCollide ext (.MeshShapeCollisionTraversalNodeRSS T_SH)
      o1 tf1 o2 tf2 request result
  | .kIOS =>
    details.orientedBVHShapeCollide ext (.MeshShapeCollisionTraversalNodekIOS T_SH)
      o1 tf1 o2 tf2 request result
  | .OBBRSS =>
    details.orientedBVHShapeCollide ext (.MeshShapeCollisionTraversalNodeOBBRSS T_SH)
      o1 tf1 o2 tf2 request result
  | .AABB => BVHShapeCollider.collidePrimary ext .AABB T_SH o1 tf1 o2 tf2 request result
  | .KDOP16 => BVHShapeCollider.collidePrimary ext .KDOP16 T_SH o1 tf1 o2 tf2 request result
  | .KDOP18 => BVHShapeCollider.collidePrimary ext .KDOP18 T_SH o1 tf1 o2 tf2 request result
  | .KDOP24 => BVHShapeCollider.collidePrimary ext .KDOP24 T_SH o1 tf1 o2 tf2 request result

/-- Primary template `BVHCollide<T_BVH>` (lines 275-295): the traversal runs on temporary
copies of both meshes. -/
def BVHCollidePrimary (ext : Externals) (T_BVH : BVType)
    (o1 : CollisionGeometry) (tf1 : Transform3f) (o2 : CollisionGeometry) (tf2 : Transform3f)
    (request : CollisionRequest) (result : CollisionResult) : Outcome :=
  if ext.isSatisfied request result then satisfiedReturn result
  else
    let obj1_tmp := ModelRef.copy o1
    let tf1_tmp := tf1
    let obj2_tmp := ModelRef.copy o2
    let tf2_tmp := tf2
    let node : TraversalNode :=
      { cls := .MeshCollisionTraversalNode T_BVH,
        model1 := obj1_tmp, tf1 := tf1_tmp, model2 := obj2_tmp, tf2 := tf2_tmp }
    let result1 := ext.collide node request result
    { ret := some result1.numContacts, result := result1,
      trace := [Event.clone o1, Event.clone o2, Event.traversal node,
                Event.release o1, Event.release o2] }

/-- `details::orientedMeshCollide` (lines 299-312); `nodeClass` is the template argument
`OrientedMeshCollisionTraversalNode`. The traversal runs on the caller's meshes. -/
def details.orientedMeshCollide (ext : Externals) (nodeClass : NodeClass)
    (o1 : CollisionGeometry) (tf1 : Transform3f) (o2 : CollisionGeometry) (tf2 : Transform3f)
    (request : CollisionRequest) (result : CollisionResult) : Outcome :=
  if ext.isSatisfied request result then satisfiedReturn result
  else
    let node : TraversalNode :=
      { cls := nodeClass, model1 := .original o1, tf1 := tf1,
        model2 := .original o2, tf2 := tf2 }
    let result1 := ext.collide node request result
    { ret := some result1.numContacts, result := result1, trace := [Event.traversal node] }

/-- `BVHCollide<T_BVH>`: the explicit specialisations for `OBB`, `OBBRSS` and `kIOS`
(lines 316-333), the primary template otherwise. The overload taking a solver
(lines 336-342) forwards to it and is what the matrix stores. -/
def BVHCollide (ext : Externals) (T_BVH : BVType)
    (o1 : CollisionGeometry) (tf1 : Transform3f) (o2 : CollisionGeometry) (tf2 : Transform3f)
    (request : CollisionRequest) (result : CollisionResult) : Outcome :=
  match T_BVH with
  | .OBB =>
    details.orientedMeshCollide ext .MeshCollisionTraversalNodeOBB o1 tf1 o2 tf2 request result
  | .OBBRSS =>
    details.orientedMeshCollide ext .MeshCollisionTraversalNodeOBBRSS o1 tf1 o2 tf2 request result
  | .kIOS =>
    details.orientedMeshCollide ext .MeshCollisionTraversalNodekIOS o1 tf1 o2 tf2 request result
  | .AABB => BVHCollidePrimary ext .AABB o1 tf1 o2 tf2 request result
  | .RSS => BVHCollidePrimary ext .RSS o1 tf1 o2 tf2 request result
  | .KDOP16 => BVHCollidePrimary ext .KDOP16 o1 tf1 o2 tf2 request result
  | .KDOP18 => BVHCollidePrimary ext .KDOP18 o1 tf1 o2 tf2 request result
  | .KDOP24 => BVHCollidePrimary ext .KDOP24 o1 tf1 o2 tf2 request result

/-- Common body of the five routines compiled under `HPP_FCL_HAVE_OCTOMAP` (lines 51-140):
entry test, node set-up on the caller's objects, traversal, `return result.numContacts()`. -/
def octreeBody (ext : Externals) (nodeClass : NodeClass)
    (o1 : CollisionGeometry) (tf1 : Transform3f) (o2 : CollisionGeometry) (tf2 : Transform3f)
    (request : CollisionRequest) (result : CollisionResult) : Outcome :=
  if ext.isSatisfied request result then satisfiedReturn result
  else
    let node : TraversalNode :=
      { cls := nodeClass, model1 := .original o1, tf1 := tf1,
        model2 := .original o2, tf2 := tf2 }
    let result1 := ext.collide node request result
    { ret := some result1.numContacts, result := result1, trace := [Event.traversal node] }

/-- `ShapeOcTreeCollide<T_SH, NarrowPhaseSolver>` (lines 52-68). -/
def ShapeOcTreeCollide (ext : Externals) (T_SH : ShapeType)
    (o1 : CollisionGeometry) (tf1 : Transform3f) (o2 : CollisionGeometry) (tf2 : Transform3f)
    (request : CollisionRequest) (result : CollisionResult) : Outcome :=
  octreeBody ext (.ShapeOcTreeCollisionTraversalNode T_SH) o1 tf1 o2 tf2 request result

/-- `OcTreeShapeCollide<T_SH, NarrowPhaseSolver>` (lines 70-86). -/
def OcTreeShapeCollide (ext : Externals) (T_SH : ShapeType)
    (o1 : CollisionGeometry) (tf1 : Transform3f) (o2 : CollisionGeometry) (tf2 : Transform3f)
    (request : CollisionRequest) (result : CollisionResult) : Outcome :=
  octreeBody ext (.OcTreeShapeCollisionTraversalNode T_SH) o1 tf1 o2 tf2 request result

/-- `OcTreeCollide<NarrowPhaseSolver>` (lines 88-104). -/
def OcTreeCollide (ext : Externals)
    (o1 : CollisionGeometry) (tf1 : Transform3f) (o2 : CollisionGeometry) (tf2 : Transform3f)
    (request : CollisionRequest) (result : CollisionResult) : Outcome :=
  octreeBody ext .OcTreeCollisionTraversalNode o1 tf1 o2 tf2 request result

/-- `OcTreeBVHCollide<T_BVH, NarrowPhaseSolver>` (lines 106-121). -/
def OcTreeBVHCollide (ext : Externals) (T_BVH : BVType)
    (o1 : CollisionGeometry) (tf1 : Transform3f) (o2 : CollisionGeometry) (tf2 : Transform3f)
    (request : CollisionRequest) (result : CollisionResult) : Outcome :=
  octreeBody ext (.OcTreeMeshCollisionTraversalNode T_BVH) o1 tf1 o2 tf2 request result

/-- `BVHOcTreeCollide<T_BVH, NarrowPhaseSolver>` (lines 123-138). -/
def BVHOcTreeCollide (ext : Externals) (T_BVH : BVType)
    (o1 : CollisionGeometry) (tf1 : Transform3f) (o2 : CollisionGeometry) (tf2 : Transform3f)
    (request : CollisionRequest) (result : CollisionResult) : Outcome :=
  octreeBody ext (.MeshOcTreeCollisionTraversalNode T_BVH) o1 tf1 o2 tf2 request result

/-! ## The dispatch matrix -/

/-- Routine a cell of the matrix can point to: a template of the translation unit together
with its template arguments. -/
inductive CollisionFunc
  | ShapeShapeCollide (T_SH1 T_SH2 : ShapeType)
  | BVHShapeCollider_collide (T_BVH : BVType) (T_SH : ShapeType)
  | BVHCollide (T_BVH : BVType)
  | OcTreeShapeCollide (T_SH : ShapeType)
  | ShapeOcTreeCollide (T_SH : ShapeType)
  | OcTreeCollide
  | OcTreeBVHCollide (T_BVH : BVType)
  | BVHOcTreeCollide (T_BVH : BVType)
deriving DecidableEq

/-- Calling through a stored pointer. -/
def CollisionFunc.call (ext : Externals) (NDEBUG : Bool) (f : CollisionFunc)
    (o1 : CollisionGeometry) (tf1 : Transform3f) (o2 : CollisionGeometry) (tf2 : Transform3f)
    (request : CollisionRequest) (result : CollisionResult) : Outcome :=
  match f with
  | .ShapeShapeCollide T_SH1 T_SH2 =>
    HppFcl.ShapeShapeCollide ext NDEBUG T_SH1 T_SH2 o1 tf1 o2 tf2 request result
  | .BVHShapeCollider_collide T_BVH T_SH =>
    BVHShapeCollider.collide ext T_BVH T_SH o1 tf1 o2 tf2 request result
  | .BVHCollide T_BVH => HppFcl.BVHCollide ext T_BVH o1 tf1 o2 tf2 request result
  | .OcTreeShapeCollide T_SH => HppFcl.OcTreeShapeCollide ext T_SH o1 tf1 o2 tf2 request result
  | .ShapeOcTreeCollide T_SH => HppFcl.ShapeOcTreeCollide ext T_SH o1 tf1 o2 tf2 request result
  | .OcTreeCollide => HppFcl.OcTreeCollide ext o1 tf1 o2 tf2 request result
  | .OcTreeBVHCollide T_BVH => HppFcl.OcTreeBVHCollide ext T_BVH o1 tf1 o2 tf2 request result
  | .BVHOcTreeCollide T_BVH => HppFcl.BVHOcTreeCollide ext T_BVH o1 tf1 o2 tf2 request result

/-- Geometry classes a routine casts its first and its second argument to, as registry
codes: the static casts at the head of each routine body. -/
def CollisionFunc.kinds : CollisionFunc → NODE_TYPE × NODE_TYPE
  | .ShapeShapeCollide T_SH1 T_SH2 => (T_SH1.nodeType, T_SH2.nodeType)
  | .BVHShapeCollider_collide T_BVH T_SH => (T_BVH.nodeType, T_SH.nodeType)
  | .BVHCollide T_BVH => (T_BVH.nodeType, T_BVH.nodeType)
  | .OcTreeShapeCollide T_SH => (.GEOM_OCTREE, T_SH.nodeType)
  | .ShapeOcTreeCollide T_SH => (T_SH.nodeType, .GEOM_OCTREE)
  | .OcTreeCollide => (.GEOM_OCTREE, .GEOM_OCTREE)
  | .OcTreeBVHCollide T_BVH => (.GEOM_OCTREE, T_BVH.nodeType)
  | .BVHOcTreeCollide T_BVH => (T_BVH.nodeType, .GEOM_OCTREE)

/-- The member `collision_matrix[NODE_COUNT][NODE_COUNT]`; `none` is the null pointer. -/
abbrev CollisionMatrix := NODE_TYPE → NODE_TYPE → Option CollisionFunc

/-- The assignment `collision_matrix[i][j] = &f`. -/
def CollisionMatrix.assign (m : CollisionMatrix) (a : NODE_TYPE × NODE_TYPE × CollisionFunc) :
    CollisionMatrix :=
  fun r c => if r = a.1 ∧ c = a.2.1 then some a.2.2 else m r c

/-- One assignment `collision_matrix[r][c] = &f`: row, column, routine. -/
def cell (r c : NODE_TYPE) (f : CollisionFunc) : NODE_TYPE × NODE_TYPE × CollisionFunc :=
  (r, c, f)

/-- The assignments of lines 354-505, in program order. -/
def baseAssignments : List (NODE_TYPE × NODE_TYPE × CollisionFunc) :=
  [ cell .GEOM_BOX .GEOM_BOX (.ShapeShapeCollide .Box .Box),
    cell .GEOM_BOX .GEOM_SPHERE (.ShapeShapeCollide .Box .Sphere),
    cell .GEOM_BOX .GEOM_CAPSULE (.ShapeShapeCollide .Box .Capsule),
    cell .GEOM_BOX .GEOM_CONE (.ShapeShapeCollide .Box .Cone),
    cell .GEOM_BOX .GEOM_CYLINDER (.ShapeShapeCollide .Box .Cylinder),
    cell .GEOM_BOX .GEOM_CONVEX (.ShapeShapeCollide .Box .Convex),
    cell .GEOM_BOX .GEOM_PLANE (.ShapeShapeCollide .Box .Plane),
    cell .GEOM_BOX .GEOM_HALFSPACE (.ShapeShapeCollide .Box .Halfspace),
    cell .GEOM_SPHERE .GEOM_BOX (.ShapeShapeCollide .Sphere .Box),
    cell .GEOM_SPHERE .GEOM_SPHERE (.ShapeShapeCollide .Sphere .Sphere),
    cell .GEOM_SPHERE .GEOM_CAPSULE (.ShapeShapeCollide .Sphere .Capsule),
    cell .GEOM_SPHERE .GEOM_CONE (.ShapeShapeCollide .Sphere .Cone),
    cell .GEOM_SPHERE .GEOM_CYLINDER (.ShapeShapeCollide .Sphere .Cylinder),
    cell .GEOM_SPHERE .GEOM_CONVEX (.ShapeShapeCollide .Sphere .Convex),
    cell .GEOM_SPHERE .GEOM_PLANE (.ShapeShapeCollide .Sphere .Plane),
    cell .GEOM_SPHERE .GEOM_HALFSPACE (.ShapeShapeCollide .Sphere .Halfspace),
    cell .GEOM_CAPSULE .GEOM_BOX (.ShapeShapeCollide .Capsule .Box),
    cell .GEOM_CAPSULE .GEOM_SPHERE (.ShapeShapeCollide .Capsule .Sphere),
    cell .GEOM_CAPSULE .GEOM_CAPSULE (.ShapeShapeCollide .Capsule .Capsule),
    cell .GEOM_CAPSULE .GEOM_CONE (.ShapeShapeCollide .Capsule .Cone),
    cell .GEOM_CAPSULE .GEOM_CYLINDER (.ShapeShapeCollide .Capsule .Cylinder),
    cell .GEOM_CAPSULE .GEOM_CONVEX (.ShapeShapeCollide .Capsule .Convex),
    cell .GEOM_CAPSULE .GEOM_PLANE (.ShapeShapeCollide .Capsule .Plane),
    cell .GEOM_CAPSULE .GEOM_HALFSPACE (.ShapeShapeCollide .Capsule .Halfspace),
    cell .GEOM_CONE .GEOM_BOX (.ShapeShapeCollide .Cone .Box),
    cell .GEOM_CONE .GEOM_SPHERE (.ShapeShapeCollide .Cone .Sphere),
    cell .GEOM_CONE .GEOM_CAPSULE (.ShapeShapeCollide .Cone .Capsule),
    cell .GEOM_CONE .GEOM_CONE (.ShapeShapeCollide .Cone .Cone),
    cell .GEOM_CONE .GEOM_CYLINDER (.ShapeShapeCollide .Cone .Cylinder),
    cell .GEOM_CONE .GEOM_CONVEX (.ShapeShapeCollide .Cone .Convex),
    cell .GEOM_CONE .GEOM_PLANE (.ShapeShapeCollide .Cone .Plane),
    cell .GEOM_CONE .GEOM_HALFSPACE (.ShapeShapeCollide .Cone .Halfspace),
    cell .GEOM_CYLINDER .GEOM_BOX (.ShapeShapeCollide .Cylinder .Box),
    cell .GEOM_CYLINDER .GEOM_SPHERE (.ShapeShapeCollide .Cylinder .Sphere),
    cell .GEOM_CYLINDER .GEOM_CAPSULE (.ShapeShapeCollide .Cylinder .Capsule),
    cell .GEOM_CYLINDER .GEOM_CONE (.ShapeShapeCollide .Cylinder .Cone),
    cell .GEOM_CYLINDER .GEOM_CYLINDER (.ShapeShapeCollide .Cylinder .Cylinder),
    cell .GEOM_CYLINDER .GEOM_CONVEX (.ShapeShapeCollide .Cylinder .Convex),
    cell .GEOM_CYLINDER .GEOM_PLANE (.ShapeShapeCollide .Cylinder .Plane),
    cell .GEOM_CYLINDER .GEOM_HALFSPACE (.ShapeShapeCollide .Cylinder .Halfspace),
    cell .GEOM_CONVEX .GEOM_BOX (.ShapeShapeCollide .Convex .Box),
    cell .GEOM_CONVEX .GEOM_SPHERE (.ShapeShapeCollide .Convex .Sphere),
    cell .GEOM_CONVEX .GEOM_CAPSULE (.ShapeShapeCollide .Convex .Capsule),
    cell .GEOM_CONVEX .GEOM_CONE (.ShapeShapeCollide .Convex .Cone),
    cell .GEOM_CONVEX .GEOM_CYLINDER (.ShapeShapeCollide .Convex .Cylinder),
    cell .GEOM_CONVEX .GEOM_CONVEX (.ShapeShapeCollide .Convex .Convex),
    cell .GEOM_CONVEX .GEOM_PLANE (.ShapeShapeCollide .Convex .Plane),
    cell .GEOM_CONVEX .GEOM_HALFSPACE (.ShapeShapeCollide .Convex .Halfspace),
    cell .GEOM_PLANE .GEOM_BOX (.ShapeShapeCollide .Plane .Box),
    cell .GEOM_PLANE .GEOM_SPHERE (.ShapeShapeCollide .Plane .Sphere),
    cell .GEOM_PLANE .GEOM_CAPSULE (.ShapeShapeCollide .Plane .Capsule),
    cell .GEOM_PLANE .GEOM_CONE (.ShapeShapeCollide .Plane .Cone),
    cell .GEOM_PLANE .GEOM_CYLINDER (.ShapeShapeCollide .Plane .Cylinder),
    cell .GEOM_PLANE .GEOM_CONVEX (.ShapeShapeCollide .Plane .Convex),
    cell .GEOM_PLANE .GEOM_PLANE (.ShapeShapeCollide .Plane .Plane),
    cell .GEOM_PLANE .GEOM_HALFSPACE (.ShapeShapeCollide .Plane .Halfspace),
    cell .GEOM_HALFSPACE .GEOM_BOX (.ShapeShapeCollide .Halfspace .Box),
    cell .GEOM_HALFSPACE .GEOM_SPHERE (.ShapeShapeCollide .Halfspace .Sphere),
    cell .GEOM_HALFSPACE .GEOM_CAPSULE (.ShapeShapeCollide .Halfspace .Capsule),
    cell .GEOM_HALFSPACE .GEOM_CONE (.ShapeShapeCollide .Halfspace .Cone),
    cell .GEOM_HALFSPACE .GEOM_CYLINDER (.ShapeShapeCollide .Halfspace .Cylinder),
    cell .GEOM_HALFSPACE .GEOM_CONVEX (.ShapeShapeCollide .Halfspace .Convex),
    cell .GEOM_HALFSPACE .GEOM_PLANE (.ShapeShapeCollide .Halfspace .Plane),
    cell .GEOM_HALFSPACE .GEOM_HALFSPACE (.ShapeShapeCollide .Halfspace .Halfspace),
    cell .BV_AABB .GEOM_BOX (.BVHShapeCollider_collide .AABB .Box),
    cell .BV_AABB .GEOM_SPHERE (.BVHShapeCollider_collide .AABB .Sphere),
    cell .BV_AABB .GEOM_CAPSULE (.BVHShapeCollider_collide .AABB .Capsule),
    cell .BV_AABB .GEOM_CONE (.BVHShapeCollider_collide .AABB .Cone),
    cell .BV_AABB .GEOM_CYLINDER (.BVHShapeCollider_collide .AABB .Cylinder),
    cell .BV_AABB .GEOM_CONVEX (.BVHShapeCollider_collide .AABB .Convex),
    cell .BV_AABB .GEOM_PLANE (.BVHShapeCollider_collide .AABB .Plane),
    cell .BV_AABB .GEOM_HALFSPACE (.BVHShapeCollider_collide .AABB .Halfspace),
    cell .BV_OBB .GEOM_BOX (.BVHShapeCollider_collide .OBB .Box),
    cell .BV_OBB .GEOM_SPHERE (.BVHShapeCollider_collide .OBB .Sphere),
    cell .BV_OBB .GEOM_CAPSULE (.BVHShapeCollider_collide .OBB .Capsule),
    cell .BV_OBB .GEOM_CONE (.BVHShapeCollider_collide .OBB .Cone),
    cell .BV_OBB .GEOM_CYLINDER (.BVHShapeCollider_collide .OBB .Cylinder),
    cell .BV_OBB .GEOM_CONVEX (.BVHShapeCollider_collide .OBB .Convex),
    cell .BV_OBB .GEOM_PLANE (.BVHShapeCollider_collide .OBB .Plane),
    cell .BV_OBB .GEOM_HALFSPACE (.BVHShapeCollider_collide .OBB .Halfspace),
    cell .BV_RSS .GEOM_BOX (.BVHShapeCollider_collide .RSS .Box),
    cell .BV_RSS .GEOM_SPHERE (.BVHShapeCollider_collide .RSS .Sphere),
    cell .BV_RSS .GEOM_CAPSULE (.BVHShapeCollider_collide .RSS .Capsule),
    cell .BV_RSS .GEOM_CONE (.BVHShapeCollider_collide .RSS .Cone),
    cell .BV_RSS .GEOM_CYLINDER (.BVHShapeCollider_collide .RSS .Cylinder),
    cell .BV_RSS .GEOM_CONVEX (.BVHShapeCollider_collide .RSS .Convex),
    cell .BV_RSS .GEOM_PLANE (.BVHShapeCollider_collide .RSS .Plane),
    cell .BV_RSS .GEOM_HALFSPACE (.BVHShapeCollider_collide .RSS .Halfspace),
    cell .BV_KDOP16 .GEOM_BOX (.BVHShapeCollider_collide .KDOP16 .Box),
    cell .BV_KDOP16 .GEOM_SPHERE (.BVHShapeCollider_collide .KDOP16 .Sphere),
    cell .BV_KDOP16 .GEOM_CAPSULE (.BVHShapeCollider_collide .KDOP16 .Capsule),
    cell .BV_KDOP16 .GEOM_CONE (.BVHShapeCollider_collide .KDOP16 .Cone),
    cell .BV_KDOP16 .GEOM_CYLINDER (.BVHShapeCollider_collide .KDOP16 .Cylinder),
    cell .BV_KDOP16 .GEOM_CONVEX (.BVHShapeCollider_collide .KDOP16 .Convex),
    cell .BV_KDOP16 .GEOM_PLANE (.BVHShapeCollider_collide .KDOP16 .Plane),
    cell .BV_KDOP16 .GEOM_HALFSPACE (.BVHShapeCollider_collide .KDOP16 .Halfspace),
    cell .BV_KDOP18 .GEOM_BOX (.BVHShapeCollider_collide .KDOP18 .Box),
    cell .BV_KDOP18 .GEOM_SPHERE (.BVHShapeCollider_collide .KDOP18 .Sphere),
    cell .BV_KDOP18 .GEOM_CAPSULE (.BVHShapeCollider_collide .KDOP18 .Capsule),
    cell .BV_KDOP18 .GEOM_CONE (.BVHShapeCollider_collide .KDOP18 .Cone),
    cell .BV_KDOP18 .GEOM_CYLINDER (.BVHShapeCollider_collide .KDOP18 .Cylinder),
    cell .BV_KDOP18 .GEOM_CONVEX (.BVHShapeCollider_collide .KDOP18 .Convex),
    cell .BV_KDOP18 .GEOM_PLANE (.BVHShapeCollider_collide .KDOP18 .Plane),
    cell .BV_KDOP18 .GEOM_HALFSPACE (.BVHShapeCollider_collide .KDOP18 .Halfspace),
    cell .BV_KDOP24 .GEOM_BOX (.BVHShapeCollider_collide .KDOP24 .Box),
    cell .BV_KDOP24 .GEOM_SPHERE (.BVHShapeCollider_collide .KDOP24 .Sphere),
    cell .BV_KDOP24 .GEOM_CAPSULE (.BVHShapeCollider_collide .KDOP24 .Capsule),
    cell .BV_KDOP24 .GEOM_CONE (.BVHShapeCollider_collide .KDOP24 .Cone),
    cell .BV_KDOP24 .GEOM_CYLINDER (.BVHShapeCollider_collide .KDOP24 .Cylinder),
    cell .BV_KDOP24 .GEOM_CONVEX (.BVHShapeCollider_collide .KDOP24 .Convex),
    cell .BV_KDOP24 .GEOM_PLANE (.BVHShapeCollider_collide .KDOP24 .Plane),
    cell .BV_KDOP24 .GEOM_HALFSPACE (.BVHShapeCollider_collide .KDOP24 .Halfspace),
    cell .BV_kIOS .GEOM_BOX (.BVHShapeCollider_collide .kIOS .Box),
    cell .BV_kIOS .GEOM_SPHERE (.BVHShapeCollider_collide .kIOS .Sphere),
    cell .BV_kIOS .GEOM_CAPSULE (.BVHShapeCollider_collide .kIOS .Capsule),
    cell .BV_kIOS .GEOM_CONE (.BVHShapeCollider_collide .kIOS .Cone),
    cell .BV_kIOS .GEOM_CYLINDER (.BVHShapeCollider_collide .kIOS .Cylinder),
    cell .BV_kIOS .GEOM_CONVEX (.BVHShapeCollider_collide .kIOS .Convex),
    cell .BV_kIOS .GEOM_PLANE (.BVHShapeCollider_collide .kIOS .Plane),
    cell .BV_kIOS .GEOM_HALFSPACE (.BVHShapeCollider_collide .kIOS .Halfspace),
    cell .BV_OBBRSS .GEOM_BOX (.BVHShapeCollider_collide .OBBRSS .Box),
    cell .BV_OBBRSS .GEOM_SPHERE (.BVHShapeCollider_collide .OBBRSS .Sphere),
    cell .BV_OBBRSS .GEOM_CAPSULE (.BVHShapeCollider_collide .OBBRSS .Capsule),
    cell .BV_OBBRSS .GEOM_CONE (.BVHShapeCollider_collide .OBBRSS .Cone),
    cell .BV_OBBRSS .GEOM_CYLINDER (.BVHShapeCollider_collide .OBBRSS .Cylinder),
    cell .BV_OBBRSS .GEOM_CONVEX (.BVHShapeCollider_collide .OBBRSS .Convex),
    cell .BV_OBBRSS .GEOM_PLANE (.BVHShapeCollider_collide .OBBRSS .Plane),
    cell .BV_OBBRSS .GEOM_HALFSPACE (.BVHShapeCollider_collide .OBBRSS .Halfspace),
    cell .BV_AABB .BV_AABB (.BVHCollide .AABB),
    cell .BV_OBB .BV_OBB (.BVHCollide .OBB),
    cell .BV_RSS .BV_RSS (.BVHCollide .RSS),
    cell .BV_KDOP16 .BV_KDOP16 (.BVHCollide .KDOP16),
    cell .BV_KDOP18 .BV_KDOP18 (.BVHCollide .KDOP18),
    cell .BV_KDOP24 .BV_KDOP24 (.BVHCollide .KDOP24),
    cell .BV_kIOS .BV_kIOS (.BVHCollide .kIOS),
    cell .BV_OBBRSS .BV_OBBRSS (.BVHCollide .OBBRSS) ]

/-- The assignments of lines 508-544, compiled under `HPP_FCL_HAVE_OCTOMAP`. -/
def octomapAssignments : List (NODE_TYPE × NODE_TYPE × CollisionFunc) :=
  [ cell .GEOM_OCTREE .GEOM_BOX (.OcTreeShapeCollide .Box),
    cell .GEOM_OCTREE .GEOM_SPHERE (.OcTreeShapeCollide .Sphere),
    cell .GEOM_OCTREE .GEOM_CAPSULE (.OcTreeShapeCollide .Capsule),
    cell .GEOM_OCTREE .GEOM_CONE (.OcTreeShapeCollide .Cone),
    cell .GEOM_OCTREE .GEOM_CYLINDER (.OcTreeShapeCollide .Cylinder),
    cell .GEOM_OCTREE .GEOM_CONVEX (.OcTreeShapeCollide .Convex),
    cell .GEOM_OCTREE .GEOM_PLANE (.OcTreeShapeCollide .Plane),
    cell .GEOM_OCTREE .GEOM_HALFSPACE (.OcTreeShapeCollide .Halfspace),
    cell .GEOM_BOX .GEOM_OCTREE (.ShapeOcTreeCollide .Box),
    cell .GEOM_SPHERE .GEOM_OCTREE (.ShapeOcTreeCollide .Sphere),
    cell .GEOM_CAPSULE .GEOM_OCTREE (.ShapeOcTreeCollide .Capsule),
    cell .GEOM_CONE .GEOM_OCTREE (.ShapeOcTreeCollide .Cone),
    cell .GEOM_CYLINDER .GEOM_OCTREE (.ShapeOcTreeCollide .Cylinder),
    cell .GEOM_CONVEX .GEOM_OCTREE (.ShapeOcTreeCollide .Convex),
    cell .GEOM_PLANE .GEOM_OCTREE (.ShapeOcTreeCollide .Plane),
    cell .GEOM_HALFSPACE .GEOM_OCTREE (.ShapeOcTreeCollide .Halfspace),
    cell .GEOM_OCTREE .GEOM_OCTREE (.OcTreeCollide),
    cell .GEOM_OCTREE .BV_AABB (.OcTreeBVHCollide .AABB),
    cell .GEOM_OCTREE .BV_OBB (.OcTreeBVHCollide .OBB),
    cell .GEOM_OCTREE .BV_RSS (.OcTreeBVHCollide .RSS),
    cell .GEOM_OCTREE .BV_OBBRSS (.OcTreeBVHCollide .OBBRSS),
    cell .GEOM_OCTREE .BV_kIOS (.OcTreeBVHCollide .kIOS),
    cell .GEOM_OCTREE .BV_KDOP16 (.OcTreeBVHCollide .KDOP16),
    cell .GEOM_OCTREE .BV_KDOP18 (.OcTreeBVHCollide .KDOP18),
    cell .GEOM_OCTREE .BV_KDOP24 (.OcTreeBVHCollide .KDOP24),
    cell .BV_AABB .GEOM_OCTREE (.BVHOcTreeCollide .AABB),
    cell .BV_OBB .GEOM_OCTREE (.BVHOcTreeCollide .OBB),
    cell .BV_RSS .GEOM_OCTREE (.BVHOcTreeCollide .RSS),
    cell .BV_OBBRSS .GEOM_OCTREE (.BVHOcTreeCollide .OBBRSS),
    cell .BV_kIOS .GEOM_OCTREE (.BVHOcTreeCollide .kIOS),
    cell .BV_KDOP16 .GEOM_OCTREE (.BVHOcTreeCollide .KDOP16),
    cell .BV_KDOP18 .GEOM_OCTREE (.BVHOcTreeCollide .KDOP18),
    cell .BV_KDOP24 .GEOM_OCTREE (.BVHOcTreeCollide .KDOP24) ]

/-- The constructor `CollisionFunctionMatrix<NarrowPhaseSolver>::CollisionFunctionMatrix()`
(lines 345-546): every cell is set to null, then the assignments are executed.
`HPP_FCL_HAVE_OCTOMAP` tells whether the macro of that name is defined. -/
def CollisionFunctionMatrix (HPP_FCL_HAVE_OCTOMAP : Bool) : CollisionMatrix :=
  let cleared : CollisionMatrix := fun _ _ => none
  let filled := baseAssignments.foldl CollisionMatrix.assign cleared
  if HPP_FCL_HAVE_OCTOMAP then octomapAssignments.foldl CollisionMatrix.assign filled
  else filled

/-! ## Concrete collaborators, used to evaluate the routines at explicit inputs -/

/-- Modelled from the spec: `CollisionRequest::isSatisfied`, declared outside the sources.
The predicate is true once a contact has been found and the contact count has reached the
request's maximum; an empty result is not satisfied. It only serves to run the routines at
explicit inputs: the general theorems hold for every satisfaction predicate. -/
def CollisionRequest.isSatisfied (request : CollisionRequest) (result : CollisionResult) :
    Bool :=
  result.isCollision && decide (request.num_max_contacts ≤ result.numContacts)

/-- Collaborators for concrete runs: a solver that answers `(d, dr)`, vector operators
without rounding and a normalisation that is exact on axis-parallel vectors, as the
machine's are on the small dyadic values of the runs, and a traversal that appends the
contacts `found` as far as the request's maximum allows. -/
def fixedExternals (d : FCL_REAL) (dr : DistanceResult) (found : List Contact) : Externals :=
  { isSatisfied := CollisionRequest.isSatisfied
    ShapeShapeDistance := fun _ _ _ _ _ _ _ => (d, dr)
    plus := Vec3f.add
    minus := Vec3f.sub
    times := Vec3f.scale
    normalized := fun v => Vec3f.scale (1 / (|v.x| + |v.y| + |v.z|)) v
    collide := fun _ request result =>
      { result with
        contacts := result.contacts ++
          found.take (request.num_max_contacts - result.numContacts) } }

/-- Identity placement. -/
def Transform3f.identity : Transform3f :=
  { qw := 1, qx := 0, qy := 0, qz := 0, T := Vec3f.zero }

/-- Placement by a pure translation. -/
def Transform3f.translation (t : Vec3f) : Transform3f :=
  { qw := 1, qx := 0, qy := 0, qz := 0, T := t }

/-- Request with the given maximum number of contacts and security margin. -/
def sampleRequest (num_max_contacts : Nat) (security_margin : FCL_REAL) : CollisionRequest :=
  { num_max_contacts := num_max_contacts, enable_contact := true,
    enable_distance_lower_bound := false, enable_cached_gjk_guess := false,
    cached_gjk_guess := ⟨1, 0, 0⟩, security_margin := security_margin,
    break_distance := 1 / 1000 }

/-- Contact between geometries `7` and `8` at the origin. -/
def sampleContact : Contact :=
  { o1 := 7, o2 := 8, b1 := 0, b2 := 0, normal := ⟨0, 0, 1⟩, pos := Vec3f.zero,
    penetration_depth := 1 / 4 }

/-- One call through the matrix: the routine a cell points to and its arguments. -/
structure Call where
  f : CollisionFunc
  o1 : CollisionGeometry
  tf1 : Transform3f
  o2 : CollisionGeometry
  tf2 : Transform3f
  request : CollisionRequest

/-- A sequence of calls that share one result object: the outcome of every call, in order.
A call stopped by a failed assertion ends the run. -/
def callSequence (ext : Externals) (NDEBUG : Bool) : List Call → CollisionResult → List Outcome
  | [], _ => []
  | c :: cs, result =>
    let out := c.f.call ext NDEBUG c.o1 c.tf1 c.o2 c.tf2 c.request result
    match out.ret with
    | none => [out]
    | some _ => out :: callSequence ext NDEBUG cs out.result

/-- Modelled from the spec: the answer of the distance solver in the two-sphere scenario,
the solver being outside the sources. The first sphere has centre `c1` and radius `r1`, the
second has radius `r2` and its centre at distance `d` from `c1` in the unit direction `u`.
The solver reports the signed distance `d - r1 - r2` and, as nearest points, the two surface
points on the centre line. -/
def twoSpheresAnswer (c1 u : Vec3f) (r1 r2 d : FCL_REAL) : FCL_REAL × DistanceResult :=
  (d - r1 - r2,
   { nearest_points0 := Vec3f.add c1 (Vec3f.scale r1 u),
     nearest_points1 := Vec3f.sub (Vec3f.add c1 (Vec3f.scale d u)) (Vec3f.scale r2 u),
     normal := u, b1 := -1, b2 := -1 })

/-- Classes of registry codes: one of the eight shapes the matrix serves, one of the eight
bounding-volume-hierarchy kinds, the octree, or a code without any routine (`BV_UNKNOWN`,
`GEOM_TRIANGLE`). -/
inductive GeometryKind
  | shape (s : ShapeType)
  | bvh (b : BVType)
  | octree
  | unserved
deriving DecidableEq

/-- Class of a registry code. -/
def NODE_TYPE.kind : NODE_TYPE → GeometryKind
  | .BV_UNKNOWN => .unserved
  | .BV_AABB => .bvh .AABB
  | .BV_OBB => .bvh .OBB
  | .BV_RSS => .bvh .RSS
  | .BV_kIOS => .bvh .kIOS
  | .BV_OBBRSS => .bvh .OBBRSS
  | .BV_KDOP16 => .bvh .KDOP16
  | .BV_KDOP18 => .bvh .KDOP18
  | .BV_KDOP24 => .bvh .KDOP24
  | .GEOM_BOX => .shape .Box
  | .GEOM_SPHERE => .shape .Sphere
  | .GEOM_CAPSULE => .shape .Capsule
  | .GEOM_CONE => .shape .Cone
  | .GEOM_CYLINDER => .shape .Cylinder
  | .GEOM_CONVEX => .shape .Convex
  | .GEOM_PLANE => .shape .Plane
  | .GEOM_HALFSPACE => .shape .Halfspace
  | .GEOM_TRIANGLE => .unserved
  | .GEOM_OCTREE => .octree

/-- Contents of the matrix as the documentation describes them: a shape-pair routine for two
shapes, a mesh-shape routine for a hierarchy kind against a shape, a mesh-mesh routine for
twice the same hierarchy kind, the octree routines when octree support is compiled in, and
nothing elsewhere. The constructor is compared with this description. -/
def describedCell (HPP_FCL_HAVE_OCTOMAP : Bool) (r c : NODE_TYPE) : Option CollisionFunc :=
  match r.kind, c.kind with
  | .shape x, .shape y => some (.ShapeShapeCollide x y)
  | .bvh b, .shape y => some (.BVHShapeCollider_collide b y)
  | .bvh b1, .bvh b2 => if b1 = b2 then some (.BVHCollide b1) else none
  | .octree, .shape s => if HPP_FCL_HAVE_OCTOMAP then some (.OcTreeShapeCollide s) else none
  | .shape s, .octree => if HPP_FCL_HAVE_OCTOMAP then some (.ShapeOcTreeCollide s) else none
  | .octree, .octree => if HPP_FCL_HAVE_OCTOMAP then some .OcTreeCollide else none
  | .octree, .bvh b => if HPP_FCL_HAVE_OCTOMAP then some (.OcTreeBVHCollide b) else none
  | .bvh b, .octree => if HPP_FCL_HAVE_OCTOMAP then some (.BVHOcTreeCollide b) else none
  | _, _ => none

/-! ## Spatial hash tables (`hash.h`)

`Data` is taken with a total order in which two items are equivalent exactly when they are
equal: `std::set` compares with `operator<`, `std::list::remove` with `operator==`.
A member function of the dense table yields `none` when its behaviour is undefined: a
remainder by zero, an access outside the vector, or a read of a member that was never
assigned. -/

/-- Values of `unsigned int`, the element type of the index vector a hash function returns. -/
abbrev UnsignedInt := Fin 4294967296

/-- One step of `std::set<Data>::insert`, on the ascending sequence of the set's elements:
an element equivalent to one already present is not inserted. -/
def setInsert {Data : Type} [LinearOrder Data] (x : Data) : List Data → List Data
  | [] => [x]
  | y :: ys =>
    if x < y then x :: y :: ys
    else if y < x then y :: setInsert x ys
    else y :: ys

/-- The call `std::copy(bin.begin(), bin.end(), std::inserter(result, result.end()))`: the
elements of `bin` are inserted into the set `result`, front to back. -/
def copyInto {Data : Type} [LinearOrder Data] (bin : List Data) (result : List Data) :
    List Data :=
  bin.foldl (fun acc x => setInsert x acc) result

/-- The set obtained by copying the given bins, in turn, into the set `result`. -/
def collect {Data : Type} [LinearOrder Data] (bins : List (List Data)) (result : List Data) :
    List Data :=
  bins.foldl (fun acc bin => copyInto bin acc) result

/-- In-place change of the bin `table_[index]`; `index` is checked by the caller. -/
def updateBin {Data : Type} (f : List Data → List Data) :
    List (List Data) → Nat → List (List Data)
  | [], _ => []
  | b :: bs, 0 => f b :: bs
  | b :: bs, k + 1 => b :: updateBin f bs k

/-- The call `std::vector::resize(size)`: surplus bins are dropped, missing bins are added
empty. -/
def vectorResize {Data : Type} (table : List (List Data)) (size : Nat) : List (List Data) :=
  table.take size ++ List.replicate (size - table.length) []

/-- The class `SimpleHashTable<Key, Data, HashFnc>`: the vector of bins, the hash function and
the configured size, which the constructor leaves unassigned (`none`). -/
structure SimpleHashTable (Key Data : Type) where
  table_ : List (List Data)
  h_ : Key → List UnsignedInt
  table_size_ : Option Nat

/-- Exceptions thrown by the hash tables. -/
inductive Exception
  | logic_error
deriving DecidableEq

/-- Completion of a member call that may throw: the exception thrown, if any, and the object
as the call leaves it. -/
structure Completion (Object : Type) where
  thrown : Option Exception
  object : Object

namespace SimpleHashTable

variable {Key Data : Type}

/-- The constructor `SimpleHashTable(const HashFnc& h)` (lines 59-61). -/
def new (h : Key → List UnsignedInt) : SimpleHashTable Key Data :=
  { table_ := [], h_ := h, table_size_ := none }

/-- The member `init(size)` (lines 63-72). -/
def init (t : SimpleHashTable Key Data) (size : Nat) : Completion (SimpleHashTable Key Data) :=
  if size = 0 then
    { thrown := some .logic_error, object := t }
  else
    { thrown := none,
      object := { t with table_ := vectorResize t.table_ size, table_size_ := some size } }

/-- The loop of `insert` (lines 78-79) over the remaining indices. -/
def insertLoop (range : Nat) (value : Data) :
    List UnsignedInt → List (List Data) → Option (List (List Data))
  | [], table => some table
  | i :: rest, table =>
    if range = 0 then none
    else if i.val % range < table.length then
      insertLoop range value rest (updateBin (fun bin => bin ++ [value]) table (i.val % range))
    else none

/-- The member `insert(key, value)` (lines 74-80). -/
def insert (t : SimpleHashTable Key Data) (key : Key) (value : Data) :
    Option (SimpleHashTable Key Data) :=
  let indices := t.h_ key
  let range := t.table_.length
  (insertLoop range value indices t.table_).map (fun table => { t with table_ := table })

/-- The loop of `query` (lines 87-91) over the remaining indices; `index` is an
`unsigned int`, so the remainder is converted to that type. -/
def queryLoop [LinearOrder Data] (range : Nat) (table : List (List Data)) :
    List UnsignedInt → List Data → Option (List Data)
  | [], result => some result
  | i :: rest, result =>
    if range = 0 then none
    else
      let index := (i.val % range) % 4294967296
      if index < table.length then
        queryLoop range table rest (copyInto (table.getD index []) result)
      else none

/-- The member `query(key)` (lines 82-94): the elements of the set, in ascending order. -/
def query [LinearOrder Data] (t : SimpleHashTable Key Data) (key : Key) :
    Option (List Data) :=
  let range := t.table_.length
  let indices := t.h_ key
  queryLoop range t.table_ indices []

/-- The loop of `remove` (lines 100-104) over the remaining indices;
`std::list::remove(value)` drops every element equal to `value`. -/
def removeLoop [DecidableEq Data] (range : Nat) (value : Data) :
    List UnsignedInt → List (List Data) → Option (List (List Data))
  | [], table => some table
  | i :: rest, table =>
    if range = 0 then none
    else
      let index := (i.val % range) % 4294967296
      if index < table.length then
        removeLoop range value rest
          (updateBin (fun bin => bin.filter (fun x => decide (x ≠ value))) table index)
      else none

/-- The member `remove(key, value)` (lines 96-105). -/
def remove [DecidableEq Data] (t : SimpleHashTable Key Data) (key : Key) (value : Data) :
    Option (SimpleHashTable Key Data) :=
  let range := t.table_.length
  let indices := t.h_ key
  (removeLoop range value indices t.table_).map (fun table => { t with table_ := table })

/-- The member `clear()` (lines 107-111): the vector is emptied, then resized to the
configured size. -/
def clear (t : SimpleHashTable Key Data) : Option (SimpleHashTable Key Data) :=
  match t.table_size_ with
  | none => none
  | some size => some { t with table_ := vectorResize [] size }

/-- State of a table on which `init(n)` with `n > 0` has succeeded: `n` bins, configured
size `n`. -/
def Initialised (t : SimpleHashTable Key Data) (n : Nat) : Prop :=
  0 < n ∧ t.table_.length = n ∧ t.table_size_ = some n

/-- Content of the bin with index `k`. -/
def bin (t : SimpleHashTable Key Data) (k : Nat) : List Data := t.table_.getD k []

end SimpleHashTable

/-- The class `SparseHashTable<Key, Data, HashFnc>` over `boost::unordered_map<size_t, Bin>`:
the hash function and, for every index, the bin stored under it (`none`: no entry). -/
structure SparseHashTable (Key Data : Type) where
  h_ : Key → List UnsignedInt
  table_ : Nat → Option (List Data)

namespace SparseHashTable

variable {Key Data : Type}

/-- The constructor `SparseHashTable(const HashFnc& h)` (line 129): an empty map. -/
def new (h : Key → List UnsignedInt) : SparseHashTable Key Data :=
  { h_ := h, table_ := fun _ => none }

/-- The member `init(size_t)` (line 131). -/
def init (t : SparseHashTable Key Data) (_size : Nat) : SparseHashTable Key Data :=
  { t with table_ := fun _ => none }

/-- The map after `table_[index]` was written with `f` applied to the bin found there;
`operator[]` creates an empty bin when the index has no entry. -/
def updateEntry (f : List Data → List Data) (table : Nat → Option (List Data)) (index : Nat) :
    Nat → Option (List Data) :=
  fun k => if k = index then some (f ((table index).getD [])) else table k

/-- The member `insert(key, value)` (lines 133-138). -/
def insert (t : SparseHashTable Key Data) (key : Key) (value : Data) :
    SparseHashTable Key Data :=
  let indices := t.h_ key
  { t with
    table_ := indices.foldl
      (fun table i => updateEntry (fun bin => bin ++ [value]) table i.val) t.table_ }

/-- The member `query(key)` (lines 140-153): the elements of the set, in ascending order. -/
def query [LinearOrder Data] (t : SparseHashTable Key Data) (key : Key) : List Data :=
  let indices := t.h_ key
  indices.foldl
    (fun result i =>
      match t.table_ i.val with
      | some bin => copyInto bin result
      | none => result) []

/-- The member `remove(key, value)` (lines 155-163). -/
def remove [DecidableEq Data] (t : SparseHashTable Key Data) (key : Key) (value : Data) :
    SparseHashTable Key Data :=
  let indices := t.h_ key
  { t with
    table_ := indices.foldl
      (fun table i =>
        updateEntry (fun bin => bin.filter (fun x => decide (x ≠ value))) table i.val)
      t.table_ }

/-- The member `clear()` (lines 165-168). -/
def clear (t : SparseHashTable Key Data) : SparseHashTable Key Data :=
  { t with table_ := fun _ => none }

/-- Content of the bin stored under index `k`; an index without entry has no content. -/
def bin (t : SparseHashTable Key Data) (k : Nat) : List Data := (t.table_ k).getD []

end SparseHashTable

/-- Hash function for concrete runs: key `k` addresses the indices `k`, `k + 3` and `k`
again. -/
def sampleHash (k : Nat) : List UnsignedInt :=
  [⟨k % 4294967296, Nat.mod_lt _ (by decide)⟩,
   ⟨(k + 3) % 4294967296, Nat.mod_lt _ (by decide)⟩,
   ⟨k % 4294967296, Nat.mod_lt _ (by decide)⟩]

/-- Dense table with three bins, holding `5` in bin 0 and `7, 5` in bin 1. -/
def sampleDense : SimpleHashTable Nat Nat :=
  { table_ := [[5], [7, 5], []], h_ := sampleHash, table_size_ := some 3 }

/-- Sparse table holding `5` under index 0 and `7, 5` under index 1. -/
def sampleSparse : SparseHashTable Nat Nat :=
  { h_ := sampleHash,
    table_ := fun k => if k = 0 then some [5] else if k = 1 then some [7, 5] else none }

/-! ## Mesh loader and cache (`mesh_loader/loader.cpp`)

A geometry handle (`CollisionGeometryPtr_t`) is modelled by the identity of the object it
points to: its position among the live models. The resource loader is taken as a parameter.
Scale components are rationals, file names are strings in their lexicographic order. -/

/-- Integer value of a registry code: its position in the enumeration. -/
def NODE_TYPE.code : NODE_TYPE → Nat
  | .BV_UNKNOWN => 0
  | .BV_AABB => 1
  | .BV_OBB => 2
  | .BV_RSS => 3
  | .BV_kIOS => 4
  | .BV_OBBRSS => 5
  | .BV_KDOP16 => 6
  | .BV_KDOP18 => 7
  | .BV_KDOP24 => 8
  | .GEOM_BOX => 9
  | .GEOM_SPHERE => 10
  | .GEOM_CAPSULE => 11
  | .GEOM_CONE => 12
  | .GEOM_CYLINDER => 13
  | .GEOM_CONVEX => 14
  | .GEOM_PLANE => 15
  | .GEOM_HALFSPACE => 16
  | .GEOM_TRIANGLE => 17
  | .GEOM_OCTREE => 18

/-- The component `v[i]` of a vector, for `i` in `0, 1, 2`. -/
def Vec3f.coeff (v : Vec3f) : Nat → FCL_REAL
  | 0 => v.x
  | 1 => v.y
  | _ => v.z

/-- The struct `CachedMeshLoader::Key`, built by `Key(filename, scale, bvType)`. -/
structure CachedMeshLoader.Key where
  filename : String
  scale : Vec3f
  bvType : NODE_TYPE
deriving DecidableEq

/-- The loop of `operator<` (lines 47-50) over the remaining components, followed by the
comparison of the file names (line 51). -/
def CachedMeshLoader.Key.ltLoop (a b : CachedMeshLoader.Key) : List Nat → Bool
  | [] => decide (a.filename < b.filename)
  | i :: rest =>
    if a.scale.coeff i < b.scale.coeff i then true
    else if a.scale.coeff i > b.scale.coeff i then false
    else CachedMeshLoader.Key.ltLoop a b rest

/-- The function `operator<(const Key& a, const Key& b)` (lines 43-52). -/
def CachedMeshLoader.Key.lt (a b : CachedMeshLoader.Key) : Bool :=
  if a.bvType.code < b.bvType.code then true
  else if a.bvType.code > b.bvType.code then false
  else CachedMeshLoader.Key.ltLoop a b [0, 1, 2]

/-- What the resource loader reads from a file: vertices and triangles. -/
structure MeshData where
  vertices : List Vec3f
  triangles : List (Nat × Nat × Nat)
deriving DecidableEq

/-- Exceptions leaving the loaders: the invalid-argument error of `MeshLoader::load`, or
whatever the resource loader throws. -/
inductive LoadException
  | invalid_argument
  | resource_failure (code : Nat)
deriving DecidableEq

/-- A `BVHModel<BV>` built by `_load`: its bounding-volume class and the data read into it. -/
structure LoadedModel where
  bv : BVType
  data : MeshData
deriving DecidableEq

/-- Calls recorded while loading. -/
inductive LoaderCall
  | base (filename : String) (scale : Vec3f) (bvType : NODE_TYPE)
  | resource (filename : String) (scale : Vec3f)
deriving DecidableEq

/-- What surrounds the loaders: the live models (a handle is a position in `heap`) and the
calls made so far to the base loader and to the resource loader. -/
structure LoaderWorld where
  heap : List LoadedModel
  calls : List LoaderCall
deriving DecidableEq

/-- The function `loadPolyhedronFromResource`, defined outside the sources: the data read
from the file, or the exception thrown. -/
abbrev ResourceLoader := String → Vec3f → Except LoadException MeshData

/-- Completion of a load: the handle returned or the exception thrown, and the surroundings
afterwards. -/
structure LoadResult where
  outcome : Except LoadException CollisionGeometry
  world : LoaderWorld

/-- The function template `_load<BV>` (lines 54-60): a new model is created and filled from
the resource; when the resource loader throws, the new model is released. -/
def _load (loadPolyhedronFromResource : ResourceLoader) (BV : BVType)
    (filename : String) (scale : Vec3f) (w : LoaderWorld) : LoadResult :=
  let called : LoaderWorld := { w with calls := w.calls ++ [.resource filename scale] }
  match loadPolyhedronFromResource filename scale with
  | .error e => { outcome := .error e, world := called }
  | .ok data =>
    { outcome := .ok w.heap.length,
      world := { called with heap := w.heap ++ [{ bv := BV, data := data }] } }

/-- The member `MeshLoader::load` (lines 62-78). -/
def MeshLoader.load (loadPolyhedronFromResource : ResourceLoader)
    (filename : String) (scale : Vec3f) (bvType : NODE_TYPE) (w : LoaderWorld) : LoadResult :=
  let entered : LoaderWorld := { w with calls := w.calls ++ [.base filename scale bvType] }
  match bvType with
  | .BV_AABB => _load loadPolyhedronFromResource .AABB filename scale entered
  | .BV_OBB => _load loadPolyhedronFromResource .OBB filename scale entered
  | .BV_RSS => _load loadPolyhedronFromResource .RSS filename scale entered
  | .BV_kIOS => _load loadPolyhedronFromResource .kIOS filename scale entered
  | .BV_OBBRSS => _load loadPolyhedronFromResource .OBBRSS filename scale entered
  | .BV_KDOP16 => _load loadPolyhedronFromResource .KDOP16 filename scale entered
  | .BV_KDOP18 => _load loadPolyhedronFromResource .KDOP18 filename scale entered
  | .BV_KDOP24 => _load loadPolyhedronFromResource .KDOP24 filename scale entered
  | _ => { outcome := .error .invalid_argument, world := entered }

/-- The member `cache_`, a `std::map<Key, CollisionGeometryPtr_t>`: its entries in
iteration order. -/
abbrev Cache_t := List (CachedMeshLoader.Key × CollisionGeometry)

/-- The call `cache_.find(key)`: the entry whose key is equivalent to `key`, neither being
less than the other. -/
def Cache_t.find (key : CachedMeshLoader.Key) : Cache_t → Option CollisionGeometry
  | [] => none
  | entry :: rest =>
    if CachedMeshLoader.Key.lt key entry.1 || CachedMeshLoader.Key.lt entry.1 key then
      Cache_t.find key rest
    else some entry.2

/-- The call `cache_.insert(std::make_pair(key, geom))`: the pair is inserted at its place
in the order unless an entry with an equivalent key exists. -/
def Cache_t.insert (pair : CachedMeshLoader.Key × CollisionGeometry) : Cache_t → Cache_t
  | [] => [pair]
  | entry :: rest =>
    if CachedMeshLoader.Key.lt pair.1 entry.1 then pair :: entry :: rest
    else if CachedMeshLoader.Key.lt entry.1 pair.1 then entry :: Cache_t.insert pair rest
    else entry :: rest

/-- The class `CachedMeshLoader`. -/
structure CachedMeshLoader where
  cache_ : Cache_t
deriving DecidableEq

/-- Completion of a cached load: the handle returned or the exception thrown, the loader and
the surroundings afterwards. -/
structure CachedLoadResult where
  outcome : Except LoadException CollisionGeometry
  loader : CachedMeshLoader
  world : LoaderWorld

/-- The member `CachedMeshLoader::load` (lines 80-93). -/
def CachedMeshLoader.load (loadPolyhedronFromResource : ResourceLoader)
    (self : CachedMeshLoader) (filename : String) (scale : Vec3f) (bvType : NODE_TYPE)
    (w : LoaderWorld) : CachedLoadResult :=
  let key : CachedMeshLoader.Key := { filename := filename, scale := scale, bvType := bvType }
  match Cache_t.find key self.cache_ with
  | none =>
    let loaded := MeshLoader.load loadPolyhedronFromResource filename scale bvType w
    match loaded.outcome with
    | .error e => { outcome := .error e, loader := self, world := loaded.world }
    | .ok geom =>
      { outcome := .ok geom, loader := { cache_ := Cache_t.insert (key, geom) self.cache_ },
        world := loaded.world }
  | some geom => { outcome := .ok geom, loader := self, world := w }

/-- A sequence of loads through one cached loader, whatever their outcomes: the loader and
the surroundings after the last one. -/
def CachedMeshLoader.loadAll (loadPolyhedronFromResource : ResourceLoader) :
    List CachedMeshLoader.Key → CachedMeshLoader → LoaderWorld →
      CachedMeshLoader × LoaderWorld
  | [], self, w => (self, w)
  | key :: rest, self, w =>
    let r := CachedMeshLoader.load loadPolyhedronFromResource self key.filename key.scale
      key.bvType w
    CachedMeshLoader.loadAll loadPolyhedronFromResource rest r.loader r.world

/-- Resource loader for concrete runs: every file holds one triangle, scaled; the file with
the empty name cannot be read. -/
def sampleResource : ResourceLoader := fun filename scale =>
  if filename = "" then .error (.resource_failure 2)
  else .ok { vertices := [⟨0, 0, 0⟩, ⟨scale.x, 0, 0⟩, ⟨0, scale.y, 0⟩], triangles := [(0, 1, 2)] }

/-- The tuple `(bvType, scale[0], scale[1], scale[2], filename)` of a key, in the
lexicographic order of tuples. -/
def CachedMeshLoader.Key.tuple (a : CachedMeshLoader.Key) : ℕ ×ₗ ℚ ×ₗ ℚ ×ₗ ℚ ×ₗ String :=
  toLex (a.bvType.code, toLex (a.scale.x, toLex (a.scale.y, toLex (a.scale.z, a.filename))))

/-! ## Accessors of the binding layer (`python/collision-geometries.cc`)

The index parameter and the counts `num_vertices`, `num_tris`, `num_points` and
`num_polygons` are of type `int`; they are modelled by integers. -/

/-- Completion of an accessor: the element returned, the exception `std::out_of_range`, or a
read of the array outside its bounds, whose behaviour is undefined. -/
inductive Accessed (α : Type)
  | value (a : α)
  | out_of_range
  | read_outside (index : Int)
deriving DecidableEq

/-- The expression `array[i]` for an `int` index. -/
def readArray {α : Type} (array : List α) (i : Int) : Accessed α :=
  if 0 ≤ i ∧ i < array.length then
    match array[i.toNat]? with
    | some a => .value a
    | none => .read_outside i
  else .read_outside i

/-- The struct `Triangle`: three vertex indices. -/
structure Triangle where
  vids0 : Nat
  vids1 : Nat
  vids2 : Nat
deriving DecidableEq

/-- The members of `BVHModelBase` the accessors read. -/
structure BVHModelBase where
  vertices : List Vec3f
  tri_indices : List Triangle
  num_vertices : Int
  num_tris : Int
deriving DecidableEq

/-- The member `BVHModelBaseWrapper::vertices` (lines 57-61). -/
def BVHModelBaseWrapper.vertices (bvh : BVHModelBase) (i : Int) : Accessed Vec3f :=
  if i ≥ bvh.num_vertices then .out_of_range
  else readArray bvh.vertices i

/-- The member `BVHModelBaseWrapper::tri_indices` (lines 63-67). -/
def BVHModelBaseWrapper.tri_indices (bvh : BVHModelBase) (i : Int) : Accessed Triangle :=
  if i ≥ bvh.num_tris then .out_of_range
  else readArray bvh.tri_indices i

/-- The members of `ConvexBase` the accessors read; a point's `Neighbors` is the sequence of
its neighbour indices, its `count()` their number. -/
structure ConvexBase where
  points : List Vec3f
  neighbors : List (List Nat)
  num_points : Int
deriving DecidableEq

/-- The member `ConvexBaseWrapper::points` (lines 83-87). -/
def ConvexBaseWrapper.points (convex : ConvexBase) (i : Int) : Accessed Vec3f :=
  if i ≥ convex.num_points then .out_of_range
  else readArray convex.points i

/-- The loop of `ConvexBaseWrapper::neighbors` (lines 93-94): the entries `j`, `j + 1`, ...
below `count()` are appended to the list `n`. -/
def ConvexBaseWrapper.neighborsLoop (stored : List Nat) : Nat → Nat → List Nat → List Nat
  | 0, _, n => n
  | fuel + 1, j, n =>
    if j < stored.length then
      match stored[j]? with
      | some index => ConvexBaseWrapper.neighborsLoop stored fuel (j + 1) (n ++ [index])
      | none => n
    else n

/-- The member `ConvexBaseWrapper::neighbors` (lines 89-96). -/
def ConvexBaseWrapper.neighbors (convex : ConvexBase) (i : Int) : Accessed (List Nat) :=
  if i ≥ convex.num_points then .out_of_range
  else
    match readArray convex.neighbors i with
    | .value stored => .value (ConvexBaseWrapper.neighborsLoop stored stored.length 0 [])
    | .out_of_range => .out_of_range
    | .read_outside index => .read_outside index

/-- The members of `Convex<PolygonT>` the accessor reads. -/
structure Convex (PolygonT : Type) where
  base : ConvexBase
  polygons : List PolygonT
  num_polygons : Int

/-- The member `ConvexWrapper<PolygonT>::polygons` (lines 104-108). -/
def ConvexWrapper.polygons {PolygonT : Type} (convex : Convex PolygonT) (i : Int) :
    Accessed PolygonT :=
  if i ≥ convex.num_polygons then .out_of_range
  else readArray convex.polygons i

/-- Mesh with three vertices and one triangle. -/
def sampleBVH : BVHModelBase :=
  { vertices := [⟨0, 0, 0⟩, ⟨1, 0, 0⟩, ⟨0, 1, 0⟩], tri_indices := [⟨0, 1, 2⟩],
    num_vertices := 3, num_tris := 1 }

/-- Convex hull with the same three points and one polygon. -/
def sampleConvex : Convex Triangle :=
  { base := { points := [⟨0, 0, 0⟩, ⟨1, 0, 0⟩, ⟨0, 1, 0⟩],
              neighbors := [[1, 2], [2, 0], [0, 1]], num_points := 3 },
    polygons := [⟨0, 1, 2⟩], num_polygons := 1 }

/-! ## Sequences of member calls on the hash tables -/

/-- A member call on a hash table, with its arguments. -/
inductive HashOp (Key Data : Type)
  | insert (key : Key) (value : Data)
  | query (key : Key)
  | remove (key : Key) (value : Data)
  | clear

/-- One member call on a dense table: the table afterwards, `none` when the behaviour of the
call is undefined. A `query` leaves the table as it is (the member is `const`). -/
def SimpleHashTable.apply {Key Data : Type} [LinearOrder Data] (t : SimpleHashTable Key Data) :
    HashOp Key Data → Option (SimpleHashTable Key Data)
  | .insert key value => t.insert key value
  | .query key => (t.query key).map (fun _ => t)
  | .remove key value => t.remove key value
  | .clear => t.clear

/-- A sequence of member calls on a dense table, in program order; undefined behaviour of one
call leaves the whole run undefined. -/
def SimpleHashTable.run {Key Data : Type} [LinearOrder Data] :
    List (HashOp Key Data) → SimpleHashTable Key Data → Option (SimpleHashTable Key Data)
  | [], t => some t
  | op :: rest, t =>
    match t.apply op with
    | none => none
    | some t1 => SimpleHashTable.run rest t1

/-- One member call on a sparse table: the table afterwards. -/
def SparseHashTable.apply {Key Data : Type} [LinearOrder Data] (t : SparseHashTable Key Data) :
    HashOp Key Data → SparseHashTable Key Data
  | .insert key value => t.insert key value
  | .query _ => t
  | .remove key value => t.remove key value
  | .clear => t.clear

/-- A sequence of member calls on a sparse table, in program order. -/
def SparseHashTable.run {Key Data : Type} [LinearOrder Data] :
    List (HashOp Key Data) → SparseHashTable Key Data → SparseHashTable Key Data
  | [], t => t
  | op :: rest, t => SparseHashTable.run rest (t.apply op)

/-- Hash function for concrete runs on a table of three bins: key `k` addresses the indices
`k mod 3` and `(k + 1) mod 3`, both below 3. -/
def sampleHashBelow (k : Nat) : List UnsignedInt :=
  [⟨k % 3, lt_trans (Nat.mod_lt _ (by decide)) (by decide)⟩,
   ⟨(k + 1) % 3, lt_trans (Nat.mod_lt _ (by decide)) (by decide)⟩]

/-! ## Shape-pair routine: the three branches -/

/-- Unfolding of `ShapeShapeCollide` on a request that is not satisfied, with the solver's
answer named. -/
theorem ShapeShapeCollide_unsatisfied (ext : Externals) (NDEBUG : Bool)
    (T_SH1 T_SH2 : ShapeType) (o1 : CollisionGeometry) (tf1 : Transform3f)
    (o2 : CollisionGeometry) (tf2 : Transform3f)
    (request : CollisionRequest) (result : CollisionResult)
    (d : FCL_REAL) (dr : DistanceResult)
    (hsat : ext.isSatisfied request result = false)
    (hsolve : ext.ShapeShapeDistance T_SH1 T_SH2 o1 tf1 o2 tf2
      { enable_nearest_points := request.enable_contact } = (d, dr)) :
    ShapeShapeCollide ext NDEBUG T_SH1 T_SH2 o1 tf1 o2 tf2 request result =
      let called := [Event.distance T_SH1 T_SH2 o1 tf1 o2 tf2
        { enable_nearest_points := request.enable_contact }]
      if d ≤ 0 then
        if result.numContacts < request.num_max_contacts then
          if NDEBUG then
            { ret := some 1,
              result := result.addContact
                { o1 := o1, o2 := o2, b1 := dr.b1, b2 := dr.b2, normal := dr.normal,
                  pos := dr.nearest_points0, penetration_depth := -d },
              trace := called }
          else if dr.nearest_points0 = dr.nearest_points1 then
            { ret := some 1,
              result := result.addContact
                { o1 := o1, o2 := o2, b1 := dr.b1, b2 := dr.b2, normal := dr.normal,
                  pos := dr.nearest_points0, penetration_depth := -d },
              trace := called ++ [Event.assertion true] }
          else
            { ret := none, result := result, trace := called ++ [Event.assertion false] }
        else
          { ret := some 1, result := result, trace := called }
      else if d ≤ request.security_margin then
        if result.numContacts < request.num_max_contacts then
          { ret := some 1,
            result := result.addContact
              { o1 := o1, o2 := o2, b1 := dr.b1, b2 := dr.b2,
                normal := ext.normalized (ext.minus dr.nearest_points1 dr.nearest_points0),
                pos := ext.times (1/2) (ext.plus dr.nearest_points0 dr.nearest_points1),
                penetration_depth := -d },
            trace := called }
        else
          { ret := some 1, result := result, trace := called }
      else
        { ret := some 0, result := { result with distance_lower_bound := d },
          trace := called } := by
  simp only [ShapeShapeCollide, hsat, hsolve, Contact.init]
  rfl

/-- C1. Penetrating case of `ShapeShapeCollide`: when the request is not satisfied, the result
is below the contact cap and the solver reports a distance `d ≤ 0` with coinciding nearest
points, the call returns 1 and the contact sequence is the previous one followed by one
contact at the solver's first nearest point, with the solver's normal and penetration depth
`-d ≥ 0`, whatever the security margin and the build mode. -/
theorem ShapeShapeCollide_penetrating (ext : Externals) (NDEBUG : Bool)
    (T_SH1 T_SH2 : ShapeType) (o1 : CollisionGeometry) (tf1 : Transform3f)
    (o2 : CollisionGeometry) (tf2 : Transform3f)
    (request : CollisionRequest) (result : CollisionResult)
    (d : FCL_REAL) (dr : DistanceResult)
    (hsat : ext.isSatisfied request result = false)
    (hcap : result.numContacts < request.num_max_contacts)
    (hsolve : ext.ShapeShapeDistance T_SH1 T_SH2 o1 tf1 o2 tf2
      { enable_nearest_points := request.enable_contact } = (d, dr))
    (hd : d ≤ 0)
    (hpoints : dr.nearest_points0 = dr.nearest_points1) :
    (ShapeShapeCollide ext NDEBUG T_SH1 T_SH2 o1 tf1 o2 tf2 request result).ret = some 1 ∧
    (ShapeShapeCollide ext NDEBUG T_SH1 T_SH2 o1 tf1 o2 tf2 request result).result.contacts =
      result.contacts ++
        [{ o1 := o1, o2 := o2, b1 := dr.b1, b2 := dr.b2, normal := dr.normal,
           pos := dr.nearest_points0, penetration_depth := -d }] ∧
    (ShapeShapeCollide ext NDEBUG T_SH1 T_SH2 o1 tf1 o2 tf2 request
      result).result.distance_lower_bound = result.distance_lower_bound ∧
    0 ≤ -d := by
  rw [ShapeShapeCollide_unsatisfied ext NDEBUG T_SH1 T_SH2 o1 tf1 o2 tf2 request result d dr
    hsat hsolve]
  cases NDEBUG <;>
    simp [hd, hcap, hpoints, CollisionResult.addContact]

/-- Witness for C1: spheres touching deeper than their radii, margin `5`, empty result. -/
theorem ShapeShapeCollide_penetrating_witness :
    (ShapeShapeCollide
      (fixedExternals (-1/2) ⟨⟨1, 0, 0⟩, ⟨1, 0, 0⟩, ⟨1, 0, 0⟩, -1, -1⟩ [])
      false .Sphere .Box 1 Transform3f.identity 2 Transform3f.identity
      (sampleRequest 1 5) ⟨[], 0⟩).ret = some 1 :=
  (ShapeShapeCollide_penetrating
    (fixedExternals (-1/2) ⟨⟨1, 0, 0⟩, ⟨1, 0, 0⟩, ⟨1, 0, 0⟩, -1, -1⟩ [])
    false .Sphere .Box 1 Transform3f.identity 2 Transform3f.identity
    (sampleRequest 1 5) ⟨[], 0⟩ (-1/2) ⟨⟨1, 0, 0⟩, ⟨1, 0, 0⟩, ⟨1, 0, 0⟩, -1, -1⟩
    rfl (by decide) rfl (by norm_num) rfl).1

/-- C2. Security-margin case of `ShapeShapeCollide`: when the request is not satisfied, the
result is below the contact cap and the solver distance satisfies `0 < d ≤ security_margin`,
the call returns 1 and appends one contact at the midpoint `0.5 * (p1 + p2)` of the nearest
points, with normal `(p2 - p1).normalized()` and penetration depth `-d < 0`; the sum, the
product by `0.5` and the difference are those the program computes, with the operators of
the vector type. -/
theorem ShapeShapeCollide_within_margin (ext : Externals) (NDEBUG : Bool)
    (T_SH1 T_SH2 : ShapeType) (o1 : CollisionGeometry) (tf1 : Transform3f)
    (o2 : CollisionGeometry) (tf2 : Transform3f)
    (request : CollisionRequest) (result : CollisionResult)
    (d : FCL_REAL) (dr : DistanceResult)
    (hsat : ext.isSatisfied request result = false)
    (hcap : result.numContacts < request.num_max_contacts)
    (hsolve : ext.ShapeShapeDistance T_SH1 T_SH2 o1 tf1 o2 tf2
      { enable_nearest_points := request.enable_contact } = (d, dr))
    (hpos : 0 < d)
    (hmargin : d ≤ request.security_margin) :
    (ShapeShapeCollide ext NDEBUG T_SH1 T_SH2 o1 tf1 o2 tf2 request result).ret = some 1 ∧
    (ShapeShapeCollide ext NDEBUG T_SH1 T_SH2 o1 tf1 o2 tf2 request result).result.contacts =
      result.contacts ++
        [{ o1 := o1, o2 := o2, b1 := dr.b1, b2 := dr.b2,
           normal := ext.normalized (ext.minus dr.nearest_points1 dr.nearest_points0),
           pos := ext.times (1/2) (ext.plus dr.nearest_points0 dr.nearest_points1),
           penetration_depth := -d }] ∧
    (ShapeShapeCollide ext NDEBUG T_SH1 T_SH2 o1 tf1 o2 tf2 request
      result).result.distance_lower_bound = result.distance_lower_bound ∧
    -d < 0 := by
  rw [ShapeShapeCollide_unsatisfied ext NDEBUG T_SH1 T_SH2 o1 tf1 o2 tf2 request result d dr
    hsat hsolve]
  simp [not_le.mpr hpos, hmargin, hcap, hpos, CollisionResult.addContact]

/-- Witness for C2: nearest points `(1,0,0)` and `(2,0,0)`, distance `1`, margin `3/2`; the
contact lies at `(3/2,0,0)` with normal `(1,0,0)` and depth `-1`. -/
theorem ShapeShapeCollide_within_margin_witness :
    (ShapeShapeCollide
      (fixedExternals 1 ⟨⟨1, 0, 0⟩, ⟨2, 0, 0⟩, ⟨1, 0, 0⟩, -1, -1⟩ [])
      false .Sphere .Sphere 1 Transform3f.identity 2 (Transform3f.translation ⟨3, 0, 0⟩)
      (sampleRequest 1 (3/2)) ⟨[], 0⟩).result.contacts =
    [{ o1 := 1, o2 := 2, b1 := -1, b2 := -1, normal := ⟨1, 0, 0⟩, pos := ⟨3/2, 0, 0⟩,
       penetration_depth := -1 }] :=
  (ShapeShapeCollide_within_margin
    (fixedExternals 1 ⟨⟨1, 0, 0⟩, ⟨2, 0, 0⟩, ⟨1, 0, 0⟩, -1, -1⟩ [])
    false .Sphere .Sphere 1 Transform3f.identity 2 (Transform3f.translation ⟨3, 0, 0⟩)
    (sampleRequest 1 (3/2)) ⟨[], 0⟩ 1 ⟨⟨1, 0, 0⟩, ⟨2, 0, 0⟩, ⟨1, 0, 0⟩, -1, -1⟩
    rfl (by decide) rfl (by norm_num) (by norm_num [sampleRequest])).2.1.trans (by
      simp only [fixedExternals, Vec3f.add, Vec3f.sub, Vec3f.scale, List.nil_append]
      norm_num)

/-- C3. No-contact case of `ShapeShapeCollide`: when the request is not satisfied and the
solver distance satisfies `d > 0` and `d > security_margin`, the call returns 0, leaves the
contact sequence unchanged and sets `distance_lower_bound` to exactly `d`, whatever value it
held before. -/
theorem ShapeShapeCollide_no_contact (ext : Externals) (NDEBUG : Bool)
    (T_SH1 T_SH2 : ShapeType) (o1 : CollisionGeometry) (tf1 : Transform3f)
    (o2 : CollisionGeometry) (tf2 : Transform3f)
    (request : CollisionRequest) (result : CollisionResult)
    (d : FCL_REAL) (dr : DistanceResult)
    (hsat : ext.isSatisfied request result = false)
    (hsolve : ext.ShapeShapeDistance T_SH1 T_SH2 o1 tf1 o2 tf2
      { enable_nearest_points := request.enable_contact } = (d, dr))
    (hpos : 0 < d)
    (hmargin : request.security_margin < d) :
    (ShapeShapeCollide ext NDEBUG T_SH1 T_SH2 o1 tf1 o2 tf2 request result).ret = some 0 ∧
    (ShapeShapeCollide ext NDEBUG T_SH1 T_SH2 o1 tf1 o2 tf2 request result).result.contacts =
      result.contacts ∧
    (ShapeShapeCollide ext NDEBUG T_SH1 T_SH2 o1 tf1 o2 tf2 request
      result).result.distance_lower_bound = d := by
  rw [ShapeShapeCollide_unsatisfied ext NDEBUG T_SH1 T_SH2 o1 tf1 o2 tf2 request result d dr
    hsat hsolve]
  simp [not_le.mpr hpos, not_le.mpr hmargin]

/-- Witness for C3: the result holds the smaller bound `1` and the solver reports `5`; the
bound becomes `5`, not the minimum of the two. -/
theorem ShapeShapeCollide_no_contact_witness :
    (ShapeShapeCollide
      (fixedExternals 5 ⟨⟨1, 0, 0⟩, ⟨6, 0, 0⟩, ⟨1, 0, 0⟩, -1, -1⟩ [])
      false .Sphere .Sphere 1 Transform3f.identity 2 (Transform3f.translation ⟨7, 0, 0⟩)
      (sampleRequest 1 2) ⟨[], 1⟩).result.distance_lower_bound = 5 :=
  (ShapeShapeCollide_no_contact
    (fixedExternals 5 ⟨⟨1, 0, 0⟩, ⟨6, 0, 0⟩, ⟨1, 0, 0⟩, -1, -1⟩ [])
    false .Sphere .Sphere 1 Transform3f.identity 2 (Transform3f.translation ⟨7, 0, 0⟩)
    (sampleRequest 1 2) ⟨[], 1⟩ 5 ⟨⟨1, 0, 0⟩, ⟨6, 0, 0⟩, ⟨1, 0, 0⟩, -1, -1⟩
    rfl rfl (by norm_num) (by norm_num [sampleRequest])).2.2

/-- C4. Cap rule of `ShapeShapeCollide`: when the request is not satisfied but the result
already holds at least `num_max_contacts` contacts, and the solver distance satisfies `d ≤ 0`
or `d ≤ security_margin`, the call returns 1 and leaves the result (contact sequence and
distance lower bound) unchanged. -/
theorem ShapeShapeCollide_cap_rule (ext : Externals) (NDEBUG : Bool)
    (T_SH1 T_SH2 : ShapeType) (o1 : CollisionGeometry) (tf1 : Transform3f)
    (o2 : CollisionGeometry) (tf2 : Transform3f)
    (request : CollisionRequest) (result : CollisionResult)
    (d : FCL_REAL) (dr : DistanceResult)
    (hsat : ext.isSatisfied request result = false)
    (hcap : request.num_max_contacts ≤ result.numContacts)
    (hsolve : ext.ShapeShapeDistance T_SH1 T_SH2 o1 tf1 o2 tf2
      { enable_nearest_points := request.enable_contact } = (d, dr))
    (hd : d ≤ 0 ∨ d ≤ request.security_margin) :
    (ShapeShapeCollide ext NDEBUG T_SH1 T_SH2 o1 tf1 o2 tf2 request result).ret = some 1 ∧
    (ShapeShapeCollide ext NDEBUG T_SH1 T_SH2 o1 tf1 o2 tf2 request result).result =
      result := by
  rw [ShapeShapeCollide_unsatisfied ext NDEBUG T_SH1 T_SH2 o1 tf1 o2 tf2 request result d dr
    hsat hsolve]
  have hcap1 : ¬ result.numContacts < request.num_max_contacts := not_lt.mpr hcap
  by_cases h0 : d ≤ 0
  · simp [h0, hcap1]
  · have hm : d ≤ request.security_margin := hd.resolve_left h0
    simp [h0, hm, hcap1]

/-- Witness for C4: `num_max_contacts = 0` with an empty result, distance within the
margin. -/
theorem ShapeShapeCollide_cap_rule_witness :
    (ShapeShapeCollide
      (fixedExternals 1 ⟨⟨1, 0, 0⟩, ⟨2, 0, 0⟩, ⟨1, 0, 0⟩, -1, -1⟩ [])
      false .Box .Plane 1 Transform3f.identity 2 Transform3f.identity
      (sampleRequest 0 (3/2)) ⟨[], 9⟩).ret = some 1 ∧
    (ShapeShapeCollide
      (fixedExternals 1 ⟨⟨1, 0, 0⟩, ⟨2, 0, 0⟩, ⟨1, 0, 0⟩, -1, -1⟩ [])
      false .Box .Plane 1 Transform3f.identity 2 Transform3f.identity
      (sampleRequest 0 (3/2)) ⟨[], 9⟩).result = ⟨[], 9⟩ :=
  ShapeShapeCollide_cap_rule
    (fixedExternals 1 ⟨⟨1, 0, 0⟩, ⟨2, 0, 0⟩, ⟨1, 0, 0⟩, -1, -1⟩ [])
    false .Box .Plane 1 Transform3f.identity 2 Transform3f.identity
    (sampleRequest 0 (3/2)) ⟨[], 9⟩ 1 ⟨⟨1, 0, 0⟩, ⟨2, 0, 0⟩, ⟨1, 0, 0⟩, -1, -1⟩
    rfl (by decide) rfl (Or.inr (by norm_num [sampleRequest]))

/-! ## The entry test -/

/-- Every routine a cell can point to starts with the same entry test: on a satisfied request
the call returns `result.numContacts()` at once. -/
theorem call_satisfied (ext : Externals) (NDEBUG : Bool) (f : CollisionFunc)
    (o1 : CollisionGeometry) (tf1 : Transform3f) (o2 : CollisionGeometry) (tf2 : Transform3f)
    (request : CollisionRequest) (result : CollisionResult)
    (hsat : ext.isSatisfied request result = true) :
    f.call ext NDEBUG o1 tf1 o2 tf2 request result = satisfiedReturn result := by
  cases f with
  | ShapeShapeCollide a b => simp [CollisionFunc.call, ShapeShapeCollide, hsat, satisfiedReturn]
  | BVHShapeCollider_collide b s =>
    cases b <;>
      simp [CollisionFunc.call, BVHShapeCollider.collide, BVHShapeCollider.collidePrimary,
        details.orientedBVHShapeCollide, hsat]
  | BVHCollide b =>
    cases b <;>
      simp [CollisionFunc.call, BVHCollide, BVHCollidePrimary, details.orientedMeshCollide, hsat]
  | OcTreeShapeCollide s => simp [CollisionFunc.call, OcTreeShapeCollide, octreeBody, hsat]
  | ShapeOcTreeCollide s => simp [CollisionFunc.call, ShapeOcTreeCollide, octreeBody, hsat]
  | OcTreeCollide => simp [CollisionFunc.call, OcTreeCollide, octreeBody, hsat]
  | OcTreeBVHCollide b => simp [CollisionFunc.call, OcTreeBVHCollide, octreeBody, hsat]
  | BVHOcTreeCollide b => simp [CollisionFunc.call, BVHOcTreeCollide, octreeBody, hsat]

/-- A run of calls whose requests are all satisfied by the result on entry: every call takes
the entry test. -/
theorem callSequence_satisfied (ext : Externals) (NDEBUG : Bool) (result : CollisionResult) :
    ∀ calls : List Call, (∀ c ∈ calls, ext.isSatisfied c.request result = true) →
      callSequence ext NDEBUG calls result =
        List.replicate calls.length (satisfiedReturn result) := by
  intro calls
  induction calls with
  | nil => intro _; rfl
  | cons c cs ih =>
    intro h
    have hc := call_satisfied ext NDEBUG c.f c.o1 c.tf1 c.o2 c.tf2 c.request result
      (h c (List.mem_cons_self c cs))
    have hrest := ih (fun c1 hc1 => h c1 (List.mem_cons_of_mem c hc1))
    simp only [callSequence, hc, satisfiedReturn, List.length_cons, List.replicate_succ]
    simp only [satisfiedReturn] at hrest
    rw [hrest]

/-- C5 (counterexample). With `num_max_contacts = 1` and a result that holds one contact the
request is satisfied on entry, and `ShapeShapeCollide`, called through its cell, returns 1,
not 0. -/
theorem satisfied_call_returns_one :
    (fixedExternals 1 ⟨⟨1, 0, 0⟩, ⟨2, 0, 0⟩, ⟨1, 0, 0⟩, -1, -1⟩ []).isSatisfied
      (sampleRequest 1 0) ⟨[sampleContact], 0⟩ = true ∧
    (sampleRequest 1 0).num_max_contacts ≤
      (⟨[sampleContact], 0⟩ : CollisionResult).numContacts ∧
    (CollisionFunc.call (fixedExternals 1 ⟨⟨1, 0, 0⟩, ⟨2, 0, 0⟩, ⟨1, 0, 0⟩, -1, -1⟩ []) false
      (.ShapeShapeCollide .Sphere .Sphere) 1 Transform3f.identity 2 Transform3f.identity
      (sampleRequest 1 0) ⟨[sampleContact], 0⟩).ret = some 1 ∧
    (CollisionFunc.call (fixedExternals 1 ⟨⟨1, 0, 0⟩, ⟨2, 0, 0⟩, ⟨1, 0, 0⟩, -1, -1⟩ []) false
      (.ShapeShapeCollide .Sphere .Sphere) 1 Transform3f.identity 2 Transform3f.identity
      (sampleRequest 1 0) ⟨[sampleContact], 0⟩).ret ≠ some 0 := by
  refine ⟨rfl, by decide, ?_, ?_⟩
  · rw [call_satisfied _ _ _ _ _ _ _ _ _ rfl]; rfl
  · rw [call_satisfied _ _ _ _ _ _ _ _ _ rfl]; decide

/-- C5 (amended). For every routine a cell of the matrix can point to and every request and
result such that `request.isSatisfied(result)` holds on entry, the call returns
`result.numContacts()`, the number of contacts the result already holds; this is 0 exactly
when the result is empty. -/
theorem satisfied_call_returns_numContacts (ext : Externals) (NDEBUG : Bool)
    (f : CollisionFunc)
    (o1 : CollisionGeometry) (tf1 : Transform3f) (o2 : CollisionGeometry) (tf2 : Transform3f)
    (request : CollisionRequest) (result : CollisionResult)
    (hsat : ext.isSatisfied request result = true) :
    (f.call ext NDEBUG o1 tf1 o2 tf2 request result).ret = some result.numContacts ∧
    ((f.call ext NDEBUG o1 tf1 o2 tf2 request result).ret = some 0 ↔ result.contacts = []) := by
  rw [call_satisfied ext NDEBUG f o1 tf1 o2 tf2 request result hsat]
  simp [satisfiedReturn, CollisionResult.numContacts]

/-- Witness for the amended C5: a mesh-shape routine on a result that holds one contact. -/
theorem satisfied_call_returns_numContacts_witness :
    (CollisionFunc.call (fixedExternals 1 ⟨⟨1, 0, 0⟩, ⟨2, 0, 0⟩, ⟨1, 0, 0⟩, -1, -1⟩ []) false
      (.BVHShapeCollider_collide .OBB .Box) 1 Transform3f.identity 2 Transform3f.identity
      (sampleRequest 1 0) ⟨[sampleContact], 0⟩).ret =
    some (⟨[sampleContact], 0⟩ : CollisionResult).numContacts :=
  (satisfied_call_returns_numContacts
    (fixedExternals 1 ⟨⟨1, 0, 0⟩, ⟨2, 0, 0⟩, ⟨1, 0, 0⟩, -1, -1⟩ []) false
    (.BVHShapeCollider_collide .OBB .Box) 1 Transform3f.identity 2 Transform3f.identity
    (sampleRequest 1 0) ⟨[sampleContact], 0⟩ rfl).1

/-- C6. Satisfied short-circuit does no work: for every routine a cell of the matrix can point
to, a call whose request is satisfied by the result on entry performs no external work (its
trace is empty: no solver call, no traversal) and leaves the result as it was; hence in any
sequence of such calls on one result object every call returns with the result unchanged, and
every request that was satisfied stays satisfied. -/
theorem satisfied_call_does_no_work (ext : Externals) (NDEBUG : Bool)
    (calls : List Call) (result : CollisionResult)
    (hsat : ∀ c ∈ calls, ext.isSatisfied c.request result = true) :
    (∀ c ∈ calls,
      (c.f.call ext NDEBUG c.o1 c.tf1 c.o2 c.tf2 c.request result).trace = [] ∧
      (c.f.call ext NDEBUG c.o1 c.tf1 c.o2 c.tf2 c.request result).result = result) ∧
    callSequence ext NDEBUG calls result =
      List.replicate calls.length
        { ret := some result.numContacts, result := result, trace := [] } ∧
    (∀ out ∈ callSequence ext NDEBUG calls result, ∀ c ∈ calls,
      out.trace = [] ∧ out.result = result ∧ ext.isSatisfied c.request out.result = true) := by
  have hseq := callSequence_satisfied ext NDEBUG result calls hsat
  refine ⟨?_, hseq, ?_⟩
  · intro c hc
    rw [call_satisfied ext NDEBUG c.f c.o1 c.tf1 c.o2 c.tf2 c.request result (hsat c hc)]
    exact ⟨rfl, rfl⟩
  · intro out hout c hc
    rw [hseq] at hout
    have hval := List.eq_of_mem_replicate hout
    subst hval
    exact ⟨rfl, rfl, hsat c hc⟩

/-- Witness for C6: a shape-pair, a mesh-shape and a mesh-mesh call on a result that already
holds the single contact the request asks for. -/
theorem satisfied_call_does_no_work_witness :
    callSequence (fixedExternals 1 ⟨⟨1, 0, 0⟩, ⟨2, 0, 0⟩, ⟨1, 0, 0⟩, -1, -1⟩ [sampleContact])
      false
      [⟨.ShapeShapeCollide .Sphere .Box, 1, Transform3f.identity, 2, Transform3f.identity,
         sampleRequest 1 0⟩,
       ⟨.BVHShapeCollider_collide .AABB .Box, 3, Transform3f.identity, 2, Transform3f.identity,
         sampleRequest 1 0⟩,
       ⟨.BVHCollide .OBB, 3, Transform3f.identity, 4, Transform3f.identity,
         sampleRequest 1 0⟩]
      ⟨[sampleContact], 0⟩ =
    List.replicate 3 { ret := some 1, result := ⟨[sampleContact], 0⟩, trace := [] } :=
  (satisfied_call_does_no_work
    (fixedExternals 1 ⟨⟨1, 0, 0⟩, ⟨2, 0, 0⟩, ⟨1, 0, 0⟩, -1, -1⟩ [sampleContact]) false
    [⟨.ShapeShapeCollide .Sphere .Box, 1, Transform3f.identity, 2, Transform3f.identity,
       sampleRequest 1 0⟩,
     ⟨.BVHShapeCollider_collide .AABB .Box, 3, Transform3f.identity, 2, Transform3f.identity,
       sampleRequest 1 0⟩,
     ⟨.BVHCollide .OBB, 3, Transform3f.identity, 4, Transform3f.identity,
       sampleRequest 1 0⟩]
    ⟨[sampleContact], 0⟩
    (by intro c hc; simp at hc; rcases hc with h | h | h <;> subst h <;> rfl)).2.1

/-! ## Return value of the mesh routines -/

/-- The four mesh routines return `result.numContacts()` as it stands when they return. -/
theorem mesh_routines_ret (ext : Externals) (T_BVH : BVType) (T_SH : ShapeType)
    (nodeClass : NodeClass)
    (o1 : CollisionGeometry) (tf1 : Transform3f) (o2 : CollisionGeometry) (tf2 : Transform3f)
    (request : CollisionRequest) (result : CollisionResult) (out : Outcome)
    (hout : out = BVHCollide ext T_BVH o1 tf1 o2 tf2 request result ∨
      out = details.orientedMeshCollide ext nodeClass o1 tf1 o2 tf2 request result ∨
      out = BVHShapeCollider.collide ext T_BVH T_SH o1 tf1 o2 tf2 request result ∨
      out = details.orientedBVHShapeCollide ext nodeClass o1 tf1 o2 tf2 request result) :
    out.ret = some out.result.numContacts ∧
    (out.result = result ∨ ∃ node, out.result = ext.collide node request result) := by
  have hside : ∀ cls : NodeClass,
      (details.orientedMeshCollide ext cls o1 tf1 o2 tf2 request result).ret =
        some (details.orientedMeshCollide ext cls o1 tf1 o2 tf2 request
          result).result.numContacts ∧
      ((details.orientedMeshCollide ext cls o1 tf1 o2 tf2 request result).result = result ∨
        ∃ node, (details.orientedMeshCollide ext cls o1 tf1 o2 tf2 request result).result =
          ext.collide node request result) := by
    intro cls
    unfold details.orientedMeshCollide
    by_cases hs : ext.isSatisfied request result = true
    · simp [hs, satisfiedReturn]
    · rw [if_neg hs]
      exact ⟨rfl, Or.inr ⟨_, rfl⟩⟩
  have hshape : ∀ cls : NodeClass,
      (details.orientedBVHShapeCollide ext cls o1 tf1 o2 tf2 request result).ret =
        some (details.orientedBVHShapeCollide ext cls o1 tf1 o2 tf2 request
          result).result.numContacts ∧
      ((details.orientedBVHShapeCollide ext cls o1 tf1 o2 tf2 request result).result = result ∨
        ∃ node, (details.orientedBVHShapeCollide ext cls o1 tf1 o2 tf2 request result).result =
          ext.collide node request result) := by
    intro cls
    unfold details.orientedBVHShapeCollide
    by_cases hs : ext.isSatisfied request result = true
    · simp [hs, satisfiedReturn]
    · rw [if_neg hs]
      exact ⟨rfl, Or.inr ⟨_, rfl⟩⟩
  have hprim : ∀ b : BVType,
      (BVHCollidePrimary ext b o1 tf1 o2 tf2 request result).ret =
        some (BVHCollidePrimary ext b o1 tf1 o2 tf2 request result).result.numContacts ∧
      ((BVHCollidePrimary ext b o1 tf1 o2 tf2 request result).result = result ∨
        ∃ node, (BVHCollidePrimary ext b o1 tf1 o2 tf2 request result).result =
          ext.collide node request result) := by
    intro b
    unfold BVHCollidePrimary
    by_cases hs : ext.isSatisfied request result = true
    · simp [hs, satisfiedReturn]
    · rw [if_neg hs]
      exact ⟨rfl, Or.inr ⟨_, rfl⟩⟩
  have hprimShape : ∀ b : BVType,
      (BVHShapeCollider.collidePrimary ext b T_SH o1 tf1 o2 tf2 request result).ret =
        some (BVHShapeCollider.collidePrimary ext b T_SH o1 tf1 o2 tf2 request
          result).result.numContacts ∧
      ((BVHShapeCollider.collidePrimary ext b T_SH o1 tf1 o2 tf2 request result).result =
          result ∨
        ∃ node, (BVHShapeCollider.collidePrimary ext b T_SH o1 tf1 o2 tf2 request
          result).result = ext.collide node request result) := by
    intro b
    unfold BVHShapeCollider.collidePrimary
    by_cases hs : ext.isSatisfied request result = true
    · simp [hs, satisfiedReturn]
    · rw [if_neg hs]
      exact ⟨rfl, Or.inr ⟨_, rfl⟩⟩
  rcases hout with h | h | h | h
  · subst h
    cases T_BVH <;> simp only [BVHCollide] <;> first | exact hprim _ | exact hside _
  · subst h; exact hside _
  · subst h
    cases T_BVH <;> simp only [BVHShapeCollider.collide] <;>
      first | exact hprimShape _ | exact hshape _
  · subst h; exact hshape _

/-- C7 (counterexample). `BVHCollide<AABB>` on a result that holds one contact, with
`num_max_contacts = 3` (so the request is not satisfied) and a traversal that appends one
contact: the call appends one contact but returns 2. -/
theorem BVHCollide_returns_total_not_new :
    (fixedExternals 1 ⟨⟨1, 0, 0⟩, ⟨2, 0, 0⟩, ⟨1, 0, 0⟩, -1, -1⟩ [sampleContact]).isSatisfied
      (sampleRequest 3 0) ⟨[sampleContact], 0⟩ = false ∧
    (BVHCollide (fixedExternals 1 ⟨⟨1, 0, 0⟩, ⟨2, 0, 0⟩, ⟨1, 0, 0⟩, -1, -1⟩ [sampleContact])
      .AABB 1 Transform3f.identity 2 Transform3f.identity
      (sampleRequest 3 0) ⟨[sampleContact], 0⟩).result.contacts =
      [sampleContact] ++ [sampleContact] ∧
    (BVHCollide (fixedExternals 1 ⟨⟨1, 0, 0⟩, ⟨2, 0, 0⟩, ⟨1, 0, 0⟩, -1, -1⟩ [sampleContact])
      .AABB 1 Transform3f.identity 2 Transform3f.identity
      (sampleRequest 3 0) ⟨[sampleContact], 0⟩).result.numContacts -
        (⟨[sampleContact], 0⟩ : CollisionResult).numContacts = 1 ∧
    (BVHCollide (fixedExternals 1 ⟨⟨1, 0, 0⟩, ⟨2, 0, 0⟩, ⟨1, 0, 0⟩, -1, -1⟩ [sampleContact])
      .AABB 1 Transform3f.identity 2 Transform3f.identity
      (sampleRequest 3 0) ⟨[sampleContact], 0⟩).ret = some 2 := by
  refine ⟨rfl, rfl, rfl, rfl⟩

/-- C7 (amended). For every mesh routine (`BVHCollide`, `details::orientedMeshCollide`,
`BVHShapeCollider::collide`, `details::orientedBVHShapeCollide`), every traversal that only
appends contacts and every request and result, the value returned is `numContacts()` after
the call, that is the number of contacts held before the call plus the number appended by
it; it equals the number appended exactly when the result was empty on entry. -/
theorem mesh_routines_return_total (ext : Externals) (T_BVH : BVType) (T_SH : ShapeType)
    (nodeClass : NodeClass)
    (o1 : CollisionGeometry) (tf1 : Transform3f) (o2 : CollisionGeometry) (tf2 : Transform3f)
    (request : CollisionRequest) (result : CollisionResult) (out : Outcome)
    (happend : ∀ node req res, ∃ found : List Contact,
      (ext.collide node req res).contacts = res.contacts ++ found)
    (hout : out = BVHCollide ext T_BVH o1 tf1 o2 tf2 request result ∨
      out = details.orientedMeshCollide ext nodeClass o1 tf1 o2 tf2 request result ∨
      out = BVHShapeCollider.collide ext T_BVH T_SH o1 tf1 o2 tf2 request result ∨
      out = details.orientedBVHShapeCollide ext nodeClass o1 tf1 o2 tf2 request result) :
    out.ret = some out.result.numContacts ∧
    ∃ found : List Contact,
      out.result.contacts = result.contacts ++ found ∧
      out.ret = some (result.numContacts + found.length) ∧
      (out.ret = some found.length ↔ result.numContacts = 0) := by
  obtain ⟨hret, hres⟩ := mesh_routines_ret ext T_BVH T_SH nodeClass o1 tf1 o2 tf2 request
    result out hout
  refine ⟨hret, ?_⟩
  have hfound : ∃ found : List Contact, out.result.contacts = result.contacts ++ found := by
    rcases hres with h | ⟨node, h⟩
    · exact ⟨[], by rw [h]; simp⟩
    · rw [h]; exact happend node request result
  obtain ⟨found, hfound⟩ := hfound
  refine ⟨found, hfound, ?_, ?_⟩
  · rw [hret]; simp [CollisionResult.numContacts, hfound]
  · rw [hret]; simp [CollisionResult.numContacts, hfound]

/-- Witness for the amended C7: the run of the counterexample returns `1 + 1`. -/
theorem mesh_routines_return_total_witness :
    (BVHCollide (fixedExternals 1 ⟨⟨1, 0, 0⟩, ⟨2, 0, 0⟩, ⟨1, 0, 0⟩, -1, -1⟩ [sampleContact])
      .AABB 1 Transform3f.identity 2 Transform3f.identity
      (sampleRequest 3 0) ⟨[sampleContact], 0⟩).ret =
    some (BVHCollide (fixedExternals 1 ⟨⟨1, 0, 0⟩, ⟨2, 0, 0⟩, ⟨1, 0, 0⟩, -1, -1⟩ [sampleContact])
      .AABB 1 Transform3f.identity 2 Transform3f.identity
      (sampleRequest 3 0) ⟨[sampleContact], 0⟩).result.numContacts :=
  (mesh_routines_return_total
    (fixedExternals 1 ⟨⟨1, 0, 0⟩, ⟨2, 0, 0⟩, ⟨1, 0, 0⟩, -1, -1⟩ [sampleContact])
    .AABB .Box (.MeshCollisionTraversalNode .AABB)
    1 Transform3f.identity 2 Transform3f.identity (sampleRequest 3 0) ⟨[sampleContact], 0⟩
    (BVHCollide (fixedExternals 1 ⟨⟨1, 0, 0⟩, ⟨2, 0, 0⟩, ⟨1, 0, 0⟩, -1, -1⟩ [sampleContact])
      .AABB 1 Transform3f.identity 2 Transform3f.identity
      (sampleRequest 3 0) ⟨[sampleContact], 0⟩)
    (fun _ _ _ => ⟨_, rfl⟩) (Or.inl rfl)).1

/-! ## Append-only contacts -/

/-- C8. Append-only contacts in `ShapeShapeCollide`: for every request, result, solver answer
and build mode, the contact sequence after the call is the sequence before, or the sequence
before followed by exactly one contact, the latter only when `numContacts()` was strictly
below `num_max_contacts`; so no existing contact is removed, moved or rewritten and a call
that adds a contact leaves the count within the cap. -/
theorem ShapeShapeCollide_append_only (ext : Externals) (NDEBUG : Bool)
    (T_SH1 T_SH2 : ShapeType) (o1 : CollisionGeometry) (tf1 : Transform3f)
    (o2 : CollisionGeometry) (tf2 : Transform3f)
    (request : CollisionRequest) (result : CollisionResult) :
    ((ShapeShapeCollide ext NDEBUG T_SH1 T_SH2 o1 tf1 o2 tf2 request result).result.contacts =
        result.contacts ∨
      ((∃ c : Contact,
          (ShapeShapeCollide ext NDEBUG T_SH1 T_SH2 o1 tf1 o2 tf2 request
            result).result.contacts = result.contacts ++ [c]) ∧
        result.numContacts < request.num_max_contacts)) ∧
    (result.numContacts <
        (ShapeShapeCollide ext NDEBUG T_SH1 T_SH2 o1 tf1 o2 tf2 request
          result).result.numContacts →
      (ShapeShapeCollide ext NDEBUG T_SH1 T_SH2 o1 tf1 o2 tf2 request
        result).result.numContacts ≤ request.num_max_contacts) := by
  by_cases hs : ext.isSatisfied request result = true
  · simp [ShapeShapeCollide, hs]
  · have hs1 : ext.isSatisfied request result = false := by simpa using hs
    rw [ShapeShapeCollide_unsatisfied ext NDEBUG T_SH1 T_SH2 o1 tf1 o2 tf2 request result
      (ext.ShapeShapeDistance T_SH1 T_SH2 o1 tf1 o2 tf2
        { enable_nearest_points := request.enable_contact }).1
      (ext.ShapeShapeDistance T_SH1 T_SH2 o1 tf1 o2 tf2
        { enable_nearest_points := request.enable_contact }).2 hs1 rfl]
    simp only []
    split_ifs with h1 h2 h3 h4 h5 h6 <;>
      simp [CollisionResult.addContact, CollisionResult.numContacts] <;>
      first
      | exact h2
      | exact h6
      | (simp only [CollisionResult.numContacts] at h2; omega)
      | (simp only [CollisionResult.numContacts] at h6; omega)

/-! ## Two spheres -/

/-- In the two-sphere scenario the two reported surface points coincide when the spheres
touch. -/
theorem twoSpheres_points_touching (c1 u : Vec3f) (r1 r2 d : FCL_REAL) (hd : d = r1 + r2) :
    (twoSpheresAnswer c1 u r1 r2 d).2.nearest_points0 =
      (twoSpheresAnswer c1 u r1 r2 d).2.nearest_points1 := by
  subst hd
  simp only [twoSpheresAnswer, Vec3f.add, Vec3f.sub, Vec3f.scale, Vec3f.mk.injEq]
  refine ⟨?_, ?_, ?_⟩ <;> ring

/-- In the two-sphere scenario the two reported surface points differ when the spheres
overlap. -/
theorem twoSpheres_points_overlapping (c1 u : Vec3f) (r1 r2 d : FCL_REAL)
    (hu : Vec3f.dot u u = 1) (hd : d < r1 + r2) :
    (twoSpheresAnswer c1 u r1 r2 d).2.nearest_points0 ≠
      (twoSpheresAnswer c1 u r1 r2 d).2.nearest_points1 := by
  intro h
  simp only [twoSpheresAnswer, Vec3f.add, Vec3f.sub, Vec3f.scale, Vec3f.mk.injEq] at h
  obtain ⟨hx, hy, hz⟩ := h
  have hne : r1 + r2 - d ≠ 0 := by linarith
  have hx0 : u.x = 0 := by
    have : (r1 + r2 - d) * u.x = 0 := by linarith
    rcases mul_eq_zero.mp this with h0 | h0
    · exact absurd h0 hne
    · exact h0
  have hy0 : u.y = 0 := by
    have : (r1 + r2 - d) * u.y = 0 := by linarith
    rcases mul_eq_zero.mp this with h0 | h0
    · exact absurd h0 hne
    · exact h0
  have hz0 : u.z = 0 := by
    have : (r1 + r2 - d) * u.z = 0 := by linarith
    rcases mul_eq_zero.mp this with h0 | h0
    · exact absurd h0 hne
    · exact h0
  simp [Vec3f.dot, hx0, hy0, hz0] at hu

set_option maxRecDepth 20000 in
set_option maxHeartbeats 2000000 in
/-- Cell by cell, the matrix built by the constructor is the described one. -/
theorem CollisionFunctionMatrix_eq_describedCell (HPP_FCL_HAVE_OCTOMAP : Bool)
    (r c : NODE_TYPE) :
    CollisionFunctionMatrix HPP_FCL_HAVE_OCTOMAP r c =
      describedCell HPP_FCL_HAVE_OCTOMAP r c := by
  cases HPP_FCL_HAVE_OCTOMAP <;> cases r <;> cases c <;> decide

/-- Cell by cell: a routine stored in cell `(r, c)` casts its arguments to the geometry kinds
`r` and `c`, in that order. -/
theorem matrix_cells_kinds (HPP_FCL_HAVE_OCTOMAP : Bool) (r c : NODE_TYPE) :
    (CollisionFunctionMatrix HPP_FCL_HAVE_OCTOMAP r c).all
      (fun f => decide (f.kinds = (r, c))) = true := by
  rw [CollisionFunctionMatrix_eq_describedCell]
  cases HPP_FCL_HAVE_OCTOMAP <;> cases r <;> cases c <;> rfl

/-- A routine is determined by the geometry kinds it casts its arguments to. -/
theorem kinds_injective (f g : CollisionFunc) (h : f.kinds = g.kinds) : f = g := by
  have hs : ∀ x y : ShapeType, x.nodeType = y.nodeType → x = y := by decide
  have hb : ∀ x y : BVType, x.nodeType = y.nodeType → x = y := by decide
  have hsb : ∀ (x : ShapeType) (y : BVType), x.nodeType ≠ y.nodeType := by decide
  have hso : ∀ x : ShapeType, x.nodeType ≠ NODE_TYPE.GEOM_OCTREE := by decide
  have hbo : ∀ x : BVType, x.nodeType ≠ NODE_TYPE.GEOM_OCTREE := by decide
  have h1 : f.kinds.1 = g.kinds.1 := congrArg Prod.fst h
  have h2 : f.kinds.2 = g.kinds.2 := congrArg Prod.snd h
  cases f <;> cases g <;>
    first
    | rfl
    | exact absurd h1 (hsb _ _)
    | exact absurd h1.symm (hsb _ _)
    | exact absurd h2 (hsb _ _)
    | exact absurd h2.symm (hsb _ _)
    | exact absurd h1 (hso _)
    | exact absurd h1.symm (hso _)
    | exact absurd h2 (hso _)
    | exact absurd h2.symm (hso _)
    | exact absurd h1 (hbo _)
    | exact absurd h1.symm (hbo _)
    | exact absurd h2 (hbo _)
    | exact absurd h2.symm (hbo _)
    | (have e1 := hs _ _ h1; have e2 := hs _ _ h2; subst e1; subst e2; rfl)
    | (have e1 := hb _ _ h1; have e2 := hs _ _ h2; subst e1; subst e2; rfl)
    | (have e1 := hb _ _ h1; subst e1; rfl)
    | (have e1 := hs _ _ h1; subst e1; rfl)
    | (have e2 := hs _ _ h2; subst e2; rfl)
    | (have e2 := hb _ _ h2; subst e2; rfl)

/-- The 64 cells indexed by two of the eight shapes hold the shape-pair routine of these two
shapes, with or without octree support. -/
theorem matrix_shape_cells (HPP_FCL_HAVE_OCTOMAP : Bool) (x y : ShapeType) :
    CollisionFunctionMatrix HPP_FCL_HAVE_OCTOMAP x.nodeType y.nodeType =
      some (.ShapeShapeCollide x y) := by
  rw [CollisionFunctionMatrix_eq_describedCell]
  cases x <;> cases y <;> rfl

/-- C10. Every populated cell holds the right routine: after construction, with or without
octree support, a routine stored in cell `(r, c)` is instantiated for exactly the geometry
kinds `r` and `c` in that order; in particular cell `[GEOM_x][GEOM_y]` can only hold
`ShapeShapeCollide<x, y>`, cell `[BV_b][GEOM_y]` only `BVHShapeCollider<b, y>::collide` and
cell `[BV_b][BV_b]` only `BVHCollide<b>`; and all 64 ordered pairs of the eight shapes box,
sphere, capsule, cone, cylinder, convex, plane and halfspace are populated. -/
theorem populated_cells_hold_right_routine (HPP_FCL_HAVE_OCTOMAP : Bool) (r c : NODE_TYPE)
    (f : CollisionFunc) (hcell : CollisionFunctionMatrix HPP_FCL_HAVE_OCTOMAP r c = some f) :
    f.kinds = (r, c) ∧
    (∀ x y : ShapeType, r = x.nodeType → c = y.nodeType → f = .ShapeShapeCollide x y) ∧
    (∀ (b : BVType) (y : ShapeType), r = b.nodeType → c = y.nodeType →
      f = .BVHShapeCollider_collide b y) ∧
    (∀ b : BVType, r = b.nodeType → c = b.nodeType → f = .BVHCollide b) ∧
    (∀ (o : Bool) (x y : ShapeType),
      CollisionFunctionMatrix o x.nodeType y.nodeType = some (.ShapeShapeCollide x y)) := by
  have hk : f.kinds = (r, c) := by
    have h := matrix_cells_kinds HPP_FCL_HAVE_OCTOMAP r c
    rw [hcell] at h
    simpa using h
  refine ⟨hk, ?_, ?_, ?_, ?_⟩
  · intro x y hr hc
    apply kinds_injective
    rw [hk, hr, hc]; rfl
  · intro b y hr hc
    apply kinds_injective
    rw [hk, hr, hc]; rfl
  · intro b hr hc
    apply kinds_injective
    rw [hk, hr]
    have hc2 : c = b.nodeType := hc
    rw [hc2]; rfl
  · exact matrix_shape_cells

/-- Witness for C10: the cell of a box against a sphere. -/
theorem populated_cells_hold_right_routine_witness :
    CollisionFunctionMatrix false .GEOM_BOX .GEOM_SPHERE =
      some (.ShapeShapeCollide .Box .Sphere) ∧
    (CollisionFunc.ShapeShapeCollide .Box .Sphere).kinds =
      (NODE_TYPE.GEOM_BOX, NODE_TYPE.GEOM_SPHERE) :=
  ⟨matrix_shape_cells false .Box .Sphere,
   (populated_cells_hold_right_routine false .GEOM_BOX .GEOM_SPHERE
    (.ShapeShapeCollide .Box .Sphere) (matrix_shape_cells false .Box .Sphere)).1⟩

/-! ## Which cells are populated -/

/-- The 64 cells indexed by a bounding-volume kind and one of the eight shapes hold the
mesh-shape routine of that kind and shape, with or without octree support. -/
theorem matrix_bvh_shape_cells (HPP_FCL_HAVE_OCTOMAP : Bool) (b : BVType) (y : ShapeType) :
    CollisionFunctionMatrix HPP_FCL_HAVE_OCTOMAP b.nodeType y.nodeType =
      some (.BVHShapeCollider_collide b y) := by
  rw [CollisionFunctionMatrix_eq_describedCell]
  cases b <;> cases y <;> rfl

/-- The eight cells indexed twice by the same bounding-volume kind hold the mesh-mesh routine
of that kind, with or without octree support. -/
theorem matrix_bvh_cells (HPP_FCL_HAVE_OCTOMAP : Bool) (b : BVType) :
    CollisionFunctionMatrix HPP_FCL_HAVE_OCTOMAP b.nodeType b.nodeType =
      some (.BVHCollide b) := by
  rw [CollisionFunctionMatrix_eq_describedCell]
  cases b <;> rfl

/-- Cells that no assignment of the constructor targets, in either build: the row and the
column of `GEOM_TRIANGLE` and of `BV_UNKNOWN`, the cells of a shape against a mesh, and the
cells of two different bounding-volume kinds. -/
theorem matrix_unassigned_cells (HPP_FCL_HAVE_OCTOMAP : Bool) (r : NODE_TYPE) :
    CollisionFunctionMatrix HPP_FCL_HAVE_OCTOMAP .GEOM_TRIANGLE r = none ∧
    CollisionFunctionMatrix HPP_FCL_HAVE_OCTOMAP r .GEOM_TRIANGLE = none ∧
    CollisionFunctionMatrix HPP_FCL_HAVE_OCTOMAP .BV_UNKNOWN r = none ∧
    CollisionFunctionMatrix HPP_FCL_HAVE_OCTOMAP r .BV_UNKNOWN = none ∧
    (∀ (x : ShapeType) (b : BVType),
      CollisionFunctionMatrix HPP_FCL_HAVE_OCTOMAP x.nodeType b.nodeType = none) ∧
    (∀ b1 b2 : BVType, b1 ≠ b2 →
      CollisionFunctionMatrix HPP_FCL_HAVE_OCTOMAP b1.nodeType b2.nodeType = none) := by
  simp only [CollisionFunctionMatrix_eq_describedCell]
  refine ⟨?_, ?_, ?_, ?_, ?_, ?_⟩
  · cases r <;> rfl
  · cases r <;> rfl
  · cases r <;> rfl
  · cases r <;> rfl
  · intro x b
    cases x <;> cases b <;> rfl
  · intro b1 b2 hne
    cases b1 <;> cases b2 <;>
      first
      | exact absurd rfl hne
      | rfl

/-- C11 (counterexample). The cell of a triangle against a triangle, the cell of a box
against an AABB mesh and the cell of an AABB mesh against an OBB mesh are null, with and
without octree support, although triangle, box and the two mesh kinds are among the listed
geometry variants. -/
theorem matrix_not_complete :
    CollisionFunctionMatrix false .GEOM_TRIANGLE .GEOM_TRIANGLE = none ∧
    CollisionFunctionMatrix true .GEOM_TRIANGLE .GEOM_TRIANGLE = none ∧
    CollisionFunctionMatrix false .GEOM_BOX .BV_AABB = none ∧
    CollisionFunctionMatrix true .GEOM_BOX .BV_AABB = none ∧
    CollisionFunctionMatrix false .BV_AABB .BV_OBB = none ∧
    CollisionFunctionMatrix true .BV_AABB .BV_OBB = none := by
  simp only [CollisionFunctionMatrix_eq_describedCell]
  refine ⟨rfl, rfl, rfl, rfl, rfl, rfl⟩

/-- C11 (amended). After construction, with or without octree support, the matrix holds a
non-null routine for every ordered pair of two of the eight shapes box, sphere, capsule, cone,
cylinder, convex hull, plane and halfspace, for every pair of a bounding-volume-hierarchy
kind (row) and one of these eight shapes (column), and for every pair of twice the same
hierarchy kind; the cells of the row and column of the triangle, the cells of a shape (row)
against a hierarchy kind (column) and the cells of two different hierarchy kinds hold no
routine. -/
theorem matrix_populated_pairs (HPP_FCL_HAVE_OCTOMAP : Bool) :
    (∀ x y : ShapeType,
      CollisionFunctionMatrix HPP_FCL_HAVE_OCTOMAP x.nodeType y.nodeType ≠ none) ∧
    (∀ (b : BVType) (y : ShapeType),
      CollisionFunctionMatrix HPP_FCL_HAVE_OCTOMAP b.nodeType y.nodeType ≠ none) ∧
    (∀ b : BVType,
      CollisionFunctionMatrix HPP_FCL_HAVE_OCTOMAP b.nodeType b.nodeType ≠ none) ∧
    (∀ r : NODE_TYPE,
      CollisionFunctionMatrix HPP_FCL_HAVE_OCTOMAP .GEOM_TRIANGLE r = none ∧
      CollisionFunctionMatrix HPP_FCL_HAVE_OCTOMAP r .GEOM_TRIANGLE = none) ∧
    (∀ (x : ShapeType) (b : BVType),
      CollisionFunctionMatrix HPP_FCL_HAVE_OCTOMAP x.nodeType b.nodeType = none) ∧
    (∀ b1 b2 : BVType, b1 ≠ b2 →
      CollisionFunctionMatrix HPP_FCL_HAVE_OCTOMAP b1.nodeType b2.nodeType = none) := by
  refine ⟨?_, ?_, ?_, ?_, ?_, ?_⟩
  · intro x y; rw [matrix_shape_cells]; exact Option.some_ne_none _
  · intro b y; rw [matrix_bvh_shape_cells]; exact Option.some_ne_none _
  · intro b; rw [matrix_bvh_cells]; exact Option.some_ne_none _
  · intro r
    exact ⟨(matrix_unassigned_cells HPP_FCL_HAVE_OCTOMAP r).1,
      (matrix_unassigned_cells HPP_FCL_HAVE_OCTOMAP r).2.1⟩
  · exact (matrix_unassigned_cells HPP_FCL_HAVE_OCTOMAP .BV_UNKNOWN).2.2.2.2.1
  · exact (matrix_unassigned_cells HPP_FCL_HAVE_OCTOMAP .BV_UNKNOWN).2.2.2.2.2

/-- Witness for the amended C11: two different hierarchy kinds. -/
theorem matrix_populated_pairs_witness :
    CollisionFunctionMatrix true BVType.RSS.nodeType BVType.kIOS.nodeType = none :=
  (matrix_populated_pairs true).2.2.2.2.2 .RSS .kIOS (by decide)

/-- Without octree support, cell by cell: a cell is populated exactly for two shapes, for a
hierarchy kind against a shape, and for twice the same hierarchy kind. -/
theorem matrix_supported_iff (r c : NODE_TYPE) :
    CollisionFunctionMatrix false r c ≠ none ↔
      ((∃ x : ShapeType, r = x.nodeType) ∧ (∃ y : ShapeType, c = y.nodeType)) ∨
      ((∃ b : BVType, r = b.nodeType) ∧ (∃ y : ShapeType, c = y.nodeType)) ∨
      (∃ b : BVType, r = b.nodeType ∧ c = b.nodeType) := by
  rw [CollisionFunctionMatrix_eq_describedCell]
  cases r <;> cases c <;> decide

/-- Without octree support the row and the column of `GEOM_OCTREE` are null. -/
theorem matrix_octree_cells_absent (r : NODE_TYPE) :
    CollisionFunctionMatrix false .GEOM_OCTREE r = none ∧
    CollisionFunctionMatrix false r .GEOM_OCTREE = none := by
  simp only [CollisionFunctionMatrix_eq_describedCell]
  cases r <;> exact ⟨rfl, rfl⟩

/-- C12. Exact supported set without octree support: cell `(r, c)` is non-null if and only if
`r` and `c` are both among the eight shapes box..halfspace, or `r` is one of the eight
hierarchy kinds and `c` one of those shapes, or `r` and `c` are the same hierarchy kind;
so every cell in the row or column of `GEOM_OCTREE`, of `GEOM_TRIANGLE` and of `BV_UNKNOWN`
is null, as is every (shape, hierarchy) cell and every cell of two different hierarchy
kinds. -/
theorem matrix_exact_supported_set (r c : NODE_TYPE) :
    (CollisionFunctionMatrix false r c ≠ none ↔
      ((∃ x : ShapeType, r = x.nodeType) ∧ (∃ y : ShapeType, c = y.nodeType)) ∨
      ((∃ b : BVType, r = b.nodeType) ∧ (∃ y : ShapeType, c = y.nodeType)) ∨
      (∃ b : BVType, r = b.nodeType ∧ c = b.nodeType)) ∧
    CollisionFunctionMatrix false .GEOM_OCTREE c = none ∧
    CollisionFunctionMatrix false r .GEOM_OCTREE = none ∧
    CollisionFunctionMatrix false .GEOM_TRIANGLE c = none ∧
    CollisionFunctionMatrix false r .GEOM_TRIANGLE = none ∧
    CollisionFunctionMatrix false .BV_UNKNOWN c = none ∧
    CollisionFunctionMatrix false r .BV_UNKNOWN = none ∧
    (∀ (x : ShapeType) (b : BVType),
      CollisionFunctionMatrix false x.nodeType b.nodeType = none) ∧
    (∀ b1 b2 : BVType, b1 ≠ b2 →
      CollisionFunctionMatrix false b1.nodeType b2.nodeType = none) :=
  ⟨matrix_supported_iff r c,
   (matrix_octree_cells_absent c).1,
   (matrix_octree_cells_absent r).2,
   (matrix_unassigned_cells false c).1,
   (matrix_unassigned_cells false r).2.1,
   (matrix_unassigned_cells false c).2.2.1,
   (matrix_unassigned_cells false r).2.2.2.1,
   (matrix_unassigned_cells false r).2.2.2.2.1,
   (matrix_unassigned_cells false r).2.2.2.2.2⟩

/-- Witness for C12: two different hierarchy kinds, without octree support. -/
theorem matrix_exact_supported_set_witness :
    CollisionFunctionMatrix false BVType.OBB.nodeType BVType.OBBRSS.nodeType = none :=
  (matrix_exact_supported_set .BV_OBB .GEOM_BOX).2.2.2.2.2.2.2.2 .OBB .OBBRSS (by decide)

/-- With octree support, the cells of the row and of the column of `GEOM_OCTREE`. -/
theorem matrix_octree_cells (s : ShapeType) (b : BVType) :
    CollisionFunctionMatrix true .GEOM_OCTREE s.nodeType = some (.OcTreeShapeCollide s) ∧
    CollisionFunctionMatrix true s.nodeType .GEOM_OCTREE = some (.ShapeOcTreeCollide s) ∧
    CollisionFunctionMatrix true .GEOM_OCTREE b.nodeType = some (.OcTreeBVHCollide b) ∧
    CollisionFunctionMatrix true b.nodeType .GEOM_OCTREE = some (.BVHOcTreeCollide b) ∧
    CollisionFunctionMatrix true .GEOM_OCTREE .GEOM_OCTREE = some .OcTreeCollide := by
  simp only [CollisionFunctionMatrix_eq_describedCell]
  cases s <;> cases b <;> exact ⟨rfl, rfl, rfl, rfl, rfl⟩

/-- Octree support changes no cell outside the row and the column of `GEOM_OCTREE`. -/
theorem matrix_octree_frame (r c : NODE_TYPE)
    (hr : r ≠ .GEOM_OCTREE) (hc : c ≠ .GEOM_OCTREE) :
    CollisionFunctionMatrix true r c = CollisionFunctionMatrix false r c := by
  simp only [CollisionFunctionMatrix_eq_describedCell]
  cases r <;> cases c <;>
    first
    | rfl
    | exact absurd rfl hr
    | exact absurd rfl hc

/-- C13. Octree cells when the capability is present: with octree support the cells
`(GEOM_OCTREE, s)` and `(s, GEOM_OCTREE)` for each of the eight shapes `s`, the cells
`(GEOM_OCTREE, b)` and `(b, GEOM_OCTREE)` for each of the eight hierarchy kinds `b`, and the
cell `(GEOM_OCTREE, GEOM_OCTREE)` are non-null, each holding the octree routine that casts its
first argument to the row kind and its second to the column kind; every cell not involving
`GEOM_OCTREE` is the same as in the build without octree support. -/
theorem matrix_octree_capability (s : ShapeType) (b : BVType) (r c : NODE_TYPE) :
    (CollisionFunctionMatrix true .GEOM_OCTREE s.nodeType = some (.OcTreeShapeCollide s) ∧
      (CollisionFunc.OcTreeShapeCollide s).kinds = (.GEOM_OCTREE, s.nodeType)) ∧
    (CollisionFunctionMatrix true s.nodeType .GEOM_OCTREE = some (.ShapeOcTreeCollide s) ∧
      (CollisionFunc.ShapeOcTreeCollide s).kinds = (s.nodeType, .GEOM_OCTREE)) ∧
    (CollisionFunctionMatrix true .GEOM_OCTREE b.nodeType = some (.OcTreeBVHCollide b) ∧
      (CollisionFunc.OcTreeBVHCollide b).kinds = (.GEOM_OCTREE, b.nodeType)) ∧
    (CollisionFunctionMatrix true b.nodeType .GEOM_OCTREE = some (.BVHOcTreeCollide b) ∧
      (CollisionFunc.BVHOcTreeCollide b).kinds = (b.nodeType, .GEOM_OCTREE)) ∧
    (CollisionFunctionMatrix true .GEOM_OCTREE .GEOM_OCTREE = some .OcTreeCollide ∧
      CollisionFunc.OcTreeCollide.kinds = (.GEOM_OCTREE, .GEOM_OCTREE)) ∧
    (r ≠ .GEOM_OCTREE → c ≠ .GEOM_OCTREE →
      CollisionFunctionMatrix true r c = CollisionFunctionMatrix false r c) :=
  ⟨⟨(matrix_octree_cells s b).1, rfl⟩,
   ⟨(matrix_octree_cells s b).2.1, rfl⟩,
   ⟨(matrix_octree_cells s b).2.2.1, rfl⟩,
   ⟨(matrix_octree_cells s b).2.2.2.1, rfl⟩,
   ⟨(matrix_octree_cells s b).2.2.2.2, rfl⟩,
   matrix_octree_frame r c⟩

/-- Witness for C13: the cell of a box against an OBB mesh is the same in both builds. -/
theorem matrix_octree_capability_witness :
    CollisionFunctionMatrix true .BV_OBB .GEOM_BOX =
      CollisionFunctionMatrix false .BV_OBB .GEOM_BOX :=
  (matrix_octree_capability .Box .OBB .BV_OBB .GEOM_BOX).2.2.2.2.2 (by decide) (by decide)

/-! ## Hash tables: sets and bins -/

theorem mem_setInsert {Data : Type} [LinearOrder Data] (a x : Data) (l : List Data) :
    a ∈ setInsert x l ↔ a = x ∨ a ∈ l := by
  induction l with
  | nil => simp [setInsert]
  | cons y ys ih =>
    unfold setInsert
    split_ifs with h1 h2
    · simp
    · simp only [List.mem_cons, ih]; tauto
    · have hxy : x = y := le_antisymm (not_lt.mp h2) (not_lt.mp h1)
      subst hxy
      simp

theorem sorted_setInsert {Data : Type} [LinearOrder Data] (x : Data) (l : List Data)
    (hl : l.Sorted (· < ·)) : (setInsert x l).Sorted (· < ·) := by
  induction l with
  | nil => simp [setInsert]
  | cons y ys ih =>
    unfold setInsert
    split_ifs with h1 h2
    · refine List.sorted_cons.mpr ⟨?_, hl⟩
      intro b hb
      rcases List.mem_cons.mp hb with hb | hb
      · rw [hb]; exact h1
      · exact lt_trans h1 (List.rel_of_sorted_cons hl b hb)
    · refine List.sorted_cons.mpr ⟨?_, ih (List.Sorted.of_cons hl)⟩
      intro b hb
      rcases (mem_setInsert b x ys).mp hb with hb | hb
      · rw [hb]; exact h2
      · exact List.rel_of_sorted_cons hl b hb
    · exact hl

theorem mem_copyInto {Data : Type} [LinearOrder Data] (a : Data) (bin result : List Data) :
    a ∈ copyInto bin result ↔ a ∈ bin ∨ a ∈ result := by
  unfold copyInto
  induction bin generalizing result with
  | nil => simp
  | cons y ys ih =>
    simp only [List.foldl_cons, ih, mem_setInsert, List.mem_cons]
    tauto

theorem sorted_copyInto {Data : Type} [LinearOrder Data] (bin result : List Data)
    (h : result.Sorted (· < ·)) : (copyInto bin result).Sorted (· < ·) := by
  unfold copyInto
  induction bin generalizing result with
  | nil => simpa using h
  | cons y ys ih =>
    simp only [List.foldl_cons]
    exact ih _ (sorted_setInsert y result h)

theorem mem_collect {Data : Type} [LinearOrder Data] (a : Data) (bins : List (List Data))
    (result : List Data) :
    a ∈ collect bins result ↔ (∃ bin ∈ bins, a ∈ bin) ∨ a ∈ result := by
  unfold collect
  induction bins generalizing result with
  | nil => simp
  | cons b bs ih =>
    simp only [List.foldl_cons, ih, mem_copyInto, List.mem_cons, exists_eq_or_imp]
    generalize (∃ bin ∈ bs, a ∈ bin) = P
    tauto

theorem sorted_collect {Data : Type} [LinearOrder Data] (bins : List (List Data))
    (result : List Data) (h : result.Sorted (· < ·)) :
    (collect bins result).Sorted (· < ·) := by
  unfold collect
  induction bins generalizing result with
  | nil => simpa using h
  | cons b bs ih =>
    simp only [List.foldl_cons]
    exact ih _ (sorted_copyInto b result h)

theorem nodup_collect {Data : Type} [LinearOrder Data] (bins : List (List Data)) :
    (collect bins []).Nodup :=
  (sorted_collect bins [] List.sorted_nil).nodup

theorem length_updateBin {Data : Type} (f : List Data → List Data) (table : List (List Data))
    (k : Nat) : (updateBin f table k).length = table.length := by
  induction table generalizing k with
  | nil => rfl
  | cons b bs ih =>
    cases k with
    | zero => rfl
    | succ k => simp [updateBin, ih]

theorem getD_updateBin {Data : Type} (f : List Data → List Data) (table : List (List Data))
    (k j : Nat) (hk : k < table.length) :
    (updateBin f table k).getD j [] =
      if j = k then f (table.getD k []) else table.getD j [] := by
  induction table generalizing k j with
  | nil => simp at hk
  | cons b bs ih =>
    cases k with
    | zero =>
      cases j with
      | zero => simp [updateBin]
      | succ j => simp [updateBin]
    | succ k =>
      cases j with
      | zero => simp [updateBin]
      | succ j =>
        simp only [List.length_cons, Nat.add_lt_add_iff_right] at hk
        simp only [updateBin, List.getD_cons_succ, ih k j hk, Nat.add_right_cancel_iff]

theorem unsigned_remainder (i : UnsignedInt) (range : Nat) :
    (i.val % range) % 4294967296 = i.val % range :=
  Nat.mod_eq_of_lt (lt_of_le_of_lt (Nat.mod_le _ _) i.isLt)

/-! ## Hash tables: the loops -/

namespace SimpleHashTable

theorem queryLoop_eq {Data : Type} [LinearOrder Data] (range : Nat)
    (table : List (List Data)) (h0 : 0 < range) (hlen : table.length = range) :
    ∀ (indices : List UnsignedInt) (result : List Data),
      queryLoop range table indices result =
        some (collect (indices.map (fun i => table.getD (i.val % range) [])) result) := by
  intro indices
  induction indices with
  | nil => intro result; rfl
  | cons i rest ih =>
    intro result
    have hlt : i.val % range < table.length := by rw [hlen]; exact Nat.mod_lt _ h0
    simp only [queryLoop, Nat.ne_of_gt h0, if_false, unsigned_remainder, hlt, if_true, ih,
      List.map_cons, collect, List.foldl_cons]

theorem insertLoop_spec {Data : Type} (range : Nat) (value : Data) (h0 : 0 < range) :
    ∀ (indices : List UnsignedInt) (table : List (List Data)), table.length = range →
      ∃ table1, insertLoop range value indices table = some table1 ∧
        table1.length = range ∧
        ∀ (k : Nat) (a : Data), a ∈ table1.getD k [] ↔
          a ∈ table.getD k [] ∨ (a = value ∧ ∃ i ∈ indices, i.val % range = k) := by
  intro indices
  induction indices with
  | nil =>
    intro table hlen
    exact ⟨table, rfl, hlen, by simp⟩
  | cons i rest ih =>
    intro table hlen
    have hlt : i.val % range < table.length := by rw [hlen]; exact Nat.mod_lt _ h0
    obtain ⟨table1, h1, h2, h3⟩ := ih (updateBin (fun bin => bin ++ [value]) table
      (i.val % range)) (by rw [length_updateBin, hlen])
    refine ⟨table1, ?_, h2, ?_⟩
    · simp only [insertLoop, Nat.ne_of_gt h0, if_false, hlt, if_true, h1]
    · intro k a
      rw [h3 k a, getD_updateBin _ _ _ _ hlt]
      by_cases hk : k = i.val % range
      · subst hk
        simp only [if_true, List.mem_append, List.mem_singleton, List.mem_cons,
          exists_eq_or_imp, true_or, and_true]
        tauto
      · have hk2 : ¬ i.val % range = k := fun h => hk h.symm
        simp only [hk, if_false, List.mem_cons, exists_eq_or_imp, hk2, false_or]

theorem removeLoop_spec {Data : Type} [DecidableEq Data] (range : Nat) (value : Data)
    (h0 : 0 < range) :
    ∀ (indices : List UnsignedInt) (table : List (List Data)), table.length = range →
      ∃ table1, removeLoop range value indices table = some table1 ∧
        table1.length = range ∧
        ∀ k : Nat,
          ((∃ i ∈ indices, i.val % range = k) →
            table1.getD k [] = (table.getD k []).filter (fun x => decide (x ≠ value))) ∧
          ((¬ ∃ i ∈ indices, i.val % range = k) → table1.getD k [] = table.getD k []) := by
  intro indices
  induction indices with
  | nil =>
    intro table hlen
    exact ⟨table, rfl, hlen, by simp⟩
  | cons i rest ih =>
    intro table hlen
    have hlt : i.val % range < table.length := by rw [hlen]; exact Nat.mod_lt _ h0
    obtain ⟨table1, h1, h2, h3⟩ := ih
      (updateBin (fun bin => bin.filter (fun x => decide (x ≠ value))) table (i.val % range))
      (by rw [length_updateBin, hlen])
    refine ⟨table1, ?_, h2, ?_⟩
    · simp only [removeLoop, Nat.ne_of_gt h0, if_false, unsigned_remainder, hlt, if_true, h1]
    · intro k
      by_cases hrest : ∃ j ∈ rest, j.val % range = k
      · refine ⟨fun _ => ?_, fun hno => ?_⟩
        · rw [(h3 k).1 hrest, getD_updateBin _ _ _ _ hlt]
          by_cases hk : k = i.val % range
          · subst hk
            simp only [if_true, List.filter_filter, Bool.and_self]
          · simp only [hk, if_false]
        · exact absurd (by
            obtain ⟨j, hj, hjk⟩ := hrest
            exact ⟨j, List.mem_cons_of_mem _ hj, hjk⟩) hno
      · refine ⟨fun hex => ?_, fun hno => ?_⟩
        · rw [(h3 k).2 hrest, getD_updateBin _ _ _ _ hlt]
          obtain ⟨j, hj, hjk⟩ := hex
          rcases List.mem_cons.mp hj with hji | hjr
          · subst hji
            simp only [hjk.symm, if_true]
          · exact absurd ⟨j, hjr, hjk⟩ hrest
        · rw [(h3 k).2 hrest, getD_updateBin _ _ _ _ hlt]
          have hk : ¬ k = i.val % range := fun h =>
            hno ⟨i, List.mem_cons_self _ _, h.symm⟩
          simp only [hk, if_false]

end SimpleHashTable

namespace SparseHashTable

theorem sparse_query_eq {Key Data : Type} [LinearOrder Data] (t : SparseHashTable Key Data)
    (key : Key) :
    t.query key = collect ((t.h_ key).map (fun i => t.bin i.val)) [] := by
  unfold query collect
  generalize ([] : List Data) = result
  induction t.h_ key generalizing result with
  | nil => rfl
  | cons i rest ih =>
    simp only [List.foldl_cons, List.map_cons]
    rw [ih]
    cases h : t.table_ i.val with
    | none => simp [bin, h, copyInto]
    | some b => simp [bin, h]

theorem insert_fold_spec {Data : Type} (value : Data) :
    ∀ (indices : List UnsignedInt) (table : Nat → Option (List Data)) (k : Nat) (a : Data),
      a ∈ ((indices.foldl
          (fun table i => updateEntry (fun bin => bin ++ [value]) table i.val) table) k).getD
            [] ↔
        a ∈ (table k).getD [] ∨ (a = value ∧ ∃ i ∈ indices, i.val = k) := by
  intro indices
  induction indices with
  | nil => intro table k a; simp
  | cons i rest ih =>
    intro table k a
    simp only [List.foldl_cons]
    rw [ih]
    by_cases hk : k = i.val
    · subst hk
      simp only [updateEntry, if_true, Option.getD_some, List.mem_append, List.mem_singleton,
        List.mem_cons, exists_eq_or_imp, true_or, and_true]
      tauto
    · have hk2 : ¬ i.val = k := fun h => hk h.symm
      simp only [updateEntry, hk, if_false, List.mem_cons, exists_eq_or_imp, hk2, false_or]

theorem remove_fold_spec {Data : Type} [DecidableEq Data] (value : Data) :
    ∀ (indices : List UnsignedInt) (table : Nat → Option (List Data)) (k : Nat),
      ((∃ i ∈ indices, i.val = k) →
        ((indices.foldl
          (fun table i =>
            updateEntry (fun bin => bin.filter (fun x => decide (x ≠ value))) table i.val)
          table) k).getD [] =
          ((table k).getD []).filter (fun x => decide (x ≠ value))) ∧
      ((¬ ∃ i ∈ indices, i.val = k) →
        (indices.foldl
          (fun table i =>
            updateEntry (fun bin => bin.filter (fun x => decide (x ≠ value))) table i.val)
          table) k = table k) := by
  intro indices
  induction indices with
  | nil => intro table k; simp
  | cons i rest ih =>
    intro table k
    simp only [List.foldl_cons]
    by_cases hrest : ∃ j ∈ rest, j.val = k
    · refine ⟨fun _ => ?_, fun hno => ?_⟩
      · rw [(ih _ k).1 hrest]
        by_cases hk : k = i.val
        · subst hk
          simp only [updateEntry, if_true, Option.getD_some, List.filter_filter, Bool.and_self]
        · simp only [updateEntry, hk, if_false]
      · exact absurd (by
          obtain ⟨j, hj, hjk⟩ := hrest
          exact ⟨j, List.mem_cons_of_mem _ hj, hjk⟩) hno
    · refine ⟨fun hex => ?_, fun hno => ?_⟩
      · rw [(ih _ k).2 hrest]
        obtain ⟨j, hj, hjk⟩ := hex
        rcases List.mem_cons.mp hj with hji | hjr
        · subst hji
          simp only [updateEntry, hjk.symm, if_true, Option.getD_some]
        · exact absurd ⟨j, hjr, hjk⟩ hrest
      · rw [(ih _ k).2 hrest]
        have hk : ¬ k = i.val := fun h => hno ⟨i, List.mem_cons_self _ _, h.symm⟩
        simp only [updateEntry, hk, if_false]

theorem fold_updateEntry_ne_none {Data : Type} (f : List Data → List Data) :
    ∀ (indices : List UnsignedInt) (table : Nat → Option (List Data)) (k : Nat),
      ((∃ i ∈ indices, i.val = k) ∨ table k ≠ none) →
      (indices.foldl (fun table i => updateEntry f table i.val) table) k ≠ none := by
  intro indices
  induction indices with
  | nil =>
    intro table k h
    rcases h with ⟨i, hi, _⟩ | h
    · simp at hi
    · exact h
  | cons i rest ih =>
    intro table k h
    simp only [List.foldl_cons]
    apply ih
    by_cases hk : k = i.val
    · right
      simp [updateEntry, hk]
    · rcases h with ⟨j, hj, hjk⟩ | h
      · rcases List.mem_cons.mp hj with hji | hjr
        · exact absurd (hji ▸ hjk.symm) hk
        · exact Or.inl ⟨j, hjr, hjk⟩
      · right
        simp only [updateEntry, hk, if_false]
        exact h

end SparseHashTable

/-! ## Hash tables: insert, remove, query, clear, init -/

namespace SimpleHashTable

/-- On an initialised dense table `query` returns the set collected from the addressed
bins. -/
theorem dense_query_eq {Key Data : Type} [LinearOrder Data] (t : SimpleHashTable Key Data) (n : Nat)
    (hinit : t.Initialised n) (key : Key) :
    t.query key = some (collect ((t.h_ key).map (fun i => t.bin (i.val % n))) []) := by
  obtain ⟨h0, hlen, _⟩ := hinit
  unfold query
  simp only []
  rw [hlen, queryLoop_eq n t.table_ h0 hlen]
  rfl

end SimpleHashTable

/-- C14. Insert then query: for a dense table initialised with a non-zero size and for a
sparse table, in any state, for every key whose hash function yields at least one index and
every item, after `insert(key, item)` the list returned by `query(key)` contains `item`
exactly once, whether or not indices repeat or collide and whatever the bins held. -/
theorem insert_then_query {Key Data : Type} [LinearOrder Data] (key : Key) (item : Data)
    (dense : SimpleHashTable Key Data) (n : Nat) (sparse : SparseHashTable Key Data)
    (hinit : dense.Initialised n)
    (hdense : dense.h_ key ≠ []) (hsparse : sparse.h_ key ≠ []) :
    (∃ dense1, dense.insert key item = some dense1 ∧
      ∃ l, dense1.query key = some l ∧ l.count item = 1) ∧
    ((sparse.insert key item).query key).count item = 1 := by
  constructor
  · obtain ⟨h0, hlen, hsize⟩ := hinit
    obtain ⟨table1, h1, h2, h3⟩ :=
      SimpleHashTable.insertLoop_spec n item h0 (dense.h_ key) dense.table_ hlen
    refine ⟨{ dense with table_ := table1 }, ?_, ?_⟩
    · simp only [SimpleHashTable.insert, hlen, h1, Option.map_some']
    · have hinit1 : SimpleHashTable.Initialised { dense with table_ := table1 } n :=
        ⟨h0, h2, hsize⟩
      refine ⟨_, SimpleHashTable.dense_query_eq _ n hinit1 key, ?_⟩
      apply List.count_eq_one_of_mem (nodup_collect _)
      rw [mem_collect]
      left
      obtain ⟨i, rest, hi⟩ := List.exists_cons_of_ne_nil hdense
      refine ⟨_, List.mem_map.mpr ⟨i, by simp only [hi]; exact List.mem_cons_self _ _, rfl⟩, ?_⟩
      simp only [SimpleHashTable.bin]
      rw [h3]
      exact Or.inr ⟨rfl, i, by rw [hi]; exact List.mem_cons_self _ _, rfl⟩
  · rw [SparseHashTable.sparse_query_eq]
    apply List.count_eq_one_of_mem (nodup_collect _)
    rw [mem_collect]
    left
    obtain ⟨i, rest, hi⟩ := List.exists_cons_of_ne_nil hsparse
    have hi1 : i ∈ sparse.h_ key := by rw [hi]; exact List.mem_cons_self _ _
    refine ⟨_, List.mem_map.mpr ⟨i, hi1, rfl⟩, ?_⟩
    simp only [SparseHashTable.bin, SparseHashTable.insert]
    rw [SparseHashTable.insert_fold_spec]
    exact Or.inr ⟨rfl, i, hi1, rfl⟩

/-- Witness for C14: key `1` addresses bin 1 three times in the dense table of size 3 (the
index 4 collides with 1) and the item `5` is already stored there. -/
theorem insert_then_query_witness :
    (∃ dense1, sampleDense.insert 1 5 = some dense1 ∧
      ∃ l, dense1.query 1 = some l ∧ l.count 5 = 1) ∧
    ((sampleSparse.insert 1 5).query 1).count 5 = 1 :=
  insert_then_query 1 5 sampleDense 3 sampleSparse ⟨by decide, rfl, rfl⟩
    (by decide) (by decide)

/-- C15. Remove then query: for a dense table initialised with a non-zero size and for a
sparse table, in any state, for every key and every item, after `remove(key, item)` the list
returned by `query(key)` does not contain `item`. -/
theorem remove_then_query {Key Data : Type} [LinearOrder Data] (key : Key) (item : Data)
    (dense : SimpleHashTable Key Data) (n : Nat) (sparse : SparseHashTable Key Data)
    (hinit : dense.Initialised n) :
    (∃ dense1, dense.remove key item = some dense1 ∧
      ∃ l, dense1.query key = some l ∧ item ∉ l) ∧
    item ∉ (sparse.remove key item).query key := by
  constructor
  · obtain ⟨h0, hlen, hsize⟩ := hinit
    obtain ⟨table1, h1, h2, h3⟩ :=
      SimpleHashTable.removeLoop_spec n item h0 (dense.h_ key) dense.table_ hlen
    refine ⟨{ dense with table_ := table1 }, ?_, ?_⟩
    · simp only [SimpleHashTable.remove, hlen, h1, Option.map_some']
    · have hinit1 : SimpleHashTable.Initialised { dense with table_ := table1 } n :=
        ⟨h0, h2, hsize⟩
      refine ⟨_, SimpleHashTable.dense_query_eq _ n hinit1 key, ?_⟩
      rw [mem_collect]
      rintro (⟨b, hb, hmem⟩ | hmem)
      · obtain ⟨i, hi, rfl⟩ := List.mem_map.mp hb
        simp only [SimpleHashTable.bin] at hmem
        rw [(h3 (i.val % n)).1 ⟨i, hi, rfl⟩] at hmem
        simp at hmem
      · simp at hmem
  · rw [SparseHashTable.sparse_query_eq, mem_collect]
    rintro (⟨b, hb, hmem⟩ | hmem)
    · obtain ⟨i, hi, rfl⟩ := List.mem_map.mp hb
      simp only [SparseHashTable.bin, SparseHashTable.remove] at hmem hi
      rw [(SparseHashTable.remove_fold_spec item (sparse.h_ key) sparse.table_ i.val).1
        ⟨i, hi, rfl⟩] at hmem
      simp at hmem
    · simp at hmem

/-- Witness for C15: the item `5` is stored in both bins the sample tables hold. -/
theorem remove_then_query_witness :
    (∃ dense1, sampleDense.remove 1 5 = some dense1 ∧
      ∃ l, dense1.query 1 = some l ∧ 5 ∉ l) ∧
    5 ∉ (sampleSparse.remove 1 5).query 1 :=
  remove_then_query 1 5 sampleDense 3 sampleSparse ⟨by decide, rfl, rfl⟩

/-- C16. Query is the deduplicated union: for a dense table initialised with a non-zero size
and for a sparse table, in any state, and every key, an item occurs in `query(key)` if and
only if it is stored in a bin addressed by one of the key's hash indices (index modulo the
table size for the dense table; the raw index for the sparse table, an index without entry
contributing nothing), and no item occurs in the returned list more than once. -/
theorem query_is_deduplicated_union {Key Data : Type} [LinearOrder Data] (key : Key)
    (dense : SimpleHashTable Key Data) (n : Nat) (sparse : SparseHashTable Key Data)
    (hinit : dense.Initialised n) :
    (∃ l, dense.query key = some l ∧
      (∀ x, x ∈ l ↔ ∃ i ∈ dense.h_ key, x ∈ dense.table_.getD (i.val % n) []) ∧
      l.Nodup ∧ ∀ x, l.count x ≤ 1) ∧
    ((∀ x, x ∈ sparse.query key ↔
        ∃ i ∈ sparse.h_ key, ∃ b, sparse.table_ i.val = some b ∧ x ∈ b) ∧
      (sparse.query key).Nodup ∧ ∀ x, (sparse.query key).count x ≤ 1) := by
  constructor
  · refine ⟨_, SimpleHashTable.dense_query_eq dense n hinit key, ?_, nodup_collect _,
      fun x => List.nodup_iff_count_le_one.mp (nodup_collect _) x⟩
    intro x
    rw [mem_collect]
    constructor
    · rintro (⟨b, hb, hmem⟩ | hmem)
      · obtain ⟨i, hi, rfl⟩ := List.mem_map.mp hb
        exact ⟨i, hi, hmem⟩
      · simp at hmem
    · rintro ⟨i, hi, hmem⟩
      exact Or.inl ⟨_, List.mem_map.mpr ⟨i, hi, rfl⟩, hmem⟩
  · rw [SparseHashTable.sparse_query_eq]
    refine ⟨?_, nodup_collect _, fun x => List.nodup_iff_count_le_one.mp (nodup_collect _) x⟩
    intro x
    rw [mem_collect]
    constructor
    · rintro (⟨b, hb, hmem⟩ | hmem)
      · obtain ⟨i, hi, rfl⟩ := List.mem_map.mp hb
        simp only [SparseHashTable.bin] at hmem
        cases hcell : sparse.table_ i.val with
        | none => rw [hcell] at hmem; simp at hmem
        | some b => rw [hcell] at hmem; exact ⟨i, hi, b, hcell, by simpa using hmem⟩
      · simp at hmem
    · rintro ⟨i, hi, b, hb, hmem⟩
      refine Or.inl ⟨_, List.mem_map.mpr ⟨i, hi, rfl⟩, ?_⟩
      simp only [SparseHashTable.bin, hb, Option.getD_some]
      exact hmem

/-- Witness for C16: key `1` on the sample tables. -/
theorem query_is_deduplicated_union_witness :
    (∃ l, sampleDense.query 1 = some l ∧
      (∀ x, x ∈ l ↔ ∃ i ∈ sampleDense.h_ 1, x ∈ sampleDense.table_.getD (i.val % 3) []) ∧
      l.Nodup ∧ ∀ x, l.count x ≤ 1) ∧
    ((∀ x, x ∈ sampleSparse.query 1 ↔
        ∃ i ∈ sampleSparse.h_ 1, ∃ b, sampleSparse.table_ i.val = some b ∧ x ∈ b) ∧
      (sampleSparse.query 1).Nodup ∧ ∀ x, (sampleSparse.query 1).count x ≤ 1) :=
  query_is_deduplicated_union 1 sampleDense 3 sampleSparse ⟨by decide, rfl, rfl⟩

/-- A table of empty bins has no content under any index. -/
theorem getD_vectorResize_nil {Data : Type} (size k : Nat) :
    (vectorResize ([] : List (List Data)) size).getD k [] = [] := by
  simp only [vectorResize, List.take_nil, List.nil_append, List.length_nil, Nat.sub_zero]
  rw [List.getD_eq_getElem?_getD, List.getElem?_replicate]
  split_ifs <;> rfl

theorem length_vectorResize {Data : Type} (table : List (List Data)) (size : Nat) :
    (vectorResize table size).length = size := by
  simp only [vectorResize, List.length_append, List.length_take, List.length_replicate]
  omega

/-- The set collected from bins that are all empty is empty. -/
theorem collect_empty_bins {Data : Type} [LinearOrder Data] (bins : List (List Data))
    (h : ∀ b ∈ bins, b = []) : collect bins [] = [] := by
  apply List.eq_nil_iff_forall_not_mem.mpr
  intro x hx
  rw [mem_collect] at hx
  rcases hx with ⟨b, hb, hmem⟩ | hmem
  · rw [h b hb] at hmem; simp at hmem
  · simp at hmem

/-- C17. Clear: after `clear()` the call `query(key)` returns the empty list for every key,
for a sparse table in any state and for a dense table initialised with size `n > 0`; the
dense table after `clear()` still has exactly `n` bins and configured size `n`, so `insert`
and `query` keep working without a new `init`. -/
theorem clear_empties {Key Data : Type} [LinearOrder Data]
    (dense : SimpleHashTable Key Data) (n : Nat) (sparse : SparseHashTable Key Data)
    (hinit : dense.Initialised n) :
    (∃ dense1, dense.clear = some dense1 ∧
      dense1.table_.length = n ∧ dense1.Initialised n ∧
      (∀ key, dense1.query key = some []) ∧
      (∀ key item, ∃ dense2, dense1.insert key item = some dense2 ∧
        ∃ l, dense2.query key = some l)) ∧
    (∀ key, sparse.clear.query key = []) := by
  constructor
  · obtain ⟨h0, hlen, hsize⟩ := hinit
    have hinit1 : SimpleHashTable.Initialised
        { dense with table_ := vectorResize ([] : List (List Data)) n } n :=
      ⟨h0, length_vectorResize _ _, hsize⟩
    refine ⟨{ dense with table_ := vectorResize [] n }, ?_, length_vectorResize _ _, hinit1,
      ?_, ?_⟩
    · simp only [SimpleHashTable.clear, hsize]
    · intro key
      rw [SimpleHashTable.dense_query_eq _ n hinit1 key, collect_empty_bins]
      intro b hb
      obtain ⟨i, _, rfl⟩ := List.mem_map.mp hb
      exact getD_vectorResize_nil n _
    · intro key item
      obtain ⟨table1, h1, h2, _⟩ := SimpleHashTable.insertLoop_spec n item h0 (dense.h_ key)
        (vectorResize ([] : List (List Data)) n) (length_vectorResize _ _)
      refine ⟨{ dense with table_ := table1 }, ?_, ?_⟩
      · simp only [SimpleHashTable.insert, length_vectorResize, h1, Option.map_some']
      · exact ⟨_, SimpleHashTable.dense_query_eq { dense with table_ := table1 } n
          ⟨h0, h2, hsize⟩ key⟩
  · intro key
    rw [SparseHashTable.sparse_query_eq, collect_empty_bins]
    intro b hb
    obtain ⟨i, _, rfl⟩ := List.mem_map.mp hb
    rfl

/-- Witness for C17: the sample tables. -/
theorem clear_empties_witness :
    (∃ dense1, sampleDense.clear = some dense1 ∧
      dense1.table_.length = 3 ∧ dense1.Initialised 3 ∧
      (∀ key, dense1.query key = some []) ∧
      (∀ key item, ∃ dense2, dense1.insert key item = some dense2 ∧
        ∃ l, dense2.query key = some l)) ∧
    (∀ key, sampleSparse.clear.query key = []) :=
  clear_empties sampleDense 3 sampleSparse ⟨by decide, rfl, rfl⟩

/-- C18. Dense initialisation: `SimpleHashTable::init(size)` throws a logic error if and only
if `size = 0`, and then leaves the table unchanged; for every `size > 0` it completes and the
table has exactly `size` bins and configured size `size`. -/
theorem dense_init {Key Data : Type} (t : SimpleHashTable Key Data) (size : Nat) :
    ((t.init size).thrown = some Exception.logic_error ↔ size = 0) ∧
    (size = 0 → (t.init size).object = t) ∧
    (0 < size →
      (t.init size).thrown = none ∧
      (t.init size).object.table_.length = size ∧
      (t.init size).object.table_size_ = some size ∧
      (t.init size).object.Initialised size) := by
  refine ⟨?_, ?_, ?_⟩
  · by_cases h : size = 0 <;> simp [SimpleHashTable.init, h]
  · intro h
    simp [SimpleHashTable.init, h]
  · intro h
    have hne : size ≠ 0 := Nat.pos_iff_ne_zero.mp h
    simp only [SimpleHashTable.init, hne, if_false, length_vectorResize,
      SimpleHashTable.Initialised, and_self, h]

/-- Witness for C18: `init(4)` on the table the constructor leaves, and on the sample
table. -/
theorem dense_init_witness :
    ((SimpleHashTable.new sampleHash : SimpleHashTable Nat Nat).init 4).thrown = none ∧
    ((SimpleHashTable.new sampleHash : SimpleHashTable Nat Nat).init 4).object.table_.length
      = 4 ∧
    ((SimpleHashTable.new sampleHash : SimpleHashTable Nat Nat).init 4).object.table_size_
      = some 4 ∧
    ((SimpleHashTable.new sampleHash : SimpleHashTable Nat Nat).init 4).object.Initialised 4 :=
  (dense_init (SimpleHashTable.new sampleHash : SimpleHashTable Nat Nat) 4).2.2 (by decide)

/-- C19. Sparse initialisation: `SparseHashTable::init(size)` has no failing path, gives the
same table for every size, 0 included, and leaves the map without any entry, so that every
query afterwards returns the empty list; a table on which `init` was never called answers
queries and takes inserts as well. -/
theorem sparse_init {Key Data : Type} [LinearOrder Data] (t : SparseHashTable Key Data)
    (h : Key → List UnsignedInt) (size1 size2 : Nat) (key : Key) (item : Data) :
    t.init size1 = t.init size2 ∧
    (∀ k, (t.init size1).table_ k = none) ∧
    (t.init 0).query key = [] ∧
    (t.init size1).query key = [] ∧
    (SparseHashTable.new h : SparseHashTable Key Data).query key = [] ∧
    (h key ≠ [] →
      (((SparseHashTable.new h : SparseHashTable Key Data).insert key item).query
        key).count item = 1) := by
  have hempty : ∀ s : SparseHashTable Key Data, (∀ k, s.table_ k = none) →
      s.query key = [] := by
    intro s hs
    rw [SparseHashTable.sparse_query_eq, collect_empty_bins]
    intro b hb
    obtain ⟨i, _, rfl⟩ := List.mem_map.mp hb
    simp [SparseHashTable.bin, hs]
  refine ⟨rfl, fun _ => rfl, hempty _ (fun _ => rfl), hempty _ (fun _ => rfl),
    hempty _ (fun _ => rfl), ?_⟩
  intro hne
  rw [SparseHashTable.sparse_query_eq]
  apply List.count_eq_one_of_mem (nodup_collect _)
  rw [mem_collect]
  left
  obtain ⟨i, rest, hi⟩ := List.exists_cons_of_ne_nil hne
  have hi1 : i ∈ h key := by rw [hi]; exact List.mem_cons_self _ _
  refine ⟨_, List.mem_map.mpr ⟨i, hi1, rfl⟩, ?_⟩
  simp only [SparseHashTable.bin, SparseHashTable.insert, SparseHashTable.new]
  rw [SparseHashTable.insert_fold_spec]
  exact Or.inr ⟨rfl, i, hi1, rfl⟩

/-- Witness for C19: a table that was never initialised takes an insert and answers the
query. -/
theorem sparse_init_witness :
    (((SparseHashTable.new sampleHash : SparseHashTable Nat Nat).insert 2 9).query
      2).count 9 = 1 :=
  (sparse_init sampleSparse sampleHash 0 7 2 9).2.2.2.2.2 (by decide)

/-- C20. Removing an absent item is a no-op: for a dense table initialised with a non-zero
size and for a sparse table, in any state, when the item is stored in none of the bins
addressed by the key, `remove(key, item)` leaves the result of `query(k)` unchanged for every
key `k`; for the sparse table this holds although `remove` gives an empty bin to every
addressed index that had no entry. -/
theorem remove_absent_is_noop {Key Data : Type} [LinearOrder Data] (key : Key) (item : Data)
    (dense : SimpleHashTable Key Data) (n : Nat) (sparse : SparseHashTable Key Data)
    (hinit : dense.Initialised n)
    (hdense : ∀ i ∈ dense.h_ key, item ∉ dense.table_.getD (i.val % n) [])
    (hsparse : ∀ i ∈ sparse.h_ key, ∀ b, sparse.table_ i.val = some b → item ∉ b) :
    (∃ dense1, dense.remove key item = some dense1 ∧
      dense1.table_.length = n ∧
      (∀ k, dense1.table_.getD k [] = dense.table_.getD k []) ∧
      ∀ k, dense1.query k = dense.query k) ∧
    ((∀ k, (sparse.remove key item).query k = sparse.query k) ∧
      ∀ i ∈ sparse.h_ key, (sparse.remove key item).table_ i.val ≠ none) := by
  constructor
  · obtain ⟨h0, hlen, hsize⟩ := hinit
    obtain ⟨table1, h1, h2, h3⟩ :=
      SimpleHashTable.removeLoop_spec n item h0 (dense.h_ key) dense.table_ hlen
    have hbins : ∀ k, table1.getD k [] = dense.table_.getD k [] := by
      intro k
      by_cases hk : ∃ i ∈ dense.h_ key, i.val % n = k
      · rw [(h3 k).1 hk]
        obtain ⟨i, hi, rfl⟩ := hk
        apply List.filter_eq_self.mpr
        intro a ha
        have hne : a ≠ item := fun h => hdense i hi (h ▸ ha)
        simpa using hne
      · exact (h3 k).2 hk
    refine ⟨{ dense with table_ := table1 }, ?_, h2, hbins, ?_⟩
    · simp only [SimpleHashTable.remove, hlen, h1, Option.map_some']
    · intro k
      rw [SimpleHashTable.dense_query_eq { dense with table_ := table1 } n ⟨h0, h2, hsize⟩ k,
        SimpleHashTable.dense_query_eq dense n ⟨h0, hlen, hsize⟩ k]
      simp only [SimpleHashTable.bin, hbins]
  · have hbins : ∀ k, (sparse.remove key item).bin k = sparse.bin k := by
      intro k
      simp only [SparseHashTable.bin, SparseHashTable.remove]
      by_cases hk : ∃ i ∈ sparse.h_ key, i.val = k
      · rw [(SparseHashTable.remove_fold_spec item (sparse.h_ key) sparse.table_ k).1 hk]
        obtain ⟨i, hi, rfl⟩ := hk
        apply List.filter_eq_self.mpr
        intro a ha
        have hne : a ≠ item := by
          intro h
          subst h
          cases hcell : sparse.table_ i.val with
          | none => rw [hcell] at ha; simp at ha
          | some b => rw [hcell] at ha; exact hsparse i hi b hcell (by simpa using ha)
        simpa using hne
      · rw [(SparseHashTable.remove_fold_spec item (sparse.h_ key) sparse.table_ k).2 hk]
    constructor
    · intro k
      rw [SparseHashTable.sparse_query_eq, SparseHashTable.sparse_query_eq]
      simp only [hbins]
      rfl
    · intro i hi
      exact SparseHashTable.fold_updateEntry_ne_none _ (sparse.h_ key) sparse.table_ i.val
        (Or.inl ⟨i, hi, rfl⟩)

/-- Witness for C20: key `2` addresses the bins 2 and 5 (bin 2 in the dense table), which do
not hold the item `5`; in the sparse table both indices had no entry. -/
theorem remove_absent_is_noop_witness :
    (∃ dense1, sampleDense.remove 2 5 = some dense1 ∧
      dense1.table_.length = 3 ∧
      (∀ k, dense1.table_.getD k [] = sampleDense.table_.getD k []) ∧
      ∀ k, dense1.query k = sampleDense.query k) ∧
    ((∀ k, (sampleSparse.remove 2 5).query k = sampleSparse.query k) ∧
      ∀ i ∈ sampleSparse.h_ 2, (sampleSparse.remove 2 5).table_ i.val ≠ none) :=
  remove_absent_is_noop 2 5 sampleDense 3 sampleSparse ⟨by decide, rfl, rfl⟩
    (by
      intro i hi
      simp only [sampleDense, sampleHash, List.mem_cons, List.mem_singleton,
        List.not_mem_nil, or_false] at hi
      rcases hi with h | h | h <;> subst h <;> decide) (by
      intro i hi b hb
      simp only [sampleSparse, sampleHash, List.mem_cons, List.mem_singleton,
        List.not_mem_nil, or_false] at hi
      rcases hi with h | h | h <;> subst h <;> simp [sampleSparse] at hb)

/-! ## Cache key order -/

theorem NODE_TYPE.code_injective : ∀ a b : NODE_TYPE, a.code = b.code → a = b := by
  decide

/-- The comparison function written out: `a < b` holds when the first component in which the
keys differ, in the order bvType, scale[0], scale[1], scale[2], filename, is smaller in
`a`. -/
theorem CachedMeshLoader.Key.lt_iff (a b : CachedMeshLoader.Key) :
    CachedMeshLoader.Key.lt a b = true ↔
      a.bvType.code < b.bvType.code ∨ (a.bvType.code = b.bvType.code ∧
        (a.scale.x < b.scale.x ∨ (a.scale.x = b.scale.x ∧
          (a.scale.y < b.scale.y ∨ (a.scale.y = b.scale.y ∧
            (a.scale.z < b.scale.z ∨ (a.scale.z = b.scale.z ∧
              a.filename < b.filename))))))) := by
  simp only [CachedMeshLoader.Key.lt, CachedMeshLoader.Key.ltLoop, Vec3f.coeff, gt_iff_lt]
  rcases lt_trichotomy a.bvType.code b.bvType.code with h0 | h0 | h0
  · simp [h0]
  · rcases lt_trichotomy a.scale.x b.scale.x with h1 | h1 | h1
    · simp [h0, h1]
    · rcases lt_trichotomy a.scale.y b.scale.y with h2 | h2 | h2
      · simp [h0, h1, h2]
      · rcases lt_trichotomy a.scale.z b.scale.z with h3 | h3 | h3
        · simp [h0, h1, h2, h3]
        · simp [h0, h1, h2, h3]
        · simp [h0, h1, h2, h3, not_lt_of_gt h3, ne_of_gt h3]
      · simp [h0, h1, h2, not_lt_of_gt h2, ne_of_gt h2]
    · simp [h0, h1, not_lt_of_gt h1, ne_of_gt h1]
  · simp [h0, not_lt_of_gt h0, ne_of_gt h0]

/-- The comparison function is the lexicographic order of the tuples. -/
theorem CachedMeshLoader.Key.lt_iff_tuple (a b : CachedMeshLoader.Key) :
    CachedMeshLoader.Key.lt a b = true ↔ a.tuple < b.tuple := by
  rw [CachedMeshLoader.Key.lt_iff]
  simp only [CachedMeshLoader.Key.tuple, Prod.Lex.lt_iff]

theorem CachedMeshLoader.Key.tuple_injective (a b : CachedMeshLoader.Key)
    (h : a.tuple = b.tuple) : a = b := by
  simp only [CachedMeshLoader.Key.tuple, EmbeddingLike.apply_eq_iff_eq, Prod.mk.injEq] at h
  obtain ⟨h0, h1, h2, h3, h4⟩ := h
  cases a with
  | mk fa sa ba =>
    cases b with
    | mk fb sb bb =>
      cases sa
      cases sb
      simp only at h0 h1 h2 h3 h4
      have hb := NODE_TYPE.code_injective _ _ h0
      subst hb h1 h2 h3 h4
      rfl

/-- Two keys are unordered exactly when they are the same key. -/
theorem CachedMeshLoader.Key.unordered_iff_eq (a b : CachedMeshLoader.Key) :
    (CachedMeshLoader.Key.lt a b = false ∧ CachedMeshLoader.Key.lt b a = false) ↔ a = b := by
  constructor
  · rintro ⟨h1, h2⟩
    apply CachedMeshLoader.Key.tuple_injective
    have h1a : ¬ a.tuple < b.tuple := by
      rw [← CachedMeshLoader.Key.lt_iff_tuple, h1]; simp
    have h2a : ¬ b.tuple < a.tuple := by
      rw [← CachedMeshLoader.Key.lt_iff_tuple, h2]; simp
    exact le_antisymm (not_lt.mp h2a) (not_lt.mp h1a)
  · rintro rfl
    have h : ¬ a.tuple < a.tuple := lt_irrefl _
    rw [← CachedMeshLoader.Key.lt_iff_tuple] at h
    simp only [Bool.not_eq_true] at h
    exact ⟨h, h⟩

/-! ## The cache as a map -/

theorem Cache_t.find_cons (key : CachedMeshLoader.Key)
    (entry : CachedMeshLoader.Key × CollisionGeometry) (rest : Cache_t) :
    Cache_t.find key (entry :: rest) =
      if entry.1 = key then some entry.2 else Cache_t.find key rest := by
  simp only [Cache_t.find]
  by_cases h : entry.1 = key
  · subst h
    have hu := (CachedMeshLoader.Key.unordered_iff_eq entry.1 entry.1).mpr rfl
    simp [hu.1]
  · have hu : ¬ (CachedMeshLoader.Key.lt key entry.1 = false ∧
        CachedMeshLoader.Key.lt entry.1 key = false) := fun hu =>
      h ((CachedMeshLoader.Key.unordered_iff_eq key entry.1).mp hu).symm
    have hor : (CachedMeshLoader.Key.lt key entry.1 ||
        CachedMeshLoader.Key.lt entry.1 key) = true := by
      cases h1 : CachedMeshLoader.Key.lt key entry.1
      · cases h2 : CachedMeshLoader.Key.lt entry.1 key
        · exact absurd ⟨h1, h2⟩ hu
        · rfl
      · rfl
    simp [h, hor]

theorem Cache_t.find_eq_none_iff (key : CachedMeshLoader.Key) (cache : Cache_t) :
    Cache_t.find key cache = none ↔ ∀ e ∈ cache, e.1 ≠ key := by
  induction cache with
  | nil => simp [Cache_t.find]
  | cons entry rest ih =>
    rw [Cache_t.find_cons]
    by_cases h : entry.1 = key
    · simp [h]
    · simp [h, ih]

theorem Cache_t.mem_of_find (key : CachedMeshLoader.Key) (g : CollisionGeometry)
    (cache : Cache_t) (h : Cache_t.find key cache = some g) : (key, g) ∈ cache := by
  induction cache with
  | nil => simp [Cache_t.find] at h
  | cons entry rest ih =>
    rw [Cache_t.find_cons] at h
    by_cases hk : entry.1 = key
    · simp only [hk, if_true, Option.some.injEq] at h
      have : entry = (key, g) := Prod.ext hk h
      rw [this]; exact List.mem_cons_self _ _
    · simp only [hk, if_false] at h
      exact List.mem_cons_of_mem _ (ih h)

/-- Inserting a pair whose key has no entry adds exactly that pair. -/
theorem Cache_t.insert_perm (pair : CachedMeshLoader.Key × CollisionGeometry)
    (cache : Cache_t) (h : Cache_t.find pair.1 cache = none) :
    (Cache_t.insert pair cache).Perm (pair :: cache) := by
  induction cache with
  | nil => simp [Cache_t.insert]
  | cons entry rest ih =>
    rw [Cache_t.find_cons] at h
    by_cases hk : entry.1 = pair.1
    · simp [hk] at h
    · simp only [hk, if_false] at h
      simp only [Cache_t.insert]
      split_ifs with h1 h2
      · exact List.Perm.refl _
      · exact ((ih h).cons entry).trans (List.Perm.swap pair entry rest)
      · have hu := (CachedMeshLoader.Key.unordered_iff_eq pair.1 entry.1).mp
          ⟨by simpa using h1, by simpa using h2⟩
        exact absurd hu.symm hk

/-- For a bounding-volume code the base loader runs `_load` of the matching class. -/
theorem MeshLoader.load_bv (res : ResourceLoader) (filename : String) (scale : Vec3f)
    (b : BVType) (w : LoaderWorld) :
    MeshLoader.load res filename scale b.nodeType w =
      _load res b filename scale
        { w with calls := w.calls ++ [.base filename scale b.nodeType] } := by
  cases b <;> rfl

/-- For any other code the base loader throws at once. -/
theorem MeshLoader.load_other (res : ResourceLoader) (filename : String) (scale : Vec3f)
    (bvType : NODE_TYPE) (w : LoaderWorld) (h : ¬ ∃ b : BVType, bvType = b.nodeType) :
    MeshLoader.load res filename scale bvType w =
      { outcome := .error .invalid_argument,
        world := { w with calls := w.calls ++ [.base filename scale bvType] } } := by
  cases bvType <;>
    first
    | rfl
    | exact absurd (by decide) h

/-- Every code is a bounding-volume code or not. -/
theorem NODE_TYPE.bv_or_not (bvType : NODE_TYPE) :
    (∃ b : BVType, bvType = b.nodeType) ∨ ¬ ∃ b : BVType, bvType = b.nodeType :=
  Classical.em _

/-- What the base loader does to its surroundings: it records its call and, for a
bounding-volume code, the call of the resource loader; a successful load returns the next
free handle and adds the model built; a failed load adds no model. -/
theorem MeshLoader.load_effect (res : ResourceLoader) (filename : String) (scale : Vec3f)
    (bvType : NODE_TYPE) (w : LoaderWorld) :
    (∃ tail, (MeshLoader.load res filename scale bvType w).world.calls =
      w.calls ++ LoaderCall.base filename scale bvType :: tail) ∧
    (∀ g, (MeshLoader.load res filename scale bvType w).outcome = .ok g →
      g = w.heap.length ∧
      (MeshLoader.load res filename scale bvType w).world.heap.length = w.heap.length + 1) ∧
    (∀ e, (MeshLoader.load res filename scale bvType w).outcome = .error e →
      (MeshLoader.load res filename scale bvType w).world.heap = w.heap) := by
  rcases NODE_TYPE.bv_or_not bvType with ⟨b, rfl⟩ | h
  · rw [MeshLoader.load_bv]
    unfold _load
    cases hres : res filename scale with
    | error e => simp
    | ok data => simp
  · rw [MeshLoader.load_other res filename scale bvType w h]
    simp

/-- A cached load whose key has an entry returns it and changes nothing. -/
theorem CachedMeshLoader.load_hit (res : ResourceLoader) (self : CachedMeshLoader)
    (filename : String) (scale : Vec3f) (bvType : NODE_TYPE) (w : LoaderWorld)
    (g : CollisionGeometry)
    (h : Cache_t.find { filename := filename, scale := scale, bvType := bvType }
      self.cache_ = some g) :
    CachedMeshLoader.load res self filename scale bvType w =
      { outcome := .ok g, loader := self, world := w } := by
  simp only [CachedMeshLoader.load, h]

/-- A cached load whose key has no entry runs the base loader and caches what it returns. -/
theorem CachedMeshLoader.load_miss (res : ResourceLoader) (self : CachedMeshLoader)
    (filename : String) (scale : Vec3f) (bvType : NODE_TYPE) (w : LoaderWorld)
    (h : Cache_t.find { filename := filename, scale := scale, bvType := bvType }
      self.cache_ = none) :
    (CachedMeshLoader.load res self filename scale bvType w).outcome =
      (MeshLoader.load res filename scale bvType w).outcome ∧
    (CachedMeshLoader.load res self filename scale bvType w).world =
      (MeshLoader.load res filename scale bvType w).world ∧
    (∀ e, (MeshLoader.load res filename scale bvType w).outcome = .error e →
      (CachedMeshLoader.load res self filename scale bvType w).loader = self) ∧
    (∀ g, (MeshLoader.load res filename scale bvType w).outcome = .ok g →
      (CachedMeshLoader.load res self filename scale bvType w).loader =
        { cache_ := Cache_t.insert
            ({ filename := filename, scale := scale, bvType := bvType }, g) self.cache_ }) := by
  simp only [CachedMeshLoader.load, h]
  cases hout : (MeshLoader.load res filename scale bvType w).outcome with
  | error e => simp
  | ok g => simp

/-- C23. Cache key order is the stated lexicographic order: `a < b` holds if and only if the
tuple `(a.bvType, a.scale[0], a.scale[1], a.scale[2], a.filename)` is lexicographically
smaller than the tuple of `b`, that is, if and only if the first component in which the
keys differ is smaller in `a`; registry codes are compared by their integer values and file
names as strings. -/
theorem cache_key_order_is_lexicographic (a b : CachedMeshLoader.Key) :
    (CachedMeshLoader.Key.lt a b = true ↔ a.tuple < b.tuple) ∧
    (CachedMeshLoader.Key.lt a b = true ↔
      a.bvType.code < b.bvType.code ∨ (a.bvType.code = b.bvType.code ∧
        (a.scale.x < b.scale.x ∨ (a.scale.x = b.scale.x ∧
          (a.scale.y < b.scale.y ∨ (a.scale.y = b.scale.y ∧
            (a.scale.z < b.scale.z ∨ (a.scale.z = b.scale.z ∧
              a.filename < b.filename)))))))) :=
  ⟨CachedMeshLoader.Key.lt_iff_tuple a b, CachedMeshLoader.Key.lt_iff a b⟩

/-- C24. Cache key ordering is a strict weak order: `a < a` never holds, `a < b` and `b < a`
never both hold, `a < b` and `b < c` imply `a < c`, and being mutually unordered is
transitive. -/
theorem cache_key_order_strict_weak (a b c : CachedMeshLoader.Key) :
    CachedMeshLoader.Key.lt a a = false ∧
    ¬ (CachedMeshLoader.Key.lt a b = true ∧ CachedMeshLoader.Key.lt b a = true) ∧
    (CachedMeshLoader.Key.lt a b = true → CachedMeshLoader.Key.lt b c = true →
      CachedMeshLoader.Key.lt a c = true) ∧
    ((CachedMeshLoader.Key.lt a b = false ∧ CachedMeshLoader.Key.lt b a = false) →
      (CachedMeshLoader.Key.lt b c = false ∧ CachedMeshLoader.Key.lt c b = false) →
      (CachedMeshLoader.Key.lt a c = false ∧ CachedMeshLoader.Key.lt c a = false)) := by
  refine ⟨?_, ?_, ?_, ?_⟩
  · exact ((CachedMeshLoader.Key.unordered_iff_eq a a).mpr rfl).1
  · rintro ⟨h1, h2⟩
    rw [CachedMeshLoader.Key.lt_iff_tuple] at h1 h2
    exact lt_asymm h1 h2
  · intro h1 h2
    rw [CachedMeshLoader.Key.lt_iff_tuple] at h1 h2 ⊢
    exact lt_trans h1 h2
  · intro h1 h2
    have hab := (CachedMeshLoader.Key.unordered_iff_eq a b).mp h1
    have hbc := (CachedMeshLoader.Key.unordered_iff_eq b c).mp h2
    exact (CachedMeshLoader.Key.unordered_iff_eq a c).mpr (hab.trans hbc)

/-- A cached load changes the cache at most by adding the pair of the requested key and the
handle the base loader returned, and only on a miss. -/
theorem CachedMeshLoader.load_cache (res : ResourceLoader) (self : CachedMeshLoader)
    (filename : String) (scale : Vec3f) (bvType : NODE_TYPE) (w : LoaderWorld) :
    (CachedMeshLoader.load res self filename scale bvType w).loader = self ∨
    (∃ g, Cache_t.find { filename := filename, scale := scale, bvType := bvType }
        self.cache_ = none ∧
      (MeshLoader.load res filename scale bvType w).outcome = .ok g ∧
      (CachedMeshLoader.load res self filename scale bvType w).loader.cache_.Perm
        (({ filename := filename, scale := scale, bvType := bvType }, g) :: self.cache_)) := by
  cases hfind : Cache_t.find { filename := filename, scale := scale, bvType := bvType }
      self.cache_ with
  | some g1 =>
    left
    rw [CachedMeshLoader.load_hit res self filename scale bvType w g1 hfind]
  | none =>
    obtain ⟨_, _, herr, hok⟩ := CachedMeshLoader.load_miss res self filename scale bvType w hfind
    cases hout : (MeshLoader.load res filename scale bvType w).outcome with
    | error e => left; exact herr e hout
    | ok g =>
      right
      refine ⟨g, rfl, rfl, ?_⟩
      rw [hok g hout]
      exact Cache_t.insert_perm
        (({ filename := filename, scale := scale, bvType := bvType } : CachedMeshLoader.Key), g)
        self.cache_ hfind

/-- Along a sequence of cached loads the keys of the cache stay pairwise different and every
new entry belongs to a requested key. -/
theorem CachedMeshLoader.loadAll_keys (res : ResourceLoader) :
    ∀ (keys : List CachedMeshLoader.Key) (self : CachedMeshLoader) (w : LoaderWorld),
      (self.cache_.map Prod.fst).Nodup →
      ((CachedMeshLoader.loadAll res keys self w).1.cache_.map Prod.fst).Nodup ∧
      ∀ e ∈ (CachedMeshLoader.loadAll res keys self w).1.cache_,
        e ∈ self.cache_ ∨ e.1 ∈ keys := by
  intro keys
  induction keys with
  | nil =>
    intro self w h
    exact ⟨h, fun e he => Or.inl he⟩
  | cons k rest ih =>
    intro self w h
    simp only [CachedMeshLoader.loadAll]
    have hstep : ((CachedMeshLoader.load res self k.filename k.scale k.bvType
          w).loader.cache_.map Prod.fst).Nodup ∧
        ∀ e ∈ (CachedMeshLoader.load res self k.filename k.scale k.bvType w).loader.cache_,
          e ∈ self.cache_ ∨ e.1 = k := by
      rcases CachedMeshLoader.load_cache res self k.filename k.scale k.bvType w with
        hsame | ⟨g, hfind, _, hperm⟩
      · rw [hsame]; exact ⟨h, fun e he => Or.inl he⟩
      · constructor
        · rw [(hperm.map Prod.fst).nodup_iff]
          simp only [List.map_cons, List.nodup_cons]
          refine ⟨?_, h⟩
          intro hmem
          obtain ⟨e, he, hek⟩ := List.mem_map.mp hmem
          exact (Cache_t.find_eq_none_iff _ self.cache_).mp hfind e he hek
        · intro e he
          rcases List.mem_cons.mp (hperm.subset he) with h1 | h1
          · right; rw [h1]
          · left; exact h1
    obtain ⟨hn, hsub⟩ := ih
      (CachedMeshLoader.load res self k.filename k.scale k.bvType w).loader
      (CachedMeshLoader.load res self k.filename k.scale k.bvType w).world hstep.1
    refine ⟨hn, ?_⟩
    intro e he
    rcases hsub e he with h1 | h1
    · rcases hstep.2 e h1 with h2 | h2
      · exact Or.inl h2
      · exact Or.inr (h2 ▸ List.mem_cons_self _ _)
    · exact Or.inr (List.mem_cons_of_mem _ h1)

/-- C26. Unrecognised bounding-volume kind: `MeshLoader::load` throws the invalid-argument
error without calling the resource loader (the only call recorded is its own) if and only if
`bvType` is not one of the eight kinds `BV_AABB`, `BV_OBB`, `BV_RSS`, `BV_kIOS`, `BV_OBBRSS`,
`BV_KDOP16`, `BV_KDOP18`, `BV_KDOP24`, that is, for `BV_UNKNOWN` and for every `GEOM_`
code. -/
theorem unrecognised_bv_kind (res : ResourceLoader) (filename : String) (scale : Vec3f)
    (bvType : NODE_TYPE) (w : LoaderWorld) :
    (((MeshLoader.load res filename scale bvType w).outcome = .error .invalid_argument ∧
        (MeshLoader.load res filename scale bvType w).world.calls =
          w.calls ++ [.base filename scale bvType]) ↔
      bvType ∉ [NODE_TYPE.BV_AABB, .BV_OBB, .BV_RSS, .BV_kIOS, .BV_OBBRSS, .BV_KDOP16,
        .BV_KDOP18, .BV_KDOP24]) ∧
    (bvType ∉ [NODE_TYPE.BV_AABB, .BV_OBB, .BV_RSS, .BV_kIOS, .BV_OBBRSS, .BV_KDOP16,
        .BV_KDOP18, .BV_KDOP24] ↔
      bvType ∈ [NODE_TYPE.BV_UNKNOWN, .GEOM_BOX, .GEOM_SPHERE, .GEOM_CAPSULE, .GEOM_CONE,
        .GEOM_CYLINDER, .GEOM_CONVEX, .GEOM_PLANE, .GEOM_HALFSPACE, .GEOM_TRIANGLE,
        .GEOM_OCTREE]) := by
  constructor
  · rcases NODE_TYPE.bv_or_not bvType with ⟨b, rfl⟩ | h
    · have hin : b.nodeType ∈ [NODE_TYPE.BV_AABB, .BV_OBB, .BV_RSS, .BV_kIOS, .BV_OBBRSS,
          .BV_KDOP16, .BV_KDOP18, .BV_KDOP24] := by cases b <;> decide
      rw [MeshLoader.load_bv]
      unfold _load
      cases hres : res filename scale with
      | error e => simp [hin]
      | ok data => simp [hin]
    · have hout : bvType ∉ [NODE_TYPE.BV_AABB, .BV_OBB, .BV_RSS, .BV_kIOS, .BV_OBBRSS,
          .BV_KDOP16, .BV_KDOP18, .BV_KDOP24] := by
        intro hmem
        apply h
        revert hmem
        cases bvType <;> decide
      rw [MeshLoader.load_other res filename scale bvType w h]
      simp [hout]
  · cases bvType <;> decide

/-- C27. The loader builds the requested kind: for each of the eight bounding-volume kinds
and every path and scale for which the resource loader succeeds, `MeshLoader::load` returns
a handle to a new model whose bounding-volume class is the one of `bvType` and which holds
the data read from the resource at that path with that scale. -/
theorem loader_builds_requested_kind (res : ResourceLoader) (filename : String)
    (scale : Vec3f) (b : BVType) (data : MeshData) (w : LoaderWorld)
    (hres : res filename scale = .ok data) :
    (MeshLoader.load res filename scale b.nodeType w).outcome = .ok w.heap.length ∧
    (MeshLoader.load res filename scale b.nodeType w).world.heap =
      w.heap ++ [{ bv := b, data := data }] ∧
    (MeshLoader.load res filename scale b.nodeType w).world.heap[w.heap.length]? =
      some { bv := b, data := data } ∧
    (MeshLoader.load res filename scale b.nodeType w).world.calls =
      w.calls ++ [.base filename scale b.nodeType, .resource filename scale] := by
  rw [MeshLoader.load_bv]
  simp [_load, hres]

/-- Witness for C27: a kIOS model and a `KDOP<18>` model. -/
theorem loader_builds_requested_kind_witness :
    (MeshLoader.load sampleResource "box.obj" ⟨2, 3, 1⟩ .BV_kIOS ⟨[], []⟩).world.heap =
      [] ++ [{ bv := .kIOS,
               data := { vertices := [⟨0, 0, 0⟩, ⟨2, 0, 0⟩, ⟨0, 3, 0⟩],
                         triangles := [(0, 1, 2)] } }] ∧
    (MeshLoader.load sampleResource "box.obj" ⟨2, 3, 1⟩ .BV_KDOP18 ⟨[], []⟩).world.heap =
      [] ++ [{ bv := .KDOP18,
               data := { vertices := [⟨0, 0, 0⟩, ⟨2, 0, 0⟩, ⟨0, 3, 0⟩],
                         triangles := [(0, 1, 2)] } }] :=
  ⟨(loader_builds_requested_kind sampleResource "box.obj" ⟨2, 3, 1⟩ .kIOS _ ⟨[], []⟩ rfl).2.1,
   (loader_builds_requested_kind sampleResource "box.obj" ⟨2, 3, 1⟩ .KDOP18 _ ⟨[], []⟩
     rfl).2.1⟩

/-- C28. A failed load is propagated and not cached: for every cached loader and every
triple without entry, if the base `MeshLoader::load` throws, then `CachedMeshLoader::load`
throws the same exception, returns no handle and leaves the cache unchanged, so a later load
of the same triple calls the base loader again. -/
theorem failed_load_is_not_cached (res : ResourceLoader) (self : CachedMeshLoader)
    (w : LoaderWorld) (filename : String) (scale : Vec3f) (bvType : NODE_TYPE)
    (e : LoadException) (failed : CachedLoadResult)
    (habsent : Cache_t.find { filename := filename, scale := scale, bvType := bvType }
      self.cache_ = none)
    (hbase : (MeshLoader.load res filename scale bvType w).outcome = .error e)
    (hfailed : failed = CachedMeshLoader.load res self filename scale bvType w) :
    failed.outcome = .error e ∧
    (∀ g, failed.outcome ≠ .ok g) ∧
    failed.loader = self ∧
    failed.world = (MeshLoader.load res filename scale bvType w).world ∧
    Cache_t.find { filename := filename, scale := scale, bvType := bvType }
      failed.loader.cache_ = none ∧
    (CachedMeshLoader.load res failed.loader filename scale bvType failed.world).outcome =
      (MeshLoader.load res filename scale bvType failed.world).outcome ∧
    (CachedMeshLoader.load res failed.loader filename scale bvType failed.world).world =
      (MeshLoader.load res filename scale bvType failed.world).world ∧
    (∃ tail,
      (CachedMeshLoader.load res failed.loader filename scale bvType failed.world).world.calls =
        failed.world.calls ++ LoaderCall.base filename scale bvType :: tail) := by
  obtain ⟨hout, hworld, herr, _⟩ := CachedMeshLoader.load_miss res self filename scale bvType w
    habsent
  rw [← hfailed] at hout hworld herr
  have hloader := herr e hbase
  have habsent2 : Cache_t.find { filename := filename, scale := scale, bvType := bvType }
      failed.loader.cache_ = none := by rw [hloader]; exact habsent
  obtain ⟨hout2, hworld2, _, _⟩ := CachedMeshLoader.load_miss res failed.loader filename scale
    bvType failed.world habsent2
  refine ⟨by rw [hout, hbase], ?_, hloader, hworld, habsent2, hout2, hworld2, ?_⟩
  · intro g hg
    rw [hout, hbase] at hg
    exact Except.noConfusion hg
  · rw [hworld2]
    exact (MeshLoader.load_effect res filename scale bvType failed.world).1

/-- Witness for C28: a file that cannot be read, and a code that is no bounding-volume
kind. -/
theorem failed_load_is_not_cached_witness :
    (CachedMeshLoader.load sampleResource ⟨[]⟩ "" ⟨1, 1, 1⟩ .BV_OBB ⟨[], []⟩).outcome =
      .error (.resource_failure 2) ∧
    (CachedMeshLoader.load sampleResource ⟨[]⟩ "box.obj" ⟨1, 1, 1⟩ .GEOM_BOX
      ⟨[], []⟩).outcome = .error .invalid_argument :=
  ⟨(failed_load_is_not_cached sampleResource ⟨[]⟩ ⟨[], []⟩ "" ⟨1, 1, 1⟩ .BV_OBB
      (.resource_failure 2) _ rfl rfl rfl).1,
   (failed_load_is_not_cached sampleResource ⟨[]⟩ ⟨[], []⟩ "box.obj" ⟨1, 1, 1⟩ .GEOM_BOX
      .invalid_argument _ rfl rfl rfl).1⟩

/-! ## Accessors of the binding layer -/

/-- Reading an array at an index within its bounds yields the element at that index. -/
theorem readArray_inside {α : Type} (array : List α) (i : Int) (h0 : 0 ≤ i)
    (h1 : i < array.length) :
    ∃ a, array[i.toNat]? = some a ∧ readArray array i = .value a := by
  have hlt : i.toNat < array.length := by omega
  refine ⟨array[i.toNat], List.getElem?_eq_getElem hlt, ?_⟩
  simp only [readArray, h0, h1, and_self, if_true, List.getElem?_eq_getElem hlt]

/-- Reading an array at a negative index is a read outside the array. -/
theorem readArray_negative {α : Type} (array : List α) (i : Int) (h : i < 0) :
    readArray array i = .read_outside i := by
  have h0 : ¬ (0 ≤ i) := by omega
  simp [readArray, h0]

/-- The loop of `neighbors` copies the stored sequence. -/
theorem ConvexBaseWrapper.neighborsLoop_eq (stored : List Nat) :
    ∀ (fuel j : Nat) (n : List Nat), j + fuel = stored.length →
      ConvexBaseWrapper.neighborsLoop stored fuel j n = n ++ stored.drop j := by
  intro fuel
  induction fuel with
  | zero =>
    intro j n h
    simp only [Nat.add_zero] at h
    simp [ConvexBaseWrapper.neighborsLoop, h]
  | succ fuel ih =>
    intro j n h
    have hj : j < stored.length := by omega
    simp only [ConvexBaseWrapper.neighborsLoop, hj, if_true, List.getElem?_eq_getElem hj]
    rw [ih (j + 1) _ (by omega)]
    rw [List.append_assoc]
    congr 1
    rw [List.singleton_append]
    exact (List.drop_eq_getElem_cons hj).symm

/-- C29. Bounds check of the binding accessors, upper side: for `vertices`, `tri_indices`,
`points`, `neighbors` and `polygons`, every index `i` at or above the corresponding count
raises the out-of-range error and returns nothing, and, the arrays holding at least as many
elements as the counts say, every index with `0 ≤ i < count` returns element `i` of the
array (for `neighbors`, the sequence of that point's neighbour indices in stored order). -/
theorem accessors_upper_bound_check (bvh : BVHModelBase) (convex : Convex Triangle) (i : Int) :
    (bvh.num_vertices ≤ i → BVHModelBaseWrapper.vertices bvh i = .out_of_range) ∧
    (bvh.num_tris ≤ i → BVHModelBaseWrapper.tri_indices bvh i = .out_of_range) ∧
    (convex.base.num_points ≤ i → ConvexBaseWrapper.points convex.base i = .out_of_range) ∧
    (convex.base.num_points ≤ i →
      ConvexBaseWrapper.neighbors convex.base i = .out_of_range) ∧
    (convex.num_polygons ≤ i → ConvexWrapper.polygons convex i = .out_of_range) ∧
    (0 ≤ i → i < bvh.num_vertices → bvh.num_vertices ≤ bvh.vertices.length →
      ∃ v, bvh.vertices[i.toNat]? = some v ∧
        BVHModelBaseWrapper.vertices bvh i = .value v) ∧
    (0 ≤ i → i < bvh.num_tris → bvh.num_tris ≤ bvh.tri_indices.length →
      ∃ t, bvh.tri_indices[i.toNat]? = some t ∧
        BVHModelBaseWrapper.tri_indices bvh i = .value t) ∧
    (0 ≤ i → i < convex.base.num_points →
      convex.base.num_points ≤ convex.base.points.length →
      ∃ p, convex.base.points[i.toNat]? = some p ∧
        ConvexBaseWrapper.points convex.base i = .value p) ∧
    (0 ≤ i → i < convex.base.num_points →
      convex.base.num_points ≤ convex.base.neighbors.length →
      ∃ stored, convex.base.neighbors[i.toNat]? = some stored ∧
        ConvexBaseWrapper.neighbors convex.base i = .value stored) ∧
    (0 ≤ i → i < convex.num_polygons → convex.num_polygons ≤ convex.polygons.length →
      ∃ p, convex.polygons[i.toNat]? = some p ∧
        ConvexWrapper.polygons convex i = .value p) := by
  refine ⟨?_, ?_, ?_, ?_, ?_, ?_, ?_, ?_, ?_, ?_⟩
  · intro h; simp [BVHModelBaseWrapper.vertices, h]
  · intro h; simp [BVHModelBaseWrapper.tri_indices, h]
  · intro h; simp [ConvexBaseWrapper.points, h]
  · intro h; simp [ConvexBaseWrapper.neighbors, h]
  · intro h; simp [ConvexWrapper.polygons, h]
  · intro h0 h1 h2
    obtain ⟨v, hv, hr⟩ := readArray_inside bvh.vertices i h0 (by omega)
    exact ⟨v, hv, by simp [BVHModelBaseWrapper.vertices, not_le.mpr h1, hr]⟩
  · intro h0 h1 h2
    obtain ⟨v, hv, hr⟩ := readArray_inside bvh.tri_indices i h0 (by omega)
    exact ⟨v, hv, by simp [BVHModelBaseWrapper.tri_indices, not_le.mpr h1, hr]⟩
  · intro h0 h1 h2
    obtain ⟨v, hv, hr⟩ := readArray_inside convex.base.points i h0 (by omega)
    exact ⟨v, hv, by simp [ConvexBaseWrapper.points, not_le.mpr h1, hr]⟩
  · intro h0 h1 h2
    obtain ⟨v, hv, hr⟩ := readArray_inside convex.base.neighbors i h0 (by omega)
    refine ⟨v, hv, ?_⟩
    simp only [ConvexBaseWrapper.neighbors, ge_iff_le, not_le.mpr h1, if_false, hr]
    rw [ConvexBaseWrapper.neighborsLoop_eq v v.length 0 [] (by omega)]
    simp
  · intro h0 h1 h2
    obtain ⟨v, hv, hr⟩ := readArray_inside convex.polygons i h0 (by omega)
    exact ⟨v, hv, by simp [ConvexWrapper.polygons, not_le.mpr h1, hr]⟩

/-- Witness for C29: index 3 on the three vertices of the sample mesh, index 1 on the
neighbours of the sample hull. -/
theorem accessors_upper_bound_check_witness :
    BVHModelBaseWrapper.vertices sampleBVH 3 = .out_of_range ∧
    (∃ stored, sampleConvex.base.neighbors[(1 : Int).toNat]? = some stored ∧
      ConvexBaseWrapper.neighbors sampleConvex.base 1 = .value stored) :=
  ⟨(accessors_upper_bound_check sampleBVH sampleConvex 3).1 (by decide),
   (accessors_upper_bound_check sampleBVH sampleConvex 1).2.2.2.2.2.2.2.2.1
     (by decide) (by decide) (by decide)⟩

/-- C30 (failing input). Index `-1` on the sample mesh and the sample hull, whose counts are
3 and 1: every accessor passes its test `i >= count` and reads its array outside the bounds;
none raises the out-of-range error. -/
theorem negative_index_is_not_signalled :
    BVHModelBaseWrapper.vertices sampleBVH (-1) = .read_outside (-1) ∧
    BVHModelBaseWrapper.tri_indices sampleBVH (-1) = .read_outside (-1) ∧
    ConvexBaseWrapper.points sampleConvex.base (-1) = .read_outside (-1) ∧
    ConvexBaseWrapper.neighbors sampleConvex.base (-1) = .read_outside (-1) ∧
    ConvexWrapper.polygons sampleConvex (-1) = .read_outside (-1) ∧
    BVHModelBaseWrapper.vertices sampleBVH (-1) ≠ .out_of_range ∧
    (∀ (bvh : BVHModelBase) (i : Int), i < 0 → 0 ≤ bvh.num_vertices → 0 ≤ bvh.num_tris →
      BVHModelBaseWrapper.vertices bvh i = .read_outside i ∧
      BVHModelBaseWrapper.tri_indices bvh i = .read_outside i) ∧
    (∀ (convex : ConvexBase) (i : Int), i < 0 → 0 ≤ convex.num_points →
      ConvexBaseWrapper.points convex i = .read_outside i ∧
      ConvexBaseWrapper.neighbors convex i = .read_outside i) := by
  refine ⟨?_, ?_, ?_, ?_, ?_, ?_, ?_, ?_⟩
  · simp [BVHModelBaseWrapper.vertices, sampleBVH, readArray_negative]
  · simp [BVHModelBaseWrapper.tri_indices, sampleBVH, readArray_negative]
  · simp [ConvexBaseWrapper.points, sampleConvex, readArray_negative]
  · simp [ConvexBaseWrapper.neighbors, sampleConvex, readArray_negative]
  · simp [ConvexWrapper.polygons, sampleConvex, readArray_negative]
  · simp [BVHModelBaseWrapper.vertices, sampleBVH, readArray_negative]
  · intro bvh i hi h1 h2
    have hv : ¬ (bvh.num_vertices ≤ i) := by omega
    have ht : ¬ (bvh.num_tris ≤ i) := by omega
    simp [BVHModelBaseWrapper.vertices, BVHModelBaseWrapper.tri_indices, hv, ht,
      readArray_negative _ i hi]
  · intro convex i hi h1
    have hp : ¬ (convex.num_points ≤ i) := by omega
    simp [ConvexBaseWrapper.points, ConvexBaseWrapper.neighbors, hp,
      readArray_negative _ i hi]

/-! ## Hash tables: frames, order of the result, runs of calls -/

/-- Two sets collected from bins with the same items are the same list. -/
theorem collect_congr {Data : Type} [LinearOrder Data] (bins1 bins2 : List (List Data))
    (h : ∀ a, (∃ bin ∈ bins1, a ∈ bin) ↔ (∃ bin ∈ bins2, a ∈ bin)) :
    collect bins1 [] = collect bins2 [] := by
  apply List.eq_of_perm_of_sorted ?_ (sorted_collect bins1 [] List.sorted_nil)
    (sorted_collect bins2 [] List.sorted_nil)
  rw [List.perm_ext_iff_of_nodup (nodup_collect bins1) (nodup_collect bins2)]
  intro a
  rw [mem_collect, mem_collect, h a]

namespace SimpleHashTable

/-- Whatever the table, a query that completes returns an ascending list. -/
theorem queryLoop_sorted {Data : Type} [LinearOrder Data] (range : Nat)
    (table : List (List Data)) :
    ∀ (indices : List UnsignedInt) (result l : List Data), result.Sorted (· < ·) →
      queryLoop range table indices result = some l → l.Sorted (· < ·) := by
  intro indices
  induction indices with
  | nil =>
    intro result l hs h
    simp only [queryLoop, Option.some.injEq] at h
    rw [← h]; exact hs
  | cons i rest ih =>
    intro result l hs h
    simp only [queryLoop] at h
    split_ifs at h with h1 h2
    exact ih _ l (sorted_copyInto _ _ hs) h

/-- The loop of `insert` leaves every bin that no index addresses as it was. -/
theorem insertLoop_frame {Data : Type} (range : Nat) (value : Data) :
    ∀ (indices : List UnsignedInt) (table table1 : List (List Data)),
      insertLoop range value indices table = some table1 →
      ∀ k : Nat, (∀ i ∈ indices, i.val % range ≠ k) → table1.getD k [] = table.getD k [] := by
  intro indices
  induction indices with
  | nil =>
    intro table table1 h k _
    simp only [insertLoop, Option.some.injEq] at h
    rw [h]
  | cons i rest ih =>
    intro table table1 h k hk
    simp only [insertLoop] at h
    split_ifs at h with h1 h2
    rw [ih _ table1 h k (fun j hj => hk j (List.mem_cons_of_mem _ hj)),
      getD_updateBin _ _ _ _ h2]
    have hne : ¬ k = i.val % range := fun e => hk i (List.mem_cons_self _ _) e.symm
    simp only [hne, if_false]

end SimpleHashTable

namespace SparseHashTable

/-- Writing through `table_[index]` for a list of indices leaves every other index as it
was. -/
theorem fold_updateEntry_frame {Data : Type} (f : List Data → List Data) :
    ∀ (indices : List UnsignedInt) (table : Nat → Option (List Data)) (k : Nat),
      (∀ i ∈ indices, i.val ≠ k) →
      (indices.foldl (fun table i => updateEntry f table i.val) table) k = table k := by
  intro indices
  induction indices with
  | nil => intro table k _; rfl
  | cons i rest ih =>
    intro table k hk
    simp only [List.foldl_cons]
    rw [ih _ k (fun j hj => hk j (List.mem_cons_of_mem _ hj))]
    have hne : ¬ k = i.val := fun e => hk i (List.mem_cons_self _ _) e.symm
    simp only [updateEntry, hne, if_false]

end SparseHashTable

/-- C37. Query results are sorted: the list returned by `query(key)` is in strictly ascending
order of the items, for a sparse table in any state and for a dense table in any state in
which the call completes, which it does on every initialised table; hence two tables whose
bins hold the same items in a different order, under hash index lists that are rearrangements
of one another, return the same list. -/
theorem query_results_are_sorted {Key Data : Type} [LinearOrder Data]
    (dense : SimpleHashTable Key Data) (sparse : SparseHashTable Key Data) (key : Key) :
    (∀ l, dense.query key = some l → l.Sorted (· < ·)) ∧
    (∀ n, dense.Initialised n → ∃ l, dense.query key = some l ∧ l.Sorted (· < ·)) ∧
    (sparse.query key).Sorted (· < ·) ∧
    (∀ (dense2 : SimpleHashTable Key Data) (n : Nat), dense.Initialised n →
      dense2.Initialised n → (∀ k, (dense2.bin k).Perm (dense.bin k)) →
      (dense2.h_ key).Perm (dense.h_ key) → dense2.query key = dense.query key) ∧
    (∀ sparse2 : SparseHashTable Key Data, (∀ k, (sparse2.bin k).Perm (sparse.bin k)) →
      (sparse2.h_ key).Perm (sparse.h_ key) → sparse2.query key = sparse.query key) := by
  refine ⟨?_, ?_, ?_, ?_, ?_⟩
  · intro l h
    exact SimpleHashTable.queryLoop_sorted _ _ _ [] l List.sorted_nil h
  · intro n hinit
    exact ⟨_, SimpleHashTable.dense_query_eq dense n hinit key,
      sorted_collect _ [] List.sorted_nil⟩
  · rw [SparseHashTable.sparse_query_eq]
    exact sorted_collect _ [] List.sorted_nil
  · intro dense2 n hinit hinit2 hbins hidx
    rw [SimpleHashTable.dense_query_eq dense2 n hinit2 key,
      SimpleHashTable.dense_query_eq dense n hinit key]
    congr 1
    apply collect_congr
    intro a
    constructor
    · rintro ⟨b, hb, ha⟩
      obtain ⟨i, hi, rfl⟩ := List.mem_map.mp hb
      exact ⟨_, List.mem_map.mpr ⟨i, hidx.subset hi, rfl⟩, (hbins _).subset ha⟩
    · rintro ⟨b, hb, ha⟩
      obtain ⟨i, hi, rfl⟩ := List.mem_map.mp hb
      exact ⟨_, List.mem_map.mpr ⟨i, hidx.symm.subset hi, rfl⟩, (hbins _).symm.subset ha⟩
  · intro sparse2 hbins hidx
    rw [SparseHashTable.sparse_query_eq, SparseHashTable.sparse_query_eq]
    apply collect_congr
    intro a
    constructor
    · rintro ⟨b, hb, ha⟩
      obtain ⟨i, hi, rfl⟩ := List.mem_map.mp hb
      exact ⟨_, List.mem_map.mpr ⟨i, hidx.subset hi, rfl⟩, (hbins _).subset ha⟩
    · rintro ⟨b, hb, ha⟩
      obtain ⟨i, hi, rfl⟩ := List.mem_map.mp hb
      exact ⟨_, List.mem_map.mpr ⟨i, hidx.symm.subset hi, rfl⟩, (hbins _).symm.subset ha⟩

/-- C38. Insert and remove touch only the addressed bins: on a dense table initialised with
a non-zero size `n` and on a sparse table, in any state, `insert(key, item)` and
`remove(key, item)` leave every bin unchanged that none of the key's hash indices addresses
(index modulo `n` for the dense table, whose number of bins stays `n`; the raw index for the
sparse table), and for every key `k` whose addressed bins are all different from those of
`key`, `query(k)` returns the same list before and after the call. -/
theorem insert_remove_touch_addressed_bins {Key Data : Type} [LinearOrder Data] (key : Key)
    (item : Data) (dense : SimpleHashTable Key Data) (n : Nat)
    (sparse : SparseHashTable Key Data) (hinit : dense.Initialised n) :
    (∃ dense1, dense.insert key item = some dense1 ∧ dense1.table_.length = n ∧
      (∀ k, (∀ i ∈ dense.h_ key, i.val % n ≠ k) →
        dense1.table_.getD k [] = dense.table_.getD k []) ∧
      (∀ k, (∀ i ∈ dense.h_ key, ∀ j ∈ dense.h_ k, i.val % n ≠ j.val % n) →
        dense1.query k = dense.query k)) ∧
    (∃ dense1, dense.remove key item = some dense1 ∧ dense1.table_.length = n ∧
      (∀ k, (∀ i ∈ dense.h_ key, i.val % n ≠ k) →
        dense1.table_.getD k [] = dense.table_.getD k []) ∧
      (∀ k, (∀ i ∈ dense.h_ key, ∀ j ∈ dense.h_ k, i.val % n ≠ j.val % n) →
        dense1.query k = dense.query k)) ∧
    ((∀ k, (∀ i ∈ sparse.h_ key, i.val ≠ k) →
        (sparse.insert key item).table_ k = sparse.table_ k) ∧
      (∀ k, (∀ i ∈ sparse.h_ key, ∀ j ∈ sparse.h_ k, i.val ≠ j.val) →
        (sparse.insert key item).query k = sparse.query k)) ∧
    ((∀ k, (∀ i ∈ sparse.h_ key, i.val ≠ k) →
        (sparse.remove key item).table_ k = sparse.table_ k) ∧
      (∀ k, (∀ i ∈ sparse.h_ key, ∀ j ∈ sparse.h_ k, i.val ≠ j.val) →
        (sparse.remove key item).query k = sparse.query k)) := by
  obtain ⟨h0, hlen, hsize⟩ := hinit
  have hdense : ∀ table1 : List (List Data), table1.length = n →
      (∀ k, (∀ i ∈ dense.h_ key, i.val % n ≠ k) →
        table1.getD k [] = dense.table_.getD k []) →
      ∀ k, (∀ i ∈ dense.h_ key, ∀ j ∈ dense.h_ k, i.val % n ≠ j.val % n) →
        SimpleHashTable.query { dense with table_ := table1 } k = dense.query k := by
    intro table1 h2 hframe k hk
    rw [SimpleHashTable.dense_query_eq { dense with table_ := table1 } n ⟨h0, h2, hsize⟩ k,
      SimpleHashTable.dense_query_eq dense n ⟨h0, hlen, hsize⟩ k]
    congr 2
    apply List.map_congr_left
    intro j hj
    exact hframe (j.val % n) (fun i hi => hk i hi j hj)
  have hsparse : ∀ table1 : Nat → Option (List Data),
      (∀ k, (∀ i ∈ sparse.h_ key, i.val ≠ k) → table1 k = sparse.table_ k) →
      ∀ k, (∀ i ∈ sparse.h_ key, ∀ j ∈ sparse.h_ k, i.val ≠ j.val) →
        SparseHashTable.query { sparse with table_ := table1 } k = sparse.query k := by
    intro table1 hframe k hk
    rw [SparseHashTable.sparse_query_eq, SparseHashTable.sparse_query_eq]
    congr 1
    apply List.map_congr_left
    intro j hj
    simp only [SparseHashTable.bin]
    rw [hframe j.val (fun i hi => hk i hi j hj)]
  refine ⟨?_, ?_, ?_, ?_⟩
  · obtain ⟨table1, h1, h2, _⟩ :=
      SimpleHashTable.insertLoop_spec n item h0 (dense.h_ key) dense.table_ hlen
    have hframe := SimpleHashTable.insertLoop_frame n item (dense.h_ key) dense.table_ table1 h1
    refine ⟨{ dense with table_ := table1 }, ?_, h2, hframe, hdense table1 h2 hframe⟩
    simp only [SimpleHashTable.insert, hlen, h1, Option.map_some']
  · obtain ⟨table1, h1, h2, h3⟩ :=
      SimpleHashTable.removeLoop_spec n item h0 (dense.h_ key) dense.table_ hlen
    have hframe : ∀ k, (∀ i ∈ dense.h_ key, i.val % n ≠ k) →
        table1.getD k [] = dense.table_.getD k [] := by
      intro k hk
      exact (h3 k).2 (fun ⟨i, hi, hik⟩ => hk i hi hik)
    refine ⟨{ dense with table_ := table1 }, ?_, h2, hframe, hdense table1 h2 hframe⟩
    simp only [SimpleHashTable.remove, hlen, h1, Option.map_some']
  · have hframe : ∀ k, (∀ i ∈ sparse.h_ key, i.val ≠ k) →
        (sparse.insert key item).table_ k = sparse.table_ k := fun k hk =>
      SparseHashTable.fold_updateEntry_frame _ (sparse.h_ key) sparse.table_ k hk
    exact ⟨hframe, hsparse _ hframe⟩
  · have hframe : ∀ k, (∀ i ∈ sparse.h_ key, i.val ≠ k) →
        (sparse.remove key item).table_ k = sparse.table_ k := fun k hk =>
      SparseHashTable.fold_updateEntry_frame _ (sparse.h_ key) sparse.table_ k hk
    exact ⟨hframe, hsparse _ hframe⟩

/-- Witness for C38: key `1` addresses the bins 1 and 4 (bin 1 in the dense table of size
3); the bins 0 and 2 and the queries of key `2` are not affected. -/
theorem insert_remove_touch_addressed_bins_witness :
    (∃ dense1, sampleDense.insert 1 5 = some dense1 ∧ dense1.table_.length = 3 ∧
      (∀ k, (∀ i ∈ sampleDense.h_ 1, i.val % 3 ≠ k) →
        dense1.table_.getD k [] = sampleDense.table_.getD k []) ∧
      (∀ k, (∀ i ∈ sampleDense.h_ 1, ∀ j ∈ sampleDense.h_ k, i.val % 3 ≠ j.val % 3) →
        dense1.query k = sampleDense.query k)) :=
  (insert_remove_touch_addressed_bins 1 5 sampleDense 3 sampleSparse
    ⟨by decide, rfl, rfl⟩).1

namespace SimpleHashTable

/-- On an initialised dense table every member call completes and leaves the table
initialised with the same size and the same hash function. -/
theorem apply_initialised {Key Data : Type} [LinearOrder Data] (t : SimpleHashTable Key Data)
    (n : Nat) (hinit : t.Initialised n) (op : HashOp Key Data) :
    ∃ t1, t.apply op = some t1 ∧ t1.Initialised n ∧ t1.h_ = t.h_ := by
  obtain ⟨h0, hlen, hsize⟩ := hinit
  cases op with
  | insert key value =>
    obtain ⟨table1, h1, h2, _⟩ := insertLoop_spec n value h0 (t.h_ key) t.table_ hlen
    refine ⟨{ t with table_ := table1 }, ?_, ⟨h0, h2, hsize⟩, rfl⟩
    simp only [SimpleHashTable.apply, insert, hlen, h1, Option.map_some']
  | query key =>
    refine ⟨t, ?_, ⟨h0, hlen, hsize⟩, rfl⟩
    simp only [SimpleHashTable.apply, dense_query_eq t n ⟨h0, hlen, hsize⟩ key,
      Option.map_some']
  | remove key value =>
    obtain ⟨table1, h1, h2, _⟩ := removeLoop_spec n value h0 (t.h_ key) t.table_ hlen
    refine ⟨{ t with table_ := table1 }, ?_, ⟨h0, h2, hsize⟩, rfl⟩
    simp only [SimpleHashTable.apply, remove, hlen, h1, Option.map_some']
  | clear =>
    refine ⟨{ t with table_ := vectorResize [] n }, ?_,
      ⟨h0, length_vectorResize _ _, hsize⟩, rfl⟩
    simp only [SimpleHashTable.apply, clear, hsize]

/-- A run of member calls on an initialised dense table completes and leaves the table
initialised with the same size and the same hash function. -/
theorem run_initialised {Key Data : Type} [LinearOrder Data] (n : Nat) :
    ∀ (ops : List (HashOp Key Data)) (t : SimpleHashTable Key Data), t.Initialised n →
      ∃ t1, SimpleHashTable.run ops t = some t1 ∧ t1.Initialised n ∧ t1.h_ = t.h_ := by
  intro ops
  induction ops with
  | nil => intro t hinit; exact ⟨t, rfl, hinit, rfl⟩
  | cons op rest ih =>
    intro t hinit
    obtain ⟨t1, h1, hinit1, hh1⟩ := apply_initialised t n hinit op
    obtain ⟨t2, h2, hinit2, hh2⟩ := ih t1 hinit1
    refine ⟨t2, ?_, hinit2, hh2.trans hh1⟩
    simp only [SimpleHashTable.run, h1, h2]

end SimpleHashTable

/-- C35. Dense table accesses stay in bounds: for a dense table on which `init(n)` with
`n > 0` has succeeded, every sequence of `insert`, `query`, `remove` and `clear` calls
completes without undefined behaviour and leaves a table with exactly `n` bins and
configured size `n`; on that table `insert`, `query` and `remove` complete for every key and
item, the divisor `table_.size()` is `n`, not zero, and every index they use, a hash index
modulo `n`, is strictly below the number of bins. -/
theorem dense_accesses_stay_in_bounds {Key Data : Type} [LinearOrder Data]
    (t : SimpleHashTable Key Data) (n : Nat) (ops : List (HashOp Key Data))
    (hinit : t.Initialised n) :
    ∃ t1, SimpleHashTable.run ops t = some t1 ∧
      t1.table_.length = n ∧ t1.table_size_ = some n ∧ t1.table_.length ≠ 0 ∧
      (∀ key, ∀ i ∈ t1.h_ key, i.val % t1.table_.length < t1.table_.length) ∧
      (∀ key item, (t1.insert key item).isSome = true ∧ (t1.query key).isSome = true ∧
        (t1.remove key item).isSome = true) := by
  obtain ⟨t1, h1, hinit1, _⟩ := SimpleHashTable.run_initialised n ops t hinit
  obtain ⟨h0, hlen, hsize⟩ := hinit1
  refine ⟨t1, h1, hlen, hsize, by rw [hlen]; exact Nat.ne_of_gt h0, ?_, ?_⟩
  · intro key i _
    rw [hlen]
    exact Nat.mod_lt _ h0
  · intro key item
    obtain ⟨a, ha, _⟩ := SimpleHashTable.apply_initialised t1 n ⟨h0, hlen, hsize⟩
      (.insert key item)
    obtain ⟨b, hb, _⟩ := SimpleHashTable.apply_initialised t1 n ⟨h0, hlen, hsize⟩
      (.remove key item)
    simp only [SimpleHashTable.apply] at ha hb
    rw [ha, hb, SimpleHashTable.dense_query_eq t1 n ⟨h0, hlen, hsize⟩ key]
    exact ⟨rfl, rfl, rfl⟩

/-- Witness for C35: a run of five calls on the sample table of three bins. -/
theorem dense_accesses_stay_in_bounds_witness :
    ∃ t1, SimpleHashTable.run
        [.insert 4 9, .query 4, .remove 1 5, .clear, .insert 2 6] sampleDense = some t1 ∧
      t1.table_.length = 3 ∧ t1.table_size_ = some 3 ∧ t1.table_.length ≠ 0 ∧
      (∀ key, ∀ i ∈ t1.h_ key, i.val % t1.table_.length < t1.table_.length) ∧
      (∀ key item, (t1.insert key item).isSome = true ∧ (t1.query key).isSome = true ∧
        (t1.remove key item).isSome = true) :=
  dense_accesses_stay_in_bounds sampleDense 3
    [.insert 4 9, .query 4, .remove 1 5, .clear, .insert 2 6] ⟨by decide, rfl, rfl⟩

/-- One member call applied to a dense table of size `n` and to a sparse table with the same
hash function, all of whose indices are below `n`: when the bins under every index hold the
same items before the call, they do so after it. -/
theorem apply_agree {Key Data : Type} [LinearOrder Data] (dense : SimpleHashTable Key Data)
    (sparse : SparseHashTable Key Data) (n : Nat) (hinit : dense.Initialised n)
    (hh : dense.h_ = sparse.h_) (hbelow : ∀ key, ∀ i ∈ dense.h_ key, i.val < n)
    (hbins : ∀ k a, a ∈ dense.bin k ↔ a ∈ sparse.bin k) (op : HashOp Key Data) :
    ∃ dense1, dense.apply op = some dense1 ∧ dense1.Initialised n ∧
      dense1.h_ = (sparse.apply op).h_ ∧ dense1.h_ = dense.h_ ∧
      ∀ k a, a ∈ dense1.bin k ↔ a ∈ (sparse.apply op).bin k := by
  obtain ⟨h0, hlen, hsize⟩ := hinit
  have hmod : ∀ key, ∀ i ∈ dense.h_ key, i.val % n = i.val := fun key i hi =>
    Nat.mod_eq_of_lt (hbelow key i hi)
  have hex : ∀ (key : Key) (k : Nat),
      (∃ i ∈ dense.h_ key, i.val % n = k) ↔ (∃ i ∈ sparse.h_ key, i.val = k) := by
    intro key k
    rw [← hh]
    constructor
    · rintro ⟨i, hi, hik⟩
      exact ⟨i, hi, by rw [← hmod key i hi]; exact hik⟩
    · rintro ⟨i, hi, hik⟩
      exact ⟨i, hi, by rw [hmod key i hi]; exact hik⟩
  cases op with
  | insert key value =>
    obtain ⟨table1, h1, h2, h3⟩ :=
      SimpleHashTable.insertLoop_spec n value h0 (dense.h_ key) dense.table_ hlen
    refine ⟨{ dense with table_ := table1 }, ?_, ⟨h0, h2, hsize⟩, hh, rfl, ?_⟩
    · simp only [SimpleHashTable.apply, SimpleHashTable.insert, hlen, h1, Option.map_some']
    · intro k a
      simp only [SimpleHashTable.bin, SparseHashTable.bin, SparseHashTable.apply,
        SparseHashTable.insert]
      rw [h3 k a, SparseHashTable.insert_fold_spec, hex key k]
      have := hbins k a
      simp only [SimpleHashTable.bin, SparseHashTable.bin] at this
      rw [this]
  | query key =>
    refine ⟨dense, ?_, ⟨h0, hlen, hsize⟩, hh, rfl, hbins⟩
    simp only [SimpleHashTable.apply,
      SimpleHashTable.dense_query_eq dense n ⟨h0, hlen, hsize⟩ key, Option.map_some']
  | remove key value =>
    obtain ⟨table1, h1, h2, h3⟩ :=
      SimpleHashTable.removeLoop_spec n value h0 (dense.h_ key) dense.table_ hlen
    refine ⟨{ dense with table_ := table1 }, ?_, ⟨h0, h2, hsize⟩, hh, rfl, ?_⟩
    · simp only [SimpleHashTable.apply, SimpleHashTable.remove, hlen, h1, Option.map_some']
    · intro k a
      have hb := hbins k a
      simp only [SimpleHashTable.bin, SparseHashTable.bin] at hb
      simp only [SimpleHashTable.bin, SparseHashTable.bin, SparseHashTable.apply,
        SparseHashTable.remove]
      by_cases hk : ∃ i ∈ dense.h_ key, i.val % n = k
      · rw [(h3 k).1 hk,
          (SparseHashTable.remove_fold_spec value (sparse.h_ key) sparse.table_ k).1
            ((hex key k).mp hk)]
        simp only [List.mem_filter, hb]
      · rw [(h3 k).2 hk,
          (SparseHashTable.remove_fold_spec value (sparse.h_ key) sparse.table_ k).2
            (fun h => hk ((hex key k).mpr h))]
        exact hb
  | clear =>
    refine ⟨{ dense with table_ := vectorResize [] n }, ?_,
      ⟨h0, length_vectorResize _ _, hsize⟩, hh, rfl, ?_⟩
    · simp only [SimpleHashTable.apply, SimpleHashTable.clear, hsize]
    · intro k a
      simp only [SimpleHashTable.bin, SparseHashTable.bin, SparseHashTable.apply,
        SparseHashTable.clear, getD_vectorResize_nil, Option.getD_none]

/-- A run of member calls applied to a dense table of size `n` and to a sparse table that
agree bin by bin, under a hash function with all indices below `n`: the dense run completes
and every query gives the same list on both tables afterwards. -/
theorem run_agree {Key Data : Type} [LinearOrder Data] (n : Nat) :
    ∀ (ops : List (HashOp Key Data)) (dense : SimpleHashTable Key Data)
      (sparse : SparseHashTable Key Data), dense.Initialised n → dense.h_ = sparse.h_ →
      (∀ key, ∀ i ∈ dense.h_ key, i.val < n) →
      (∀ k a, a ∈ dense.bin k ↔ a ∈ sparse.bin k) →
      ∃ dense1, SimpleHashTable.run ops dense = some dense1 ∧
        ∀ key, dense1.query key = some ((SparseHashTable.run ops sparse).query key) := by
  intro ops
  induction ops with
  | nil =>
    intro dense sparse hinit hh hbelow hbins
    refine ⟨dense, rfl, ?_⟩
    intro key
    rw [SimpleHashTable.dense_query_eq dense n hinit key]
    simp only [SparseHashTable.run]
    rw [SparseHashTable.sparse_query_eq]
    congr 1
    apply collect_congr
    intro a
    rw [← hh]
    constructor
    · rintro ⟨b, hb, ha⟩
      obtain ⟨i, hi, rfl⟩ := List.mem_map.mp hb
      refine ⟨_, List.mem_map.mpr ⟨i, hi, rfl⟩, ?_⟩
      rw [Nat.mod_eq_of_lt (hbelow key i hi)] at ha
      exact (hbins _ a).mp ha
    · rintro ⟨b, hb, ha⟩
      obtain ⟨i, hi, rfl⟩ := List.mem_map.mp hb
      refine ⟨_, List.mem_map.mpr ⟨i, hi, rfl⟩, ?_⟩
      rw [Nat.mod_eq_of_lt (hbelow key i hi)]
      exact (hbins _ a).mpr ha
  | cons op rest ih =>
    intro dense sparse hinit hh hbelow hbins
    obtain ⟨dense1, h1, hinit1, hh1, hsame, hbins1⟩ :=
      apply_agree dense sparse n hinit hh hbelow hbins op
    obtain ⟨dense2, h2, hq⟩ := ih dense1 (sparse.apply op) hinit1 hh1
      (by rw [hsame]; exact hbelow) hbins1
    refine ⟨dense2, ?_, hq⟩
    simp only [SimpleHashTable.run, h1, h2]

/-- C34. Dense and sparse tables agree when no index wraps: for every size `n > 0` and every
hash function all of whose indices are below `n`, after any finite sequence of `insert`,
`remove` and `clear` calls (queries may be interleaved) applied identically to a dense table
initialised with size `n` and to a sparse table, `query(key)` returns the same list from both
tables, for every key. -/
theorem dense_and_sparse_agree {Key Data : Type} [LinearOrder Data]
    (h : Key → List UnsignedInt) (n : Nat) (ops : List (HashOp Key Data)) (hn : 0 < n)
    (hbelow : ∀ key, ∀ i ∈ h key, i.val < n) :
    (((SimpleHashTable.new h : SimpleHashTable Key Data).init n).thrown = none) ∧
    ∃ dense1, SimpleHashTable.run ops
        ((SimpleHashTable.new h : SimpleHashTable Key Data).init n).object = some dense1 ∧
      ∀ key, dense1.query key =
        some ((SparseHashTable.run ops
          ((SparseHashTable.new h : SparseHashTable Key Data).init n)).query key) := by
  have hne : n ≠ 0 := Nat.pos_iff_ne_zero.mp hn
  refine ⟨by simp only [SimpleHashTable.init, hne, if_false], ?_⟩
  apply run_agree n ops
  · simp only [SimpleHashTable.init, hne, if_false, SimpleHashTable.Initialised,
      length_vectorResize, hn, and_self]
  · simp only [SimpleHashTable.init, hne, if_false, SimpleHashTable.new, SparseHashTable.init,
      SparseHashTable.new]
  · simp only [SimpleHashTable.init, hne, if_false, SimpleHashTable.new]
    exact hbelow
  · intro k a
    simp only [SimpleHashTable.init, hne, if_false, SimpleHashTable.new, SimpleHashTable.bin,
      SparseHashTable.bin, SparseHashTable.init, SparseHashTable.new, getD_vectorResize_nil,
      Option.getD_none]

/-- Witness for C34: three bins, the hash function with indices `k mod 3` and
`(k + 1) mod 3`, and a run of five calls. -/
theorem dense_and_sparse_agree_witness :
    (((SimpleHashTable.new sampleHashBelow : SimpleHashTable Nat Nat).init 3).thrown = none) ∧
    ∃ dense1, SimpleHashTable.run [.insert 4 9, .insert 2 6, .remove 1 9, .clear, .insert 5 7]
        ((SimpleHashTable.new sampleHashBelow : SimpleHashTable Nat Nat).init 3).object =
          some dense1 ∧
      ∀ key, dense1.query key =
        some ((SparseHashTable.run [.insert 4 9, .insert 2 6, .remove 1 9, .clear, .insert 5 7]
          ((SparseHashTable.new sampleHashBelow : SparseHashTable Nat Nat).init 3)).query
            key) :=
  dense_and_sparse_agree sampleHashBelow 3
    [.insert 4 9, .insert 2 6, .remove 1 9, .clear, .insert 5 7] (by decide) (by
      intro key i hi
      simp only [sampleHashBelow, List.mem_cons, List.mem_singleton, List.not_mem_nil,
        or_false] at hi
      rcases hi with h | h <;> subst h <;> exact Nat.mod_lt _ (by decide))

/-! ## The key order and the entries of the cache -/

/-- C36. The cache key order distinguishes exactly the distinct keys: neither `a < b` nor
`b < a` holds if and only if `a` and `b` have the same `bvType`, the same three scale
components and the same file name; two different keys are ordered one way or the other; a
lookup returns the geometry of an entry stored under exactly the key asked for and skips the
entry of any other key; and the caches built by loads from the empty cache hold no key
twice. -/
theorem cache_key_order_separates_keys (a b : CachedMeshLoader.Key) (g : CollisionGeometry)
    (cache : Cache_t) (res : ResourceLoader) (keys : List CachedMeshLoader.Key)
    (w0 : LoaderWorld) :
    ((CachedMeshLoader.Key.lt a b = false ∧ CachedMeshLoader.Key.lt b a = false) ↔
      (a.bvType = b.bvType ∧ a.scale.coeff 0 = b.scale.coeff 0 ∧
        a.scale.coeff 1 = b.scale.coeff 1 ∧ a.scale.coeff 2 = b.scale.coeff 2 ∧
        a.filename = b.filename)) ∧
    (a ≠ b → CachedMeshLoader.Key.lt a b = true ∨ CachedMeshLoader.Key.lt b a = true) ∧
    (Cache_t.find a cache = some g → (a, g) ∈ cache) ∧
    (a ≠ b → Cache_t.find a ((b, g) :: cache) = Cache_t.find a cache) ∧
    (Cache_t.find a ((a, g) :: cache) = some g) ∧
    ((CachedMeshLoader.loadAll res keys ⟨[]⟩ w0).1.cache_.map Prod.fst).Nodup := by
  refine ⟨?_, ?_, Cache_t.mem_of_find a g cache, ?_, ?_,
    (CachedMeshLoader.loadAll_keys res keys ⟨[]⟩ w0 List.nodup_nil).1⟩
  · rw [CachedMeshLoader.Key.unordered_iff_eq]
    constructor
    · rintro rfl
      exact ⟨rfl, rfl, rfl, rfl, rfl⟩
    · rintro ⟨h0, h1, h2, h3, h4⟩
      cases a with
      | mk fa sa ba =>
        cases b with
        | mk fb sb bb =>
          cases sa
          cases sb
          simp only [Vec3f.coeff] at h0 h1 h2 h3 h4
          subst h0 h1 h2 h3 h4
          rfl
  · intro hne
    by_contra hno
    apply hne
    apply (CachedMeshLoader.Key.unordered_iff_eq a b).mp
    constructor
    · cases h : CachedMeshLoader.Key.lt a b
      · rfl
      · exact absurd (Or.inl h) hno
    · cases h : CachedMeshLoader.Key.lt b a
      · rfl
      · exact absurd (Or.inr h) hno
  · intro hne
    rw [Cache_t.find_cons]
    simp only [Ne.symm hne, if_false]
  · rw [Cache_t.find_cons]
    simp only [if_true]

/-! ## Traversal strategies of the mesh routines -/

/-- C32. Mesh-mesh pairs of the kind `RSS`: the cell `[BV_RSS][BV_RSS]` holds `BVHCollide<RSS>`,
for which the source has no specialisation; on a request that is not satisfied the call
copies both models, traverses the copies with the generic node class and releases them. The
cells of `OBB`, `kIOS` and `OBBRSS` hold routines that traverse the caller's two models with
their placements and record no copy. -/
theorem rss_mesh_pair_clones_both_models (HPP_FCL_HAVE_OCTOMAP : Bool) (ext : Externals)
    (NDEBUG : Bool) (o1 : CollisionGeometry) (tf1 : Transform3f) (o2 : CollisionGeometry)
    (tf2 : Transform3f) (request : CollisionRequest) (result : CollisionResult) :
    CollisionFunctionMatrix HPP_FCL_HAVE_OCTOMAP .BV_RSS .BV_RSS = some (.BVHCollide .RSS) ∧
    ((CollisionFunc.BVHCollide .RSS).call (fixedExternals 0 ⟨⟨0, 0, 0⟩, ⟨0, 0, 0⟩, ⟨1, 0, 0⟩, 0, 0⟩ [])
        NDEBUG 1 Transform3f.identity 2 Transform3f.identity (sampleRequest 1 0) ⟨[], 0⟩).trace =
      [Event.clone 1, Event.clone 2,
       Event.traversal ⟨.MeshCollisionTraversalNode .RSS, .copy 1, Transform3f.identity,
         .copy 2, Transform3f.identity⟩,
       Event.release 1, Event.release 2] ∧
    ((CollisionFunc.BVHCollide .RSS).call ext NDEBUG o1 tf1 o2 tf2 request result).trace =
      (if ext.isSatisfied request result then []
       else [Event.clone o1, Event.clone o2,
         Event.traversal ⟨.MeshCollisionTraversalNode .RSS, .copy o1, tf1, .copy o2, tf2⟩,
         Event.release o1, Event.release o2]) ∧
    (CollisionFunctionMatrix HPP_FCL_HAVE_OCTOMAP .BV_OBB .BV_OBB = some (.BVHCollide .OBB) ∧
      CollisionFunctionMatrix HPP_FCL_HAVE_OCTOMAP .BV_kIOS .BV_kIOS =
        some (.BVHCollide .kIOS) ∧
      CollisionFunctionMatrix HPP_FCL_HAVE_OCTOMAP .BV_OBBRSS .BV_OBBRSS =
        some (.BVHCollide .OBBRSS)) ∧
    ((CollisionFunc.BVHCollide .OBB).call ext NDEBUG o1 tf1 o2 tf2 request result).trace =
      (if ext.isSatisfied request result then []
       else [Event.traversal
         ⟨.MeshCollisionTraversalNodeOBB, .original o1, tf1, .original o2, tf2⟩]) ∧
    ((CollisionFunc.BVHCollide .kIOS).call ext NDEBUG o1 tf1 o2 tf2 request result).trace =
      (if ext.isSatisfied request result then []
       else [Event.traversal
         ⟨.MeshCollisionTraversalNodekIOS, .original o1, tf1, .original o2, tf2⟩]) ∧
    ((CollisionFunc.BVHCollide .OBBRSS).call ext NDEBUG o1 tf1 o2 tf2 request result).trace =
      (if ext.isSatisfied request result then []
       else [Event.traversal
         ⟨.MeshCollisionTraversalNodeOBBRSS, .original o1, tf1, .original o2, tf2⟩]) := by
  refine ⟨matrix_bvh_cells HPP_FCL_HAVE_OCTOMAP .RSS, ?_, ?_,
    ⟨matrix_bvh_cells HPP_FCL_HAVE_OCTOMAP .OBB, matrix_bvh_cells HPP_FCL_HAVE_OCTOMAP .kIOS,
      matrix_bvh_cells HPP_FCL_HAVE_OCTOMAP .OBBRSS⟩, ?_, ?_, ?_⟩
  · rfl
  · cases hsat : ext.isSatisfied request result <;>
      simp [CollisionFunc.call, BVHCollide, BVHCollidePrimary, satisfiedReturn, hsat]
  · cases hsat : ext.isSatisfied request result <;>
      simp [CollisionFunc.call, BVHCollide, details.orientedMeshCollide, satisfiedReturn, hsat]
  · cases hsat : ext.isSatisfied request result <;>
      simp [CollisionFunc.call, BVHCollide, details.orientedMeshCollide, satisfiedReturn, hsat]
  · cases hsat : ext.isSatisfied request result <;>
      simp [CollisionFunc.call, BVHCollide, details.orientedMeshCollide, satisfiedReturn, hsat]

/-- C33. Strategy selection for mesh-shape pairs: for every bounding-volume kind `b` and each
of the eight shapes `s`, the cell `[BV_b][GEOM_s]` holds the mesh-shape routine of `b` and
`s`; on a request that is not satisfied that routine traverses the caller's mesh and the
shape, with no copy made, if and only if `b` is `OBB`, `RSS`, `kIOS` or `OBBRSS`, and it
copies the mesh, traverses the copy and the shape with the generic node class and releases
the copy afterwards if and only if `b` is `AABB`, `KDOP16`, `KDOP18` or `KDOP24`. -/
theorem mesh_shape_strategy_selection (HPP_FCL_HAVE_OCTOMAP : Bool) (ext : Externals)
    (NDEBUG : Bool) (b : BVType) (s : ShapeType)
    (o1 : CollisionGeometry) (tf1 : Transform3f) (o2 : CollisionGeometry) (tf2 : Transform3f)
    (request : CollisionRequest) (result : CollisionResult)
    (hsat : ext.isSatisfied request result = false) :
    ∃ f, CollisionFunctionMatrix HPP_FCL_HAVE_OCTOMAP b.nodeType s.nodeType = some f ∧
      ((∃ cls, (f.call ext NDEBUG o1 tf1 o2 tf2 request result).trace =
          [Event.traversal ⟨cls, .original o1, tf1, .original o2, tf2⟩]) ↔
        (b = .OBB ∨ b = .RSS ∨ b = .kIOS ∨ b = .OBBRSS)) ∧
      ((f.call ext NDEBUG o1 tf1 o2 tf2 request result).trace =
          [Event.clone o1,
           Event.traversal ⟨.MeshShapeCollisionTraversalNode b s, .copy o1, tf1,
             .original o2, tf2⟩,
           Event.release o1] ↔
        (b = .AABB ∨ b = .KDOP16 ∨ b = .KDOP18 ∨ b = .KDOP24)) ∧
      (Event.clone o1 ∈ (f.call ext NDEBUG o1 tf1 o2 tf2 request result).trace ↔
        (b = .AABB ∨ b = .KDOP16 ∨ b = .KDOP18 ∨ b = .KDOP24)) ∧
      ((b = .OBB ∨ b = .RSS ∨ b = .kIOS ∨ b = .OBBRSS) ∨
        (b = .AABB ∨ b = .KDOP16 ∨ b = .KDOP18 ∨ b = .KDOP24)) := by
  refine ⟨_, matrix_bvh_shape_cells HPP_FCL_HAVE_OCTOMAP b s, ?_⟩
  cases b <;>
    simp [CollisionFunc.call, BVHShapeCollider.collide, BVHShapeCollider.collidePrimary,
      details.orientedBVHShapeCollide, hsat]

/-- Witness for C33: a mesh of kind `RSS` against a box, and the empty result under a request
for one contact. -/
theorem mesh_shape_strategy_selection_witness :
    ∃ f, CollisionFunctionMatrix false BVType.RSS.nodeType ShapeType.Box.nodeType = some f ∧
      ((∃ cls, (f.call (fixedExternals 0 ⟨⟨0, 0, 0⟩, ⟨0, 0, 0⟩, ⟨1, 0, 0⟩, 0, 0⟩ []) false
          1 Transform3f.identity 2 Transform3f.identity (sampleRequest 1 0) ⟨[], 0⟩).trace =
          [Event.traversal ⟨cls, .original 1, Transform3f.identity, .original 2,
            Transform3f.identity⟩]) ↔
        (BVType.RSS = .OBB ∨ BVType.RSS = .RSS ∨ BVType.RSS = .kIOS ∨
          BVType.RSS = .OBBRSS)) :=
  (mesh_shape_strategy_selection false
    (fixedExternals 0 ⟨⟨0, 0, 0⟩, ⟨0, 0, 0⟩, ⟨1, 0, 0⟩, 0, 0⟩ []) false .RSS .Box
    1 Transform3f.identity 2 Transform3f.identity (sampleRequest 1 0) ⟨[], 0⟩ rfl).imp
    (fun _ h => ⟨h.1, h.2.1⟩)

/-! ## The assertion of the penetrating branch -/

/-- C39. Hidden precondition of the penetrating branch: in `ShapeShapeCollide`, the assertion
that the solver's two nearest points are equal is evaluated exactly when the request is not
satisfied, the solver distance is `d ≤ 0` and `numContacts() < num_max_contacts`, and then
once; its value is true if and only if the solver reported coincident nearest points; it is
never evaluated when the request is satisfied, in the security-margin branch, in the
no-contact branch (`d > 0`), or when the cap prevents recording. This is the routine compiled
with `assert` active; compiled with `NDEBUG` the macro expands to nothing and no evaluation
takes place in any branch. -/
theorem assertion_guards_penetrating_branch (ext : Externals)
    (T_SH1 T_SH2 : ShapeType) (o1 : CollisionGeometry) (tf1 : Transform3f)
    (o2 : CollisionGeometry) (tf2 : Transform3f)
    (request : CollisionRequest) (result : CollisionResult) (holds : Bool) :
    (Event.assertion holds ∈
        (ShapeShapeCollide ext false T_SH1 T_SH2 o1 tf1 o2 tf2 request result).trace ↔
      (ext.isSatisfied request result = false ∧
        (ext.ShapeShapeDistance T_SH1 T_SH2 o1 tf1 o2 tf2
          { enable_nearest_points := request.enable_contact }).1 ≤ 0 ∧
        result.numContacts < request.num_max_contacts ∧
        (holds = true ↔
          (ext.ShapeShapeDistance T_SH1 T_SH2 o1 tf1 o2 tf2
            { enable_nearest_points := request.enable_contact }).2.nearest_points0 =
          (ext.ShapeShapeDistance T_SH1 T_SH2 o1 tf1 o2 tf2
            { enable_nearest_points := request.enable_contact }).2.nearest_points1))) ∧
    ((ext.isSatisfied request result = true ∨
        0 < (ext.ShapeShapeDistance T_SH1 T_SH2 o1 tf1 o2 tf2
          { enable_nearest_points := request.enable_contact }).1 ∨
        request.num_max_contacts ≤ result.numContacts) →
      Event.assertion holds ∉
        (ShapeShapeCollide ext false T_SH1 T_SH2 o1 tf1 o2 tf2 request result).trace) ∧
    ((ShapeShapeCollide ext false T_SH1 T_SH2 o1 tf1 o2 tf2 request result).trace.count
        (Event.assertion true) +
      (ShapeShapeCollide ext false T_SH1 T_SH2 o1 tf1 o2 tf2 request result).trace.count
        (Event.assertion false) ≤ 1) ∧
    (Event.assertion holds ∉
      (ShapeShapeCollide ext true T_SH1 T_SH2 o1 tf1 o2 tf2 request result).trace) := by
  cases hsat : ext.isSatisfied request result with
  | true =>
    simp [ShapeShapeCollide, hsat]
  | false =>
    obtain ⟨d, dr, hsolve⟩ : ∃ d dr, ext.ShapeShapeDistance T_SH1 T_SH2 o1 tf1 o2 tf2
        { enable_nearest_points := request.enable_contact } = (d, dr) := ⟨_, _, rfl⟩
    rw [ShapeShapeCollide_unsatisfied ext false T_SH1 T_SH2 o1 tf1 o2 tf2 request result d dr
      hsat hsolve,
      ShapeShapeCollide_unsatisfied ext true T_SH1 T_SH2 o1 tf1 o2 tf2 request result d dr
      hsat hsolve]
    simp only [hsolve]
    by_cases hd : d ≤ 0
    · by_cases hcap : result.numContacts < request.num_max_contacts
      · by_cases hp : dr.nearest_points0 = dr.nearest_points1
        · cases holds <;>
            simp [hd, hcap, hp, not_lt.mpr hd, not_le.mpr hcap, List.count_cons]
        · cases holds <;>
            simp [hd, hcap, hp, not_lt.mpr hd, not_le.mpr hcap, List.count_cons]
      · simp [hd, hcap, List.count_cons]
    · by_cases hm : d ≤ request.security_margin
      · by_cases hcap : result.numContacts < request.num_max_contacts
        · simp [hd, hm, hcap, List.count_cons]
        · simp [hd, hm, hcap, List.count_cons]
      · simp [hd, hm, List.count_cons]

end HppFcl
